import Mathlib

/-!
Shallow embedding of the configuration reconciliation core of the
airslate-ops/kubernetes-ingress repository (internal/k8s/configuration.go),
together with proofs about its claims.

Go maps are embedded as association lists; every iteration over a map in the
source is preceded by a key sort (as in the source), so the association-list
order is observationally irrelevant wherever the source sorts.  Pointer
aliasing between the `hosts`/`listenerHosts` maps and the `resources` maps in
the source is embedded by keying the scratch maps by the resource key and
resolving keys to values once mutations are finished; a mutation through one
alias in Go is an update at the shared key here.
-/

namespace Ingr

/-- Lookup in an association list (Go map read); returns the first binding. -/
def alookup {κ : Type} [DecidableEq κ] {α : Type} (k : κ) : List (κ × α) → Option α
  | [] => none
  | (k', v) :: l => if k' = k then some v else alookup k l

/-- Remove every binding of a key (Go `delete(m, k)`). -/
def aerase {κ : Type} [DecidableEq κ] {α : Type} (k : κ) : List (κ × α) → List (κ × α)
  | [] => []
  | (k', v) :: l => if k' = k then aerase k l else (k', v) :: aerase k l

/-- Insert or replace a binding (Go `m[k] = v`). -/
def ainsert {κ : Type} [DecidableEq κ] {α : Type} (k : κ) (v : α) (l : List (κ × α)) :
    List (κ × α) :=
  (k, v) :: aerase k l

/-- Apply a function to the value bound at a key, if any. -/
def aupdate {κ : Type} [DecidableEq κ] {α : Type} (k : κ) (f : α → α) :
    List (κ × α) → List (κ × α)
  | [] => []
  | (k', v) :: l => if k' = k then (k', f v) :: l else (k', v) :: aupdate k f l

/-- Boolean string comparison (Go `<` on strings): lexicographic on the
character lists, pinned to the structural decision procedure of the core
library so that it evaluates. -/
def strLt (a b : String) : Bool :=
  @decide (@LT.lt (List Char) List.instLT a.data b.data) (List.hasDecidableLt a.data b.data)

/-- Insert into a list kept sorted ascending by the string view of elements. -/
def insertSortedBy {κ : Type} (f : κ → String) (a : κ) : List κ → List κ
  | [] => [a]
  | b :: l => if strLt (f b) (f a) then b :: insertSortedBy f a l else a :: b :: l

/-- Sort ascending by the string view (Go `sort.Strings` / `sort.Slice`). -/
def sortKeysBy {κ : Type} (f : κ → String) (l : List κ) : List κ :=
  l.foldr (insertSortedBy f) []

/-- Sorted keys of a string-keyed association list. -/
def getSortedKeys {α : Type} (m : List (String × α)) : List String :=
  sortKeysBy id (m.map Prod.fst)

/-! ## Data model (Kubernetes objects, as the core reads them) -/

/-- Object metadata; `ns` is the Kubernetes namespace, `creationTimestamp` a
point in time, `uid` the textual UID, `labels` and `annotations` the string
maps of the object (embedded as canonical association lists). -/
structure ObjectMeta where
  ns : String
  name : String
  creationTimestamp : Nat
  uid : String
  generation : Int
  annotations : List (String × String)
  labels : List (String × String)
deriving DecidableEq, Repr

/-- `networking/v1` ingress HTTP path with its backend service reference. -/
structure HTTPIngressPath where
  path : String
  backendServiceName : String
  backendServicePortNumber : Int
deriving DecidableEq, Repr

/-- One ingress rule: a host plus its HTTP paths. -/
structure IngressRule where
  host : String
  httpPaths : List HTTPIngressPath
deriving DecidableEq, Repr

/-- An Ingress resource (the fields the core reads). -/
structure Ingress where
  objectMeta : ObjectMeta
  rules : List IngressRule
deriving DecidableEq, Repr

/-- `vs.Spec.Listener`: names of HTTP and HTTPS listeners. -/
structure VSListenerRef where
  http : String
  https : String
deriving DecidableEq, Repr

/-- One entry of `vs.Spec.Routes`: a path and a VirtualServerRoute reference. -/
structure VSRouteRef where
  path : String
  route : String
deriving DecidableEq, Repr

/-- A VirtualServer resource (the fields the core reads). -/
structure VirtualServer where
  objectMeta : ObjectMeta
  host : String
  routes : List VSRouteRef
  listenerRef : Option VSListenerRef
deriving DecidableEq, Repr

/-- An upstream of a VirtualServerRoute. -/
structure Upstream where
  name : String
  service : String
  port : Nat
deriving DecidableEq, Repr

/-- An action of a route (only the `pass` field is used by the core). -/
structure RouteAction where
  pass : String
deriving DecidableEq, Repr

/-- A subroute of a VirtualServerRoute. -/
structure Subroute where
  path : String
  action : Option RouteAction
deriving DecidableEq, Repr

/-- A VirtualServerRoute resource (the fields the core reads). -/
structure VirtualServerRoute where
  objectMeta : ObjectMeta
  host : String
  upstreams : List Upstream
  subroutes : List Subroute
deriving DecidableEq, Repr

/-- `ts.Spec.Listener`: a listener name and protocol. -/
structure TSListenerRef where
  name : String
  protocol : String
deriving DecidableEq, Repr

/-- A TransportServer resource (the fields the core reads). -/
structure TransportServer where
  objectMeta : ObjectMeta
  listenerRef : TSListenerRef
  host : String
deriving DecidableEq, Repr

/-- A listener of the GlobalConfiguration. -/
structure Listener where
  name : String
  port : Int
  protocol : String
  ssl : Bool
  ipv4 : String
  ipv6 : String
deriving DecidableEq, Repr

/-- A GlobalConfiguration resource: the list of named listeners. -/
structure GlobalConfiguration where
  listeners : List Listener
deriving DecidableEq, Repr

/-- Modelled from the spec: the constant names and protocol strings of the
`conf_v1` package (not under src/); the spec fixes `"tls-passthrough"` as the
listener name and `TLS_PASSTHROUGH` as its protocol, and `HTTP` as the
HTTP-listener protocol. -/
def TLSPassthroughListenerName : String := "tls-passthrough"

/-- Modelled from the spec: the TLS passthrough listener protocol string. -/
def TLSPassthroughListenerProtocol : String := "TLS_PASSTHROUGH"

/-- Modelled from the spec: the HTTP listener protocol string. -/
def HTTPProtocol : String := "HTTP"

/-- Modelled from the spec: the event reasons of the `nl` logger package (not
under src/); the spec gives the closed set Rejected, NoIngressMasterFound,
NoVirtualServerFound, Ignored. -/
def EventReasonRejected : String := "Rejected"

/-- Modelled from the spec: event reason for orphan minions. -/
def EventReasonNoIngressMasterFound : String := "NoIngressMasterFound"

/-- Modelled from the spec: event reason for orphan VirtualServerRoutes. -/
def EventReasonNoVirtualServerFound : String := "NoVirtualServerFound"

/-- Modelled from the spec: event reason for ignored VirtualServerRoutes. -/
def EventReasonIgnored : String := "Ignored"

/-- Modelled from the spec: `isMaster` lives outside src/; the spec says an
ingress is a master if it has a single host and zero paths. -/
def isMaster (ing : Ingress) : Bool :=
  match ing.rules with
  | [rule] => rule.httpPaths.isEmpty
  | _ => false

/-- Modelled from the spec: `isMinion` lives outside src/; the spec says an
ingress is a minion if it declares a master via annotation.  The annotation
key is embedded as the mergeable-ingress-type key with value `minion`. -/
def isMinion (ing : Ingress) : Bool :=
  alookup "nginx.org/mergeable-ingress-type" ing.objectMeta.annotations == some "minion"

/-! ## Derived configuration objects -/

/-- Kind name constants. -/
def ingressKind : String := "Ingress"

/-- Kind name for VirtualServer. -/
def virtualServerKind : String := "VirtualServer"

/-- Kind name for VirtualServerRoute. -/
def virtualServerRouteKind : String := "VirtualServerRoute"

/-- Kind name for TransportServer. -/
def transportServerKind : String := "TransportServer"

/-- `getResourceKey`: "namespace/name". -/
def getResourceKey (m : ObjectMeta) : String :=
  m.ns ++ "/" ++ m.name

/-- `getResourceKeyWithKind`: "Kind/namespace/name". -/
def getResourceKeyWithKind (kind : String) (m : ObjectMeta) : String :=
  kind ++ "/" ++ m.ns ++ "/" ++ m.name

/-- `chooseObjectMetaWinner`: on equal creation timestamps the greater UID
wins, otherwise the earlier timestamp wins. -/
def chooseObjectMetaWinner (meta1 meta2 : ObjectMeta) : Bool :=
  if meta1.creationTimestamp = meta2.creationTimestamp then
    strLt meta2.uid meta1.uid
  else
    decide (meta1.creationTimestamp < meta2.creationTimestamp)

/-- An operation to perform for a resource. -/
inductive Operation where
  | Delete
  | AddOrUpdate
deriving DecidableEq, Repr

/-- `MinionConfiguration`: a minion ingress with its path validity map. -/
structure MinionConfiguration where
  ingress : Ingress
  validPaths : List (String × Bool)
deriving DecidableEq, Repr

/-- `IngressConfiguration`: an ingress (regular or master) with its minions,
host-validity map, warnings and child warnings. -/
structure IngressConfiguration where
  ingress : Ingress
  isMaster : Bool
  minions : List MinionConfiguration
  validHosts : List (String × Bool)
  warnings : List String
  childWarnings : List (String × List String)
deriving DecidableEq, Repr

/-- `VirtualServerConfiguration`: a VirtualServer with its routes, warnings
and resolved listener ports and addresses. -/
structure VirtualServerConfiguration where
  virtualServer : VirtualServer
  virtualServerRoutes : List VirtualServerRoute
  warnings : List String
  httpPort : Int
  httpsPort : Int
  httpIPv4 : String
  httpIPv6 : String
  httpsIPv4 : String
  httpsIPv6 : String
deriving DecidableEq, Repr

/-- `TransportServerConfiguration`: a TransportServer with its resolved
listener port and addresses and warnings. -/
structure TransportServerConfiguration where
  listenerPort : Int
  ipv4 : String
  ipv6 : String
  transportServer : TransportServer
  warnings : List String
deriving DecidableEq, Repr

/-- `NewRegularIngressConfiguration`. -/
def NewRegularIngressConfiguration (ing : Ingress) : IngressConfiguration :=
  { ingress := ing, isMaster := false, minions := [], validHosts := [],
    warnings := [], childWarnings := [] }

/-- `NewMasterIngressConfiguration`. -/
def NewMasterIngressConfiguration (ing : Ingress) (minions : List MinionConfiguration)
    (childWarnings : List (String × List String)) : IngressConfiguration :=
  { ingress := ing, isMaster := true, minions := minions, validHosts := [],
    warnings := [], childWarnings := childWarnings }

/-- `NewMinionConfiguration`. -/
def NewMinionConfiguration (ing : Ingress) : MinionConfiguration :=
  { ingress := ing, validPaths := [] }

/-- `NewVirtualServerConfiguration`. -/
def NewVirtualServerConfiguration (vs : VirtualServer) (vsrs : List VirtualServerRoute)
    (warnings : List String) : VirtualServerConfiguration :=
  { virtualServer := vs, virtualServerRoutes := vsrs, warnings := warnings,
    httpPort := 0, httpsPort := 0, httpIPv4 := "", httpIPv6 := "",
    httpsIPv4 := "", httpsIPv6 := "" }

/-- `NewTransportServerConfiguration`. -/
def NewTransportServerConfiguration (ts : TransportServer) : TransportServerConfiguration :=
  { listenerPort := 0, ipv4 := "", ipv6 := "", transportServer := ts, warnings := [] }

/-- `compareObjectMetas`: namespace, name and generation agree. -/
def compareObjectMetas (meta1 meta2 : ObjectMeta) : Bool :=
  meta1.ns == meta2.ns && meta1.name == meta2.name && meta1.generation == meta2.generation

/-- `compareObjectMetasWithAnnotations`. -/
def compareObjectMetasWithAnnotations (meta1 meta2 : ObjectMeta) : Bool :=
  compareObjectMetas meta1 meta2 && meta1.annotations == meta2.annotations

/-- Keep the first binding of each key, dropping later duplicates. -/
def dedupKeysFirst {α : Type} : List (String × α) → List String → List (String × α)
  | [], _ => []
  | (k, v) :: l, seen =>
      if k ∈ seen then dedupKeysFirst l seen
      else (k, v) :: dedupKeysFirst l (k :: seen)

/-- Canonical form of a string-keyed map: first-binding-wins, sorted by key.
Two association lists are `reflect.DeepEqual` as Go maps exactly when their
canonical forms are equal (association lists built by the core never repeat a
key). -/
def normalizeAssoc {α : Type} (l : List (String × α)) : List (String × α) :=
  sortKeysBy Prod.fst (dedupKeysFirst l [])

/-- `reflect.DeepEqual` on the `ValidHosts` maps. -/
def validHostsEqual (a b : List (String × Bool)) : Bool :=
  normalizeAssoc a == normalizeAssoc b

/-- Pointwise `compareObjectMetasWithAnnotations` over minion lists of equal
length (the length test and the indexed loop of the source). -/
def compareMinionLists : List MinionConfiguration → List MinionConfiguration → Bool
  | [], [] => true
  | a :: as', b :: bs' =>
      compareObjectMetasWithAnnotations a.ingress.objectMeta b.ingress.objectMeta &&
      compareMinionLists as' bs'
  | _, _ => false

/-- Pointwise `compareObjectMetas` over VirtualServerRoute lists of equal
length (the length test and the indexed loop of the source). -/
def compareVSRLists : List VirtualServerRoute → List VirtualServerRoute → Bool
  | [], [] => true
  | a :: as', b :: bs' =>
      compareObjectMetas a.objectMeta b.objectMeta && compareVSRLists as' bs'
  | _, _ => false

/-- The polymorphic `Resource` interface: one of the three top-level derived
configuration objects. -/
inductive Resource where
  | ingRes (c : IngressConfiguration)
  | vsRes (c : VirtualServerConfiguration)
  | tsRes (c : TransportServerConfiguration)
deriving DecidableEq, Repr

namespace Resource

/-- `GetObjectMeta`. -/
def GetObjectMeta : Resource → ObjectMeta
  | .ingRes c => c.ingress.objectMeta
  | .vsRes c => c.virtualServer.objectMeta
  | .tsRes c => c.transportServer.objectMeta

/-- `GetKeyWithKind`. -/
def GetKeyWithKind : Resource → String
  | .ingRes c => ingressKind ++ "/" ++ getResourceKey c.ingress.objectMeta
  | .vsRes c => virtualServerKind ++ "/" ++ getResourceKey c.virtualServer.objectMeta
  | .tsRes c => transportServerKind ++ "/" ++ getResourceKey c.transportServer.objectMeta

/-- `Wins`: conflict ordering via `chooseObjectMetaWinner`. -/
def Wins (r other : Resource) : Bool :=
  chooseObjectMetaWinner r.GetObjectMeta other.GetObjectMeta

/-- `AddWarning`. -/
def AddWarning : Resource → String → Resource
  | .ingRes c, w => .ingRes { c with warnings := c.warnings ++ [w] }
  | .vsRes c, w => .vsRes { c with warnings := c.warnings ++ [w] }
  | .tsRes c, w => .tsRes { c with warnings := c.warnings ++ [w] }

/-- `IsEqual`: the kind-specific structural compare of the source; resources
of different kinds are never equal. -/
def IsEqual : Resource → Resource → Bool
  | .ingRes a, .ingRes b =>
      compareObjectMetasWithAnnotations a.ingress.objectMeta b.ingress.objectMeta &&
      validHostsEqual a.validHosts b.validHosts &&
      a.isMaster == b.isMaster &&
      compareMinionLists a.minions b.minions
  | .vsRes a, .vsRes b =>
      compareObjectMetas a.virtualServer.objectMeta b.virtualServer.objectMeta &&
      compareVSRLists a.virtualServerRoutes b.virtualServerRoutes
  | .tsRes a, .tsRes b =>
      compareObjectMetas a.transportServer.objectMeta b.transportServer.objectMeta &&
      a.listenerPort == b.listenerPort
  | _, _ => false

end Resource

/-- `ResourceChange`: an operation, its target resource, and the attached
validation error (empty string when none). -/
structure ResourceChange where
  op : Operation
  resource : Resource
  error : String
deriving DecidableEq, Repr

/-- The configuration object carried by a problem. -/
inductive ProblemObject where
  | ingObj (i : Ingress)
  | vsObj (v : VirtualServer)
  | vsrObj (r : VirtualServerRoute)
  | tsObj (t : TransportServer)
deriving DecidableEq, Repr

/-- `ConfigurationProblem`. -/
structure ConfigurationProblem where
  object : ProblemObject
  isError : Bool
  reason : String
  message : String
deriving DecidableEq, Repr

/-- `compareConfigurationProblems`: object is not compared. -/
def compareConfigurationProblems (problem1 problem2 : ConfigurationProblem) : Bool :=
  problem1.isError == problem2.isError &&
  problem1.reason == problem2.reason &&
  problem1.message == problem2.message

/-- `listenerHostKey`. -/
structure listenerHostKey where
  listenerName : String
  host : String
deriving DecidableEq, Repr

/-- The string view of a `listenerHostKey`, used for sorting. -/
def listenerHostKey.str (lhk : listenerHostKey) : String :=
  lhk.listenerName ++ "|" ++ lhk.host

/-! ## The Configuration store

The validators and the ingress-class predicate are injected at construction
in the source; they are fields holding functions here.  `validateIngress` is
a free function of a sibling file in the source; the spec treats validator
output as opaque, so it is injected the same way. -/

/-- The `Configuration` store state.  The lock is irrelevant to the embedding
(callers drive mutators serially). -/
structure KConfiguration where
  hosts : List (String × Resource)
  listenerHosts : List (listenerHostKey × TransportServerConfiguration)
  listenerMap : List (String × Listener)
  ingresses : List (String × Ingress)
  virtualServers : List (String × VirtualServer)
  virtualServerRoutes : List (String × VirtualServerRoute)
  transportServers : List (String × TransportServer)
  globalConfiguration : Option GlobalConfiguration
  hostProblems : List (String × ConfigurationProblem)
  listenerProblems : List (String × ConfigurationProblem)
  hasCorrectIngressClassIng : Ingress → Bool
  hasCorrectIngressClassVS : VirtualServer → Bool
  hasCorrectIngressClassVSR : VirtualServerRoute → Bool
  hasCorrectIngressClassTS : TransportServer → Bool
  validateIngress : Ingress → Option String
  validateVirtualServer : VirtualServer → Option String
  validateVirtualServerRoute : VirtualServerRoute → Option String
  validateVirtualServerRouteForVirtualServer :
    VirtualServerRoute → String → String → Option String
  validateTransportServer : TransportServer → Option String
  validateGlobalConfiguration : GlobalConfiguration → Option String
  isTLSPassthroughEnabled : Bool
  isCertManagerEnabled : Bool

/-- `NewConfiguration` (only the fields the claims exercise are parameters;
reference checkers and the remaining flags are dropped as no claim reads
them). -/
def NewConfiguration
    (hasCorrectIngressClassIng : Ingress → Bool)
    (hasCorrectIngressClassVS : VirtualServer → Bool)
    (hasCorrectIngressClassVSR : VirtualServerRoute → Bool)
    (hasCorrectIngressClassTS : TransportServer → Bool)
    (validateIngress : Ingress → Option String)
    (validateVirtualServer : VirtualServer → Option String)
    (validateVirtualServerRoute : VirtualServerRoute → Option String)
    (validateVirtualServerRouteForVirtualServer :
      VirtualServerRoute → String → String → Option String)
    (validateTransportServer : TransportServer → Option String)
    (validateGlobalConfiguration : GlobalConfiguration → Option String)
    (isTLSPassthroughEnabled : Bool)
    (isCertManagerEnabled : Bool) : KConfiguration :=
  { hosts := [], listenerHosts := [], listenerMap := [],
    ingresses := [], virtualServers := [], virtualServerRoutes := [],
    transportServers := [], globalConfiguration := none,
    hostProblems := [], listenerProblems := [],
    hasCorrectIngressClassIng, hasCorrectIngressClassVS,
    hasCorrectIngressClassVSR, hasCorrectIngressClassTS,
    validateIngress, validateVirtualServer, validateVirtualServerRoute,
    validateVirtualServerRouteForVirtualServer, validateTransportServer,
    validateGlobalConfiguration, isTLSPassthroughEnabled, isCertManagerEnabled }

/-! ## Host rebuild -/

/-- `isChallengeIngress`: the cert-manager HTTP-01 solver label. -/
def isChallengeIngress (c : KConfiguration) (ing : Ingress) : Bool :=
  if ¬ c.isCertManagerEnabled then false
  else alookup "acme.cert-manager.io/http01-solver" ing.objectMeta.labels == some "true"

/-- `isChallengeIngressOwnerVs`: does some stored VirtualServer carry the
host? -/
def isChallengeIngressOwnerVs (c : KConfiguration) (host : String) : Bool :=
  (getSortedKeys c.virtualServers).any fun key =>
    match alookup key c.virtualServers with
    | some vs => host == vs.host
    | none => false

/-- The zero `ObjectMeta` (the fields Go leaves at their zero value when a
composite literal sets only Namespace and Name). -/
def zeroMetaWith (ns name : String) : ObjectMeta :=
  { ns := ns, name := name, creationTimestamp := 0, uid := "", generation := 0,
    annotations := [], labels := [] }

/-- The head of a list, or the zero value (Go indexing `xs[0]` on data the
callers guarantee non-empty). -/
def hd0 {α : Type} [Inhabited α] (l : List α) : α :=
  l.headD default

instance : Inhabited HTTPIngressPath := ⟨⟨"", "", 0⟩⟩

instance : Inhabited IngressRule := ⟨⟨"", []⟩⟩

/-- `convertIngressToVSR`: synthesise a VirtualServerRoute from a challenge
ingress, or return none when no stored VirtualServer carries the host.  The
upstream port is the Go `uint16` conversion of the backend port number. -/
def convertIngressToVSR (c : KConfiguration) (ing : Ingress) : Option VirtualServerRoute :=
  let rule := hd0 ing.rules
  if ¬ isChallengeIngressOwnerVs c rule.host then none
  else
    let p := hd0 rule.httpPaths
    some
      { objectMeta := zeroMetaWith ing.objectMeta.ns ing.objectMeta.name,
        host := rule.host,
        upstreams := [{ name := "challenge", service := p.backendServiceName,
                        port := (p.backendServicePortNumber % 65536).toNat }],
        subroutes := [{ path := p.path, action := some { pass := "challenge" } }] }

/-- `buildMinionConfigs`: gather the minions of a master host, arbitrating
path ownership.  The `paths` map holds the resource key of the holding
minion; a mutation through the aliased holder pointer in the source is a
write to the current minion when the holder key is its own key (a duplicate
path inside one minion collides with itself: the winner test compares the
meta with itself and fails, so the path is re-claimed, then marked invalid
through the alias, and the warning lands on the minion's own key), and an
in-place update in the accumulated minion map otherwise (the map keeps the
sorted insertion order of the source's slice). -/
def buildMinionConfigs (c : KConfiguration) (masterHost : String) :
    List MinionConfiguration × List (String × List String) :=
  let step := fun (acc : List (String × MinionConfiguration) × List (String × String) ×
                     List (String × List String)) (minionKey : String) =>
    let (minionsMap, paths, childWarnings) := acc
    match alookup minionKey c.ingresses with
    | none => acc
    | some ingress =>
      if ¬ isMinion ingress then acc
      else if ¬ (masterHost == (hd0 ingress.rules).host) then acc
      else
        let mKey := getResourceKey ingress.objectMeta
        let pathStep := fun (a : MinionConfiguration × List (String × MinionConfiguration) ×
                              List (String × String) × List (String × List String))
                            (p : HTTPIngressPath) =>
          let (mc, mMap, paths, cw) := a
          match alookup p.path paths with
          | none =>
              ({ mc with validPaths := ainsert p.path true mc.validPaths },
               mMap, ainsert p.path mKey paths, cw)
          | some holderKey =>
            let warning := "path " ++ p.path ++ " is taken by another resource"
            let holderMeta :=
              if holderKey = mKey then mc.ingress.objectMeta
              else ((alookup holderKey mMap).getD mc).ingress.objectMeta
            if ¬ chooseObjectMetaWinner holderMeta ingress.objectMeta then
              let mc := { mc with validPaths := ainsert p.path true mc.validPaths }
              let mc := if holderKey = mKey then
                          { mc with validPaths := ainsert p.path false mc.validPaths }
                        else mc
              let mMap := if holderKey = mKey then mMap
                          else aupdate holderKey
                            (fun h => { h with
                              validPaths := ainsert p.path false h.validPaths }) mMap
              (mc, mMap, ainsert p.path mKey paths,
               ainsert holderKey ((alookup holderKey cw).getD [] ++ [warning]) cw)
            else
              (mc, mMap, paths,
               ainsert mKey ((alookup mKey cw).getD [] ++ [warning]) cw)
        let (mc, mMap, paths, childWarnings) :=
          (hd0 ingress.rules).httpPaths.foldl pathStep
            (NewMinionConfiguration ingress, minionsMap, paths, childWarnings)
        (mMap ++ [(mKey, mc)], paths, childWarnings)
  let (minionsMap, _, childWarnings) :=
    (getSortedKeys c.ingresses).foldl step ([], [], [])
  (minionsMap.map Prod.snd, childWarnings)

/-- `buildVirtualServerRoutes`: resolve the route references of a
VirtualServer against the stored VirtualServerRoutes. -/
def buildVirtualServerRoutes (c : KConfiguration) (vs : VirtualServer) :
    List VirtualServerRoute × List String :=
  vs.routes.foldl
    (fun (acc : List VirtualServerRoute × List String) r =>
      let (vsrs, warnings) := acc
      if r.route == "" then acc
      else
        let vsrKey := if r.route.contains '/' then r.route
                      else vs.objectMeta.ns ++ "/" ++ r.route
        match alookup vsrKey c.virtualServerRoutes with
        | none =>
            (vsrs, warnings ++ ["VirtualServerRoute " ++ vsrKey ++ " doesn't exist or invalid"])
        | some vsr =>
          match c.validateVirtualServerRouteForVirtualServer vsr vs.host r.path with
          | some err =>
              (vsrs, warnings ++ ["VirtualServerRoute " ++ vsrKey ++ " is invalid: " ++ err])
          | none => (vsrs ++ [vsr], warnings))
    ([], [])

/-- `buildListenersForVSConfiguration`: assign listener ports and addresses
from the global configuration when the referenced listener exists with the
HTTP protocol and the expected ssl flag. -/
def buildListenersForVSConfiguration (c : KConfiguration)
    (vsc : VirtualServerConfiguration) : VirtualServerConfiguration :=
  let vs := vsc.virtualServer
  match vs.listenerRef, c.globalConfiguration with
  | some lref, some _ =>
    let vsc :=
      match alookup lref.http c.listenerMap with
      | some gcListener =>
          if gcListener.protocol == HTTPProtocol && gcListener.ssl == false then
            { vsc with httpPort := gcListener.port, httpIPv4 := gcListener.ipv4,
                       httpIPv6 := gcListener.ipv6 }
          else vsc
      | none => vsc
    match alookup lref.https c.listenerMap with
    | some gcListener =>
        if gcListener.protocol == HTTPProtocol && gcListener.ssl == true then
          { vsc with httpsPort := gcListener.port, httpsIPv4 := gcListener.ipv4,
                     httpsIPv6 := gcListener.ipv6 }
        else vsc
    | none => vsc
  | _, _ => vsc

/-- Claim a host for a resource: the collision branch of each pass.  `hostsK`
maps a host to the key of its holder in `resources`; warnings are added at
the holder's or claimant's key (the aliased pointer mutation of the
source). -/
def claimHost (host resKey warning : String)
    (acc : List (String × String) × List (String × Resource)) :
    List (String × String) × List (String × Resource) :=
  let (hostsK, resources) := acc
  match alookup host hostsK with
  | none => (ainsert host resKey hostsK, resources)
  | some holderKey =>
    match alookup holderKey resources, alookup resKey resources with
    | some holder, some resource =>
        if ¬ holder.Wins resource then
          (ainsert host resKey hostsK,
           aupdate holderKey (fun r => r.AddWarning warning) resources)
        else
          (hostsK, aupdate resKey (fun r => r.AddWarning warning) resources)
    | _, _ => acc

/-- The ingress pass of `buildHostsAndResources` (step for one sorted key). -/
def ingressPassStep (c : KConfiguration)
    (acc : List (String × String) × List (String × Resource) × List VirtualServerRoute)
    (key : String) :
    List (String × String) × List (String × Resource) × List VirtualServerRoute :=
  let (hostsK, resources, challengesVSR) := acc
  match alookup key c.ingresses with
  | none => acc
  | some ing =>
    if isMinion ing then acc
    else
      match (if isChallengeIngress c ing then convertIngressToVSR c ing else none) with
      | some vsr => (hostsK, resources, challengesVSR ++ [vsr])
      | none =>
        let resource :=
          if isMaster ing then
            let (minions, childWarnings) := buildMinionConfigs c (hd0 ing.rules).host
            NewMasterIngressConfiguration ing minions childWarnings
          else NewRegularIngressConfiguration ing
        let rKey := (Resource.ingRes resource).GetKeyWithKind
        let resources := ainsert rKey (Resource.ingRes resource) resources
        let (hostsK, resources) := ing.rules.foldl
          (fun a rule =>
            claimHost rule.host rKey
              ("host " ++ rule.host ++ " is taken by another resource") a)
          (hostsK, resources)
        (hostsK, resources, challengesVSR)

/-- The VirtualServer pass of `buildHostsAndResources`. -/
def vsPassStep (c : KConfiguration) (challengesVSR : List VirtualServerRoute)
    (acc : List (String × String) × List (String × Resource)) (key : String) :
    List (String × String) × List (String × Resource) :=
  let (hostsK, resources) := acc
  match alookup key c.virtualServers with
  | none => acc
  | some vs =>
    let (vsrs, warnings) := buildVirtualServerRoutes c vs
    let vsrs := challengesVSR.foldl
      (fun acc vsr => if vs.host == vsr.host then acc ++ [vsr] else acc) vsrs
    let resource := buildListenersForVSConfiguration c
      (NewVirtualServerConfiguration vs vsrs warnings)
    let rKey := (Resource.vsRes resource).GetKeyWithKind
    let resources := ainsert rKey (Resource.vsRes resource) resources
    claimHost vs.host rKey
      ("host " ++ vs.host ++ " is taken by another resource")
      (hostsK, resources)

/-- The TLS-passthrough pass of `buildHostsAndResources`.  The skip condition
reproduces the source verbatim: the entry is skipped only when the listener
name differs from `tls-passthrough` AND the protocol differs from
`TLS_PASSTHROUGH`. -/
def tsPassStep (c : KConfiguration)
    (acc : List (String × String) × List (String × Resource)) (key : String) :
    List (String × String) × List (String × Resource) :=
  let (hostsK, resources) := acc
  match alookup key c.transportServers with
  | none => acc
  | some ts =>
    if ts.listenerRef.name ≠ TLSPassthroughListenerName ∧
       ts.listenerRef.protocol ≠ TLSPassthroughListenerProtocol then acc
    else
      let resource := NewTransportServerConfiguration ts
      let rKey := (Resource.tsRes resource).GetKeyWithKind
      let resources := ainsert rKey (Resource.tsRes resource) resources
      claimHost ts.host rKey
        ("host " ++ ts.host ++ " is taken by another resource")
        (hostsK, resources)

/-- `buildHostsAndResources`: the three passes, each over sorted keys.
Returns the host map (host to resource key) and the resources map (resource
key to derived resource). -/
def buildHostsAndResources (c : KConfiguration) :
    List (String × String) × List (String × Resource) :=
  let s1 := (getSortedKeys c.ingresses).foldl (ingressPassStep c) ([], [], [])
  let s2 := (getSortedKeys c.virtualServers).foldl (vsPassStep c s1.2.2)
    (s1.1, s1.2.1)
  if c.isTLSPassthroughEnabled then
    (getSortedKeys c.transportServers).foldl (tsPassStep c) s2
  else s2

/-- `updateActiveHostsForIngresses`: mark each rule host of each ingress
configuration valid exactly when the host map holds that configuration. -/
def updateActiveHostsForIngresses (hostsK : List (String × String))
    (resources : List (String × Resource)) : List (String × Resource) :=
  resources.map fun p =>
    match p.2 with
    | .ingRes ic =>
        let vh := ic.ingress.rules.foldl
          (fun vh rule => ainsert rule.host (alookup rule.host hostsK == some p.1) vh)
          ic.validHosts
        (p.1, .ingRes { ic with validHosts := vh })
    | r => (p.1, r)

/-- `addWarningsForVirtualServersWithMissConfiguredListeners`; the warning is
added to the resource holding the VirtualServer's host (the aliased mutation
through `c.hosts` in the source). -/
def addWarningsForVirtualServersWithMissConfiguredListeners (c : KConfiguration)
    (hostsK : List (String × String)) (resources : List (String × Resource)) :
    List (String × Resource) :=
  let isListenerInCorrectBlock := fun (listenerName : String) (expectedSsl : Bool) =>
    match alookup listenerName c.listenerMap with
    | some listener => listener.ssl == expectedSsl
    | none => true
  let warnHostOwner := fun (host warning : String) (res : List (String × Resource)) =>
    match alookup host hostsK with
    | some holderKey => aupdate holderKey (fun r => r.AddWarning warning) res
    | none => res
  resources.foldl
    (fun res p =>
      match p.2 with
      | .vsRes vsc =>
        match vsc.virtualServer.listenerRef with
        | none => res
        | some lref =>
          let host := vsc.virtualServer.host
          match c.globalConfiguration with
          | none =>
              warnHostOwner host "Listeners defined, but no GlobalConfiguration is deployed" res
          | some _ =>
            if isListenerInCorrectBlock lref.http false = false then
              warnHostOwner host
                ("Listener " ++ lref.http ++
                 " can't be use in `listener.http` context as SSL is enabled for that listener.")
                res
            else if isListenerInCorrectBlock lref.https true = false then
              warnHostOwner host
                ("Listener " ++ lref.https ++
                 " can't be use in `listener.https` context as SSL is not enabled for that listener.")
                res
            else if lref.http ≠ "" ∧ alookup lref.http c.listenerMap = none then
              warnHostOwner host
                ("Listener " ++ lref.http ++ " is not defined in GlobalConfiguration") res
            else if lref.https ≠ "" ∧ alookup lref.https c.listenerMap = none then
              warnHostOwner host
                ("Listener " ++ lref.https ++ " is not defined in GlobalConfiguration") res
            else res
      | _ => res)
    resources

/-- Resolve the key-valued host map to the resource values (the source's
`hosts` map holds the shared pointers directly). -/
def resolveHosts (hostsK : List (String × String))
    (resources : List (String × Resource)) : List (String × Resource) :=
  hostsK.filterMap fun p =>
    match alookup p.2 resources with
    | some r => some (p.1, r)
    | none => none

/-- `getSortedResourceKeys`. -/
def getSortedResourceKeys (m : List (String × Resource)) : List String :=
  getSortedKeys m

/-- The per-host update test of `detectChangesInHosts`: equality first, then
the extra VirtualServer port and address comparisons of the source (each
firing appends the host again, as in the source). -/
def updatedHostsFor (oldHosts newHosts : List (String × Resource)) (h : String) :
    List String :=
  match alookup h oldHosts, alookup h newHosts with
  | some oldR, some newR =>
      if ¬ oldR.IsEqual newR then [h]
      else
        match oldR, newR with
        | .vsRes oldVsc, .vsRes newVsc =>
            (if newVsc.httpPort ≠ oldVsc.httpPort ∨ newVsc.httpsPort ≠ oldVsc.httpsPort
             then [h] else []) ++
            (if newVsc.httpIPv4 ≠ oldVsc.httpIPv4 then [h] else []) ++
            (if newVsc.httpIPv6 ≠ oldVsc.httpIPv6 then [h] else [])
        | _, _ => []
  | _, _ => []

/-- `detectChangesInHosts`: removed, updated and added hosts. -/
def detectChangesInHosts (oldHosts newHosts : List (String × Resource)) :
    List String × List String × List String :=
  let removedHosts := (getSortedResourceKeys oldHosts).filter
    (fun h => (alookup h newHosts).isNone)
  let addedHosts := (getSortedResourceKeys newHosts).filter
    (fun h => (alookup h oldHosts).isNone)
  let updatedHosts := (getSortedResourceKeys newHosts).flatMap
    (updatedHostsFor oldHosts newHosts)
  (removedHosts, updatedHosts, addedHosts)

/-- `createResourceChangesForHosts`: deletes for removed hosts; for each
updated host a delete of the old owner when the identity changed followed by
an upsert of the new owner; upserts for added hosts; deletes first. -/
def createResourceChangesForHosts (removedHosts updatedHosts addedHosts : List String)
    (oldHosts newHosts : List (String × Resource)) : List ResourceChange :=
  let deleteChanges := removedHosts.filterMap fun h =>
    (alookup h oldHosts).map fun r => ResourceChange.mk .Delete r ""
  let (deleteChanges, changes) := updatedHosts.foldl
    (fun (acc : List ResourceChange × List ResourceChange) h =>
      let (dc, ch) := acc
      match alookup h oldHosts, alookup h newHosts with
      | some o, some n =>
          let dc := if o.GetKeyWithKind ≠ n.GetKeyWithKind
                    then dc ++ [ResourceChange.mk .Delete o ""] else dc
          (dc, ch ++ [ResourceChange.mk .AddOrUpdate n ""])
      | _, _ => acc)
    (deleteChanges, [])
  let changes := changes ++ addedHosts.filterMap fun h =>
    (alookup h newHosts).map fun r => ResourceChange.mk .AddOrUpdate r ""
  deleteChanges ++ changes

/-- First-occurrence order of the resource keys of a change list. -/
def firstOccKeys : List ResourceChange → List String → List String
  | [], _ => []
  | c :: rest, seen =>
      if c.resource.GetKeyWithKind ∈ seen then firstOccKeys rest seen
      else c.resource.GetKeyWithKind :: firstOccKeys rest (c.resource.GetKeyWithKind :: seen)

/-- The last change of a key in a list (the squashed representative). -/
def lastChangeFor (key : String) (changes : List ResourceChange) : Option ResourceChange :=
  changes.foldl
    (fun acc c => if c.resource.GetKeyWithKind = key then some c else acc) none

/-- `squashResourceChanges`: keep the last change per resource identity, in
first-occurrence order, deletes before upserts. -/
def squashResourceChanges (changes : List ResourceChange) : List ResourceChange :=
  let keys := firstOccKeys changes []
  let squashed := keys.filterMap (fun k => lastChangeFor k changes)
  squashed.filter (fun c => c.op == .Delete) ++
    squashed.filter (fun c => ! (c.op == .Delete))

/-- Replace a change's resource with the latest version from the new
resources map, when present. -/
def freshenChange (newResources : List (String × Resource))
    (ch : ResourceChange) : ResourceChange :=
  match alookup ch.resource.GetKeyWithKind newResources with
  | some r => { ch with resource := r }
  | none => ch

/-- The pointer-freshening loop of `rebuildHosts`. -/
def freshenChanges (changes : List ResourceChange)
    (newResources : List (String × Resource)) : List ResourceChange :=
  changes.map (freshenChange newResources)

/-- `addProblemsForResourcesWithoutActiveHost`. -/
def addProblemsForResourcesWithoutActiveHost (newHosts : List (String × Resource))
    (resources : List (String × Resource))
    (problems : List (String × ConfigurationProblem)) :
    List (String × ConfigurationProblem) :=
  resources.foldl
    (fun probs p =>
      match p.2 with
      | .ingRes ic =>
          if ic.validHosts.any (fun q => q.2) then probs
          else
            ainsert (Resource.ingRes ic).GetKeyWithKind
              { object := .ingObj ic.ingress, isError := false,
                reason := EventReasonRejected,
                message := "All hosts are taken by other resources" } probs
      | .vsRes vsc =>
        (match alookup vsc.virtualServer.host newHosts with
         | some res =>
             if res.GetKeyWithKind ≠ (Resource.vsRes vsc).GetKeyWithKind then
               ainsert (Resource.vsRes vsc).GetKeyWithKind
                 { object := .vsObj vsc.virtualServer, isError := false,
                   reason := EventReasonRejected,
                   message := "Host is taken by another resource" } probs
             else probs
         | none => probs)
      | .tsRes tsc =>
        (match alookup tsc.transportServer.host newHosts with
         | some res =>
             if res.GetKeyWithKind ≠ (Resource.tsRes tsc).GetKeyWithKind then
               ainsert (Resource.tsRes tsc).GetKeyWithKind
                 { object := .tsObj tsc.transportServer, isError := false,
                   reason := EventReasonRejected,
                   message := "Host is taken by another resource" } probs
             else probs
         | none => probs))
    problems

/-- `addProblemsForOrphanMinions`. -/
def addProblemsForOrphanMinions (c : KConfiguration)
    (newHosts : List (String × Resource))
    (problems : List (String × ConfigurationProblem)) :
    List (String × ConfigurationProblem) :=
  (getSortedKeys c.ingresses).foldl
    (fun probs key =>
      match alookup key c.ingresses with
      | none => probs
      | some ing =>
        if ¬ isMinion ing then probs
        else
          let ok := match alookup (hd0 ing.rules).host newHosts with
                    | some (.ingRes ic) => ic.isMaster
                    | _ => false
          if ok then probs
          else
            ainsert (getResourceKeyWithKind ingressKind ing.objectMeta)
              { object := .ingObj ing, isError := false,
                reason := EventReasonNoIngressMasterFound,
                message := "Ingress master is invalid or doesn't exist" } probs)
    problems

/-- `addProblemsForOrphanOrIgnoredVsrs`. -/
def addProblemsForOrphanOrIgnoredVsrs (c : KConfiguration)
    (newHosts : List (String × Resource))
    (problems : List (String × ConfigurationProblem)) :
    List (String × ConfigurationProblem) :=
  (getSortedKeys c.virtualServerRoutes).foldl
    (fun probs key =>
      match alookup key c.virtualServerRoutes with
      | none => probs
      | some vsr =>
        match alookup vsr.host newHosts with
        | some (.vsRes vsConfig) =>
            if vsConfig.virtualServerRoutes.any
                (fun v => vsr.objectMeta.ns == v.objectMeta.ns &&
                          vsr.objectMeta.name == v.objectMeta.name) then probs
            else
              ainsert (getResourceKeyWithKind virtualServerRouteKind vsr.objectMeta)
                { object := .vsrObj vsr, isError := false,
                  reason := EventReasonIgnored,
                  message := "VirtualServer " ++
                    getResourceKey vsConfig.virtualServer.objectMeta ++
                    " ignores VirtualServerRoute" } probs
        | _ =>
            ainsert (getResourceKeyWithKind virtualServerRouteKind vsr.objectMeta)
              { object := .vsrObj vsr, isError := false,
                reason := EventReasonNoVirtualServerFound,
                message := "VirtualServer is invalid or doesn't exist" } probs)
    problems

/-- `getSortedProblemKeys`. -/
def getSortedProblemKeys (m : List (String × ConfigurationProblem)) : List String :=
  getSortedKeys m

/-- `detectChangesInProblems`: the problems absent from the old map or
differing from their old record. -/
def detectChangesInProblems (newProblems oldProblems : List (String × ConfigurationProblem)) :
    List ConfigurationProblem :=
  (getSortedProblemKeys newProblems).filterMap fun key =>
    match alookup key newProblems with
    | none => none
    | some newP =>
      match alookup key oldProblems with
      | none => some newP
      | some oldP => if compareConfigurationProblems newP oldP then none else some newP

/-- The new resources map of a host rebuild, after the valid-host marking and
the listener warnings (pure in the store fields of the state). -/
def computeNewResources (c : KConfiguration) : List (String × Resource) :=
  addWarningsForVirtualServersWithMissConfiguredListeners c (buildHostsAndResources c).1
    (updateActiveHostsForIngresses (buildHostsAndResources c).1 (buildHostsAndResources c).2)

/-- The new hosts map of a host rebuild. -/
def computeNewHosts (c : KConfiguration) : List (String × Resource) :=
  resolveHosts (buildHostsAndResources c).1 (computeNewResources c)

/-- The new host-problems map of a host rebuild. -/
def computeNewHostProblems (c : KConfiguration) : List (String × ConfigurationProblem) :=
  addProblemsForOrphanOrIgnoredVsrs c (computeNewHosts c)
    (addProblemsForOrphanMinions c (computeNewHosts c)
      (addProblemsForResourcesWithoutActiveHost (computeNewHosts c)
        (computeNewResources c) []))

/-- `rebuildHosts`: returns the updated state, the squashed and freshened
change list, and the problem delta. -/
def rebuildHosts (c : KConfiguration) :
    KConfiguration × List ResourceChange × List ConfigurationProblem :=
  let newHosts := computeNewHosts c
  let d := detectChangesInHosts c.hosts newHosts
  let changes := freshenChanges
    (squashResourceChanges
      (createResourceChangesForHosts d.1 d.2.1 d.2.2 c.hosts newHosts))
    (computeNewResources c)
  let newProblems := computeNewHostProblems c
  ({ c with hosts := newHosts, hostProblems := newProblems }, changes,
   detectChangesInProblems newProblems c.hostProblems)

/-! ## Listener rebuild -/

/-- The first listener of the global configuration matching the
TransportServer's listener name and protocol. -/
def findListenerFor (gc : GlobalConfiguration) (ts : TransportServer) : Option Listener :=
  gc.listeners.find? fun l => ts.listenerRef.name == l.name &&
    ts.listenerRef.protocol == l.protocol

/-- `TransportServerConfiguration.Wins` via `chooseObjectMetaWinner`. -/
def tscWins (a b : TransportServerConfiguration) : Bool :=
  chooseObjectMetaWinner a.transportServer.objectMeta b.transportServer.objectMeta

/-- `TransportServerConfiguration.IsEqual` on bare configurations. -/
def tscIsEqual (a b : TransportServerConfiguration) : Bool :=
  compareObjectMetas a.transportServer.objectMeta b.transportServer.objectMeta &&
  a.listenerPort == b.listenerPort

/-- `buildListenerHostsAndTSConfigurations` (iteration over sorted store keys;
the source ranges over the Go map, whose order is unspecified).  The listener
host map holds the store key of the holding configuration; warnings are
updates at that key in the configurations map. -/
def buildListenerHostsAndTSConfigurations (c : KConfiguration) :
    List (listenerHostKey × String) × List (String × TransportServerConfiguration) :=
  (getSortedKeys c.transportServers).foldl
    (fun (acc : List (listenerHostKey × String) × List (String × TransportServerConfiguration))
         key =>
      let (lhK, tsConfigs) := acc
      match alookup key c.transportServers with
      | none => acc
      | some ts =>
        if ts.listenerRef.protocol == TLSPassthroughListenerProtocol then acc
        else
          let tsc := NewTransportServerConfiguration ts
          let tsConfigs := ainsert key tsc tsConfigs
          match c.globalConfiguration with
          | none => (lhK, tsConfigs)
          | some gc =>
            match findListenerFor gc ts with
            | none => (lhK, tsConfigs)
            | some listener =>
              let tsc := { tsc with
                listenerPort := listener.port, ipv4 := listener.ipv4,
                ipv6 := listener.ipv6 }
              let tsConfigs := ainsert key tsc tsConfigs
              let lhk := listenerHostKey.mk listener.name ts.host
              match alookup lhk lhK with
              | none => (ainsert lhk key lhK, tsConfigs)
              | some holderKey =>
                match alookup holderKey tsConfigs with
                | none => (lhK, tsConfigs)
                | some holder =>
                  let warning := "listener " ++ listener.name ++ " and host " ++
                    ts.host ++ " are taken by another resource"
                  if ¬ tscWins holder tsc then
                    (ainsert lhk key lhK,
                     aupdate holderKey
                       (fun h => { h with warnings := h.warnings ++ [warning] }) tsConfigs)
                  else
                    (lhK,
                     aupdate key
                       (fun h => { h with warnings := h.warnings ++ [warning] }) tsConfigs))
    ([], [])

/-- Resolve the key-valued listener-host map to configuration values. -/
def resolveListenerHosts (lhK : List (listenerHostKey × String))
    (tsConfigs : List (String × TransportServerConfiguration)) :
    List (listenerHostKey × TransportServerConfiguration) :=
  lhK.filterMap fun p =>
    match alookup p.2 tsConfigs with
    | some tsc => some (p.1, tsc)
    | none => none

/-- `getSortedListenerHostKeys`. -/
def getSortedListenerHostKeys {α : Type}
    (m : List (listenerHostKey × α)) : List listenerHostKey :=
  sortKeysBy listenerHostKey.str (m.map Prod.fst)

/-- `detectChangesInListenerHosts`. -/
def detectChangesInListenerHosts
    (oldListenerHosts newListenerHosts : List (listenerHostKey × TransportServerConfiguration)) :
    List listenerHostKey × List listenerHostKey × List listenerHostKey :=
  let removed := (getSortedListenerHostKeys oldListenerHosts).filter
    (fun k => (alookup k newListenerHosts).isNone)
  let added := (getSortedListenerHostKeys newListenerHosts).filter
    (fun k => (alookup k oldListenerHosts).isNone)
  let updated := (getSortedListenerHostKeys newListenerHosts).filter fun k =>
    match alookup k oldListenerHosts, alookup k newListenerHosts with
    | some oldC, some newC => ¬ tscIsEqual oldC newC
    | _, _ => false
  (removed, updated, added)

/-- `createResourceChangesForListeners`. -/
def createResourceChangesForListeners
    (removed updated added : List listenerHostKey)
    (oldListeners newListeners : List (listenerHostKey × TransportServerConfiguration)) :
    List ResourceChange :=
  let deleteChanges := removed.filterMap fun l =>
    (alookup l oldListeners).map fun r => ResourceChange.mk .Delete (.tsRes r) ""
  let (deleteChanges, changes) := updated.foldl
    (fun (acc : List ResourceChange × List ResourceChange) l =>
      let (dc, ch) := acc
      match alookup l oldListeners, alookup l newListeners with
      | some o, some n =>
          let dc := if (Resource.tsRes o).GetKeyWithKind ≠ (Resource.tsRes n).GetKeyWithKind
                    then dc ++ [ResourceChange.mk .Delete (.tsRes o) ""] else dc
          (dc, ch ++ [ResourceChange.mk .AddOrUpdate (.tsRes n) ""])
      | _, _ => acc)
    (deleteChanges, [])
  let changes := changes ++ added.filterMap fun l =>
    (alookup l newListeners).map fun r => ResourceChange.mk .AddOrUpdate (.tsRes r) ""
  deleteChanges ++ changes

/-- `addProblemsForTSConfigsWithoutActiveListener`: each non-passthrough
configuration whose listener/host key is unoccupied gets the
listener-doesn't-exist problem; one whose key is held by a configuration not
equal to it gets the taken-by-another-resource problem. -/
def addProblemsForTSConfigsWithoutActiveListener
    (listenerHosts : List (listenerHostKey × TransportServerConfiguration))
    (tsConfigs : List (String × TransportServerConfiguration))
    (problems : List (String × ConfigurationProblem)) :
    List (String × ConfigurationProblem) :=
  tsConfigs.foldl
    (fun probs p =>
      let tsc := p.2
      let listenerName := tsc.transportServer.listenerRef.name
      let host := tsc.transportServer.host
      let hostDescription := if host == "" then "empty host" else host
      match alookup (listenerHostKey.mk listenerName host) listenerHosts with
      | none =>
          ainsert (Resource.tsRes tsc).GetKeyWithKind
            { object := .tsObj tsc.transportServer, isError := false,
              reason := EventReasonRejected,
              message := "Listener " ++ listenerName ++ " doesn't exist" } probs
      | some holder =>
          if ¬ tscIsEqual tsc holder then
            ainsert (Resource.tsRes tsc).GetKeyWithKind
              { object := .tsObj tsc.transportServer, isError := false,
                reason := EventReasonRejected,
                message := "Listener " ++ listenerName ++ " with host " ++
                  hostDescription ++ " is taken by another resource" } probs
          else probs)
    problems

/-- The new listener-host map of a listener rebuild. -/
def computeNewListenerHosts (c : KConfiguration) :
    List (listenerHostKey × TransportServerConfiguration) :=
  let (lhK, tsConfigs) := buildListenerHostsAndTSConfigurations c
  resolveListenerHosts lhK tsConfigs

/-- The new listener-problems map of a listener rebuild. -/
def computeNewListenerProblems (c : KConfiguration) :
    List (String × ConfigurationProblem) :=
  addProblemsForTSConfigsWithoutActiveListener (computeNewListenerHosts c)
    (buildListenerHostsAndTSConfigurations c).2 []

/-- `rebuildListenerHosts`.  The freshening loop of the source looks the
change's kind-prefixed key up in the configurations map, which is keyed by
namespace/name; the lookup therefore never succeeds, and is reproduced
verbatim. -/
def rebuildListenerHosts (c : KConfiguration) :
    KConfiguration × List ResourceChange × List ConfigurationProblem :=
  let newListenerHosts := computeNewListenerHosts c
  let d := detectChangesInListenerHosts c.listenerHosts newListenerHosts
  let changes := (squashResourceChanges
    (createResourceChangesForListeners d.1 d.2.1 d.2.2 c.listenerHosts
      newListenerHosts)).map fun ch =>
    match alookup ch.resource.GetKeyWithKind (buildListenerHostsAndTSConfigurations c).2 with
    | some r => { ch with resource := .tsRes r }
    | none => ch
  let newProblems := computeNewListenerProblems c
  ({ c with listenerHosts := newListenerHosts, listenerProblems := newProblems }, changes,
   detectChangesInProblems newProblems c.listenerProblems)

/-! ## Public mutators -/

/-- Attach a validation error to the first change of the given resource key;
returns the new list and whether a change matched. -/
def attachErrorToChanges (changes : List ResourceChange) (kwk err : String) :
    List ResourceChange × Bool :=
  match changes with
  | [] => ([], false)
  | ch :: rest =>
    if ch.resource.GetKeyWithKind = kwk then ({ ch with error := err } :: rest, true)
    else
      let (rest', found) := attachErrorToChanges rest kwk err
      (ch :: rest', found)

/-- `setGlobalConfigListenerMap`. -/
def setGlobalConfigListenerMap (c : KConfiguration) : KConfiguration :=
  match c.globalConfiguration with
  | none => { c with listenerMap := [] }
  | some gc =>
      { c with listenerMap :=
          gc.listeners.foldl (fun m l => ainsert l.name l m) [] }

/-- Evict an Ingress from the store (`delete(c.ingresses, key)`). -/
def ingStoreErase (c : KConfiguration) (key : String) : KConfiguration :=
  { c with ingresses := aerase key c.ingresses }

/-- Store an Ingress (`c.ingresses[key] = ing`). -/
def ingStoreInsert (c : KConfiguration) (key : String) (ing : Ingress) :
    KConfiguration :=
  { c with ingresses := ainsert key ing c.ingresses }

/-- Evict a VirtualServerRoute from the store. -/
def vsrStoreErase (c : KConfiguration) (key : String) : KConfiguration :=
  { c with virtualServerRoutes := aerase key c.virtualServerRoutes }

/-- Store a VirtualServerRoute. -/
def vsrStoreInsert (c : KConfiguration) (key : String) (vsr : VirtualServerRoute) :
    KConfiguration :=
  { c with virtualServerRoutes := ainsert key vsr c.virtualServerRoutes }

/-- Evict a TransportServer from the store. -/
def tsStoreErase (c : KConfiguration) (key : String) : KConfiguration :=
  { c with transportServers := aerase key c.transportServers }

/-- Store a TransportServer. -/
def tsStoreInsert (c : KConfiguration) (key : String) (ts : TransportServer) :
    KConfiguration :=
  { c with transportServers := ainsert key ts c.transportServers }

/-- Set the GlobalConfiguration slot (`c.globalConfiguration = gc` or nil). -/
def gcStoreSet (c : KConfiguration) (o : Option GlobalConfiguration) :
    KConfiguration :=
  { c with globalConfiguration := o }

/-- `AddOrUpdateIngress`: evict on class mismatch or validation failure,
store otherwise, rebuild hosts; a validation error is attached to the first
change of the failing resource, or surfaced as a problem. -/
def AddOrUpdateIngress (c : KConfiguration) (ing : Ingress) :
    KConfiguration × List ResourceChange × List ConfigurationProblem :=
  let key := getResourceKey ing.objectMeta
  if ¬ c.hasCorrectIngressClassIng ing then
    rebuildHosts (ingStoreErase c key)
  else
    match c.validateIngress ing with
    | none => rebuildHosts (ingStoreInsert c key ing)
    | some e =>
      let r := rebuildHosts (ingStoreErase c key)
      let a := attachErrorToChanges r.2.1 (getResourceKeyWithKind ingressKind ing.objectMeta) e
      if a.2 then (r.1, a.1, r.2.2)
      else
        (r.1, r.2.1, r.2.2 ++
          [{ object := .ingObj ing, isError := true, reason := EventReasonRejected,
             message := e }])

/-- `DeleteIngress`. -/
def DeleteIngress (c : KConfiguration) (key : String) :
    KConfiguration × List ResourceChange × List ConfigurationProblem :=
  match alookup key c.ingresses with
  | none => (c, [], [])
  | some _ => rebuildHosts (ingStoreErase c key)

/-- Evict a VirtualServer from the store (`delete(c.virtualServers, key)`). -/
def vsStoreErase (c : KConfiguration) (key : String) : KConfiguration :=
  { c with virtualServers := aerase key c.virtualServers }

/-- Store a VirtualServer (`c.virtualServers[key] = vs`). -/
def vsStoreInsert (c : KConfiguration) (key : String) (vs : VirtualServer) :
    KConfiguration :=
  { c with virtualServers := ainsert key vs c.virtualServers }

/-- `AddOrUpdateVirtualServer`. -/
def AddOrUpdateVirtualServer (c : KConfiguration) (vs : VirtualServer) :
    KConfiguration × List ResourceChange × List ConfigurationProblem :=
  let key := getResourceKey vs.objectMeta
  if ¬ c.hasCorrectIngressClassVS vs then
    rebuildHosts (vsStoreErase c key)
  else
    match c.validateVirtualServer vs with
    | none => rebuildHosts (vsStoreInsert c key vs)
    | some e =>
      let r := rebuildHosts (vsStoreErase c key)
      let a := attachErrorToChanges r.2.1
        (getResourceKeyWithKind virtualServerKind vs.objectMeta) e
      if a.2 then (r.1, a.1, r.2.2)
      else
        (r.1, r.2.1, r.2.2 ++
          [{ object := .vsObj vs, isError := true, reason := EventReasonRejected,
             message := "VirtualServer " ++ key ++ " was rejected with error: " ++ e }])

/-- `DeleteVirtualServer`. -/
def DeleteVirtualServer (c : KConfiguration) (key : String) :
    KConfiguration × List ResourceChange × List ConfigurationProblem :=
  match alookup key c.virtualServers with
  | none => (c, [], [])
  | some _ => rebuildHosts (vsStoreErase c key)

/-- `AddOrUpdateVirtualServerRoute` (no error-attachment loop in the source:
a validation failure always surfaces as a problem). -/
def AddOrUpdateVirtualServerRoute (c : KConfiguration) (vsr : VirtualServerRoute) :
    KConfiguration × List ResourceChange × List ConfigurationProblem :=
  let key := getResourceKey vsr.objectMeta
  if ¬ c.hasCorrectIngressClassVSR vsr then
    rebuildHosts (vsrStoreErase c key)
  else
    match c.validateVirtualServerRoute vsr with
    | none => rebuildHosts (vsrStoreInsert c key vsr)
    | some e =>
      let r := rebuildHosts (vsrStoreErase c key)
      (r.1, r.2.1, r.2.2 ++
        [{ object := .vsrObj vsr, isError := true, reason := EventReasonRejected,
           message := "VirtualServerRoute " ++ key ++ " was rejected with error: " ++ e }])

/-- `DeleteVirtualServerRoute`. -/
def DeleteVirtualServerRoute (c : KConfiguration) (key : String) :
    KConfiguration × List ResourceChange × List ConfigurationProblem :=
  match alookup key c.virtualServerRoutes with
  | none => (c, [], [])
  | some _ => rebuildHosts (vsrStoreErase c key)

/-- `AddOrUpdateGlobalConfiguration`: validates, stores the object
unconditionally, rebuilds listeners then hosts and concatenates the results;
the validation error is returned to the caller. -/
def AddOrUpdateGlobalConfiguration (c : KConfiguration) (gc : GlobalConfiguration) :
    KConfiguration × List ResourceChange × List ConfigurationProblem × Option String :=
  let validationErr := c.validateGlobalConfiguration gc
  let r1 := rebuildListenerHosts
    (setGlobalConfigListenerMap (gcStoreSet c (some gc)))
  let r2 := rebuildHosts r1.1
  (r2.1, r1.2.1 ++ r2.2.1, r1.2.2 ++ r2.2.2, validationErr)

/-- `DeleteGlobalConfiguration`. -/
def DeleteGlobalConfiguration (c : KConfiguration) :
    KConfiguration × List ResourceChange × List ConfigurationProblem :=
  let r1 := rebuildListenerHosts
    (setGlobalConfigListenerMap (gcStoreSet c none))
  let r2 := rebuildHosts r1.1
  (r2.1, r1.2.1 ++ r2.2.1, r1.2.2 ++ r2.2.2)

/-- The listener rebuild of the TransportServer mutators, followed by a host
rebuild when TLS passthrough is enabled; the change and problem lists are
concatenated. -/
def rebuildForTransportServer (c : KConfiguration) :
    KConfiguration × List ResourceChange × List ConfigurationProblem :=
  let r1 := rebuildListenerHosts c
  if r1.1.isTLSPassthroughEnabled then
    let r2 := rebuildHosts r1.1
    (r2.1, r1.2.1 ++ r2.2.1, r1.2.2 ++ r2.2.2)
  else r1

/-- `AddOrUpdateTransportServer`. -/
def AddOrUpdateTransportServer (c : KConfiguration) (ts : TransportServer) :
    KConfiguration × List ResourceChange × List ConfigurationProblem :=
  let key := getResourceKey ts.objectMeta
  if ¬ c.hasCorrectIngressClassTS ts then
    rebuildForTransportServer (tsStoreErase c key)
  else
    match c.validateTransportServer ts with
    | none =>
        rebuildForTransportServer (tsStoreInsert c key ts)
    | some e =>
      let r := rebuildForTransportServer (tsStoreErase c key)
      let a := attachErrorToChanges r.2.1
        (getResourceKeyWithKind transportServerKind ts.objectMeta) e
      if a.2 then (r.1, a.1, r.2.2)
      else
        (r.1, r.2.1, r.2.2 ++
          [{ object := .tsObj ts, isError := true, reason := EventReasonRejected,
             message := "TransportServer " ++ key ++ " was rejected with error: " ++ e }])

/-- `DeleteTransportServer`. -/
def DeleteTransportServer (c : KConfiguration) (key : String) :
    KConfiguration × List ResourceChange × List ConfigurationProblem :=
  match alookup key c.transportServers with
  | none => (c, [], [])
  | some _ =>
      rebuildForTransportServer (tsStoreErase c key)

/-! ## Concrete fixtures and spec-level predicates used by the
theorems below -/

/-- The property the spec asserts of an emitted change list: no two changes
share a resource identity and all deletes precede all upserts. -/
def GoodChanges (cs : List ResourceChange) : Prop :=
  (cs.map fun ch => ch.resource.GetKeyWithKind).Nodup ∧
  ∃ ds us, cs = ds ++ us ∧ (∀ ch ∈ ds, ch.op = .Delete) ∧
    (∀ ch ∈ us, ch.op = .AddOrUpdate)

/-- `ResourcesWF`: the resources map binds each key to a resource whose
identity is that key (true by construction of `buildHostsAndResources`). -/
def ResourcesWF (res : List (String × Resource)) : Prop :=
  ∀ p ∈ res, (p.2).GetKeyWithKind = p.1

/-- A store whose injected predicates accept everything and whose validators
never fail; TLS passthrough enabled, cert-manager disabled. -/
def fxBase : KConfiguration :=
  NewConfiguration (fun _ => true) (fun _ => true) (fun _ => true) (fun _ => true)
    (fun _ => none) (fun _ => none) (fun _ => none) (fun _ _ _ => none)
    (fun _ => none) (fun _ => none) true false

/-- Metadata of the fixture TransportServer. -/
def fxMetaT : ObjectMeta :=
  { ns := "n", name := "t", creationTimestamp := 5, uid := "u", generation := 1,
    annotations := [], labels := [] }

/-- A TLS-passthrough TransportServer on host `h`. -/
def fxTsPass : TransportServer :=
  { objectMeta := fxMetaT,
    listenerRef := { name := "tls-passthrough", protocol := "TLS_PASSTHROUGH" },
    host := "h" }

/-- The same TransportServer rebound to the TCP listener `tcp-1`. -/
def fxTsTcp : TransportServer :=
  { objectMeta := fxMetaT, listenerRef := { name := "tcp-1", protocol := "TCP" },
    host := "h" }

/-- A GlobalConfiguration declaring the TCP listener `tcp-1`. -/
def fxGC : GlobalConfiguration :=
  { listeners := [{ name := "tcp-1", port := 9000, protocol := "TCP", ssl := false,
                    ipv4 := "", ipv6 := "" }] }

/-- The state after deploying `fxGC` and the TLS-passthrough server. -/
def fxC1State : KConfiguration :=
  (AddOrUpdateTransportServer (AddOrUpdateGlobalConfiguration fxBase fxGC).1 fxTsPass).1

/-- Two metadata fixtures that differ only in name: neither wins. -/
def fxMeta6a : ObjectMeta :=
  { ns := "x", name := "a", creationTimestamp := 0, uid := "u", generation := 0,
    annotations := [], labels := [] }

/-- The second of the two fixtures. -/
def fxMeta6b : ObjectMeta :=
  { ns := "x", name := "b", creationTimestamp := 0, uid := "u", generation := 0,
    annotations := [], labels := [] }

/-- Two TransportServerConfigurations over the same TransportServer with
different resolved listener ports. -/
def fxTsc80 : TransportServerConfiguration :=
  { NewTransportServerConfiguration fxTsTcp with listenerPort := 80 }

/-- The second configuration, with port 81. -/
def fxTsc81 : TransportServerConfiguration :=
  { NewTransportServerConfiguration fxTsTcp with listenerPort := 81 }

/-- A TransportServer referencing listener `tcp-x` with protocol TCP. -/
def fxTsTcpX : TransportServer :=
  { objectMeta := fxMetaT, listenerRef := { name := "tcp-x", protocol := "TCP" },
    host := "hh" }

/-- A GlobalConfiguration declaring `tcp-x` with the UDP protocol. -/
def fxGCX : GlobalConfiguration :=
  { listeners := [{ name := "tcp-x", port := 9000, protocol := "UDP", ssl := false,
                    ipv4 := "", ipv6 := "" }] }

/-- The protocol-mismatch scenario. -/
def fxC10a : KConfiguration :=
  { fxBase with
    transportServers := [("n/t", fxTsTcpX)],
    globalConfiguration := some fxGCX }

/-- The no-GlobalConfiguration scenario. -/
def fxC10b : KConfiguration :=
  { fxBase with transportServers := [("n/t", fxTsTcpX)] }

/-- A fixture ingress with one host rule and one path. -/
def fxIngA : Ingress :=
  { objectMeta := fxMeta6a,
    rules := [{ host := "x.io",
                httpPaths := [{ path := "/", backendServiceName := "s",
                                backendServicePortNumber := 80 }] }] }

/-- A fixture VirtualServer on the same host. -/
def fxVsA : VirtualServer :=
  { objectMeta := fxMeta6b, host := "x.io", routes := [], listenerRef := none }

/-- A fixture VirtualServerRoute. -/
def fxVsrA : VirtualServerRoute :=
  { objectMeta := fxMeta6b, host := "x.io", upstreams := [], subroutes := [] }

/-- A store whose validators all fail. -/
def fxAllBad : KConfiguration :=
  { fxBase with
    validateIngress := fun _ => some "bad ing",
    validateVirtualServer := fun _ => some "bad vs",
    validateVirtualServerRoute := fun _ => some "bad vsr",
    validateTransportServer := fun _ => some "bad ts",
    validateGlobalConfiguration := fun _ => some "bad gc" }

/-- A TransportServer with the passthrough listener name but the TCP
protocol: only one of the two conditions of the claim holds. -/
def fxTsMixed : TransportServer :=
  { objectMeta := fxMetaT,
    listenerRef := { name := "tls-passthrough", protocol := "TCP" }, host := "h" }

/-- A store holding only the mixed TransportServer. -/
def fxC2State : KConfiguration :=
  { fxBase with transportServers := [("n/t", fxTsMixed)] }

/-- Metadata of the colliding fixture ingress, parametric in timestamp and
UID. -/
def c5MetaI (t : Nat) (u : String) : ObjectMeta :=
  { ns := "n", name := "i", creationTimestamp := t, uid := u, generation := 0,
    annotations := [], labels := [] }

/-- Metadata of the colliding fixture VirtualServer. -/
def c5MetaV (t : Nat) (u : String) : ObjectMeta :=
  { ns := "n", name := "v", creationTimestamp := t, uid := u, generation := 0,
    annotations := [], labels := [] }

/-- A regular (non-minion, non-master) ingress with a single rule on `h`. -/
def c5Ing (m : ObjectMeta) (h : String) : Ingress :=
  { objectMeta := m,
    rules := [{ host := h,
                httpPaths := [{ path := "/", backendServiceName := "s",
                                backendServicePortNumber := 80 }] }] }

/-- A VirtualServer on the same host. -/
def c5Vs (m : ObjectMeta) (h : String) : VirtualServer :=
  { objectMeta := m, host := h, routes := [], listenerRef := none }

/-- A store holding exactly the two colliding resources. -/
def c5State (tI tV : Nat) (uI uV h : String) : KConfiguration :=
  { fxBase with
    ingresses := [("n/i", c5Ing (c5MetaI tI uI) h)],
    virtualServers := [("n/v", c5Vs (c5MetaV tV uV) h)] }

/-- The base store with cert-manager integration enabled. -/
def fxCM : KConfiguration :=
  { fxBase with isCertManagerEnabled := true }

/-- Metadata of the challenge ingress, carrying the HTTP-01 solver label. -/
def c8MetaC : ObjectMeta :=
  { ns := "n", name := "ci", creationTimestamp := 3, uid := "uc", generation := 0,
    annotations := [],
    labels := [("acme.cert-manager.io/http01-solver", "true")] }

/-- The challenge ingress, parametric in the backend port. -/
def c8Ing (prt : Int) : Ingress :=
  { objectMeta := c8MetaC,
    rules := [{ host := "x.io",
                httpPaths := [{ path := "/.well-known/acme-challenge/tok",
                                backendServiceName := "cm-solver",
                                backendServicePortNumber := prt }] }] }

/-- A stored VirtualServer owning the challenged host. -/
def c8Vs : VirtualServer :=
  { objectMeta := { ns := "n", name := "v", creationTimestamp := 1, uid := "uv",
                    generation := 0, annotations := [], labels := [] },
    host := "x.io", routes := [], listenerRef := none }

/-- The store with the challenge ingress and the owning VirtualServer. -/
def c8StateA (prt : Int) : KConfiguration :=
  { fxCM with
    ingresses := [("n/ci", c8Ing prt)],
    virtualServers := [("n/v", c8Vs)] }

/-- The store with the challenge ingress and no VirtualServer. -/
def c8StateB (prt : Int) : KConfiguration :=
  { fxCM with ingresses := [("n/ci", c8Ing prt)] }

/-! ## Association-list and sorting lemmas -/

theorem alookup_eq_none {κ α : Type} [DecidableEq κ] (k : κ) (l : List (κ × α)) :
    alookup k l = none ↔ k ∉ l.map Prod.fst := by
  induction l with
  | nil => simp [alookup]
  | cons p rest ih =>
    obtain ⟨k', v⟩ := p
    by_cases hk : k' = k
    · subst hk
      simp [alookup]
    · simp [alookup, hk, ih, Ne.symm hk]

theorem alookup_isSome_of_mem {κ α : Type} [DecidableEq κ] {k : κ} {l : List (κ × α)}
    (h : k ∈ l.map Prod.fst) : (alookup k l).isSome := by
  cases hl : alookup k l with
  | none => exact absurd h ((alookup_eq_none k l).mp hl)
  | some v => simp

theorem mem_of_alookup_eq_some {κ α : Type} [DecidableEq κ] {k : κ} {v : α}
    {l : List (κ × α)} (h : alookup k l = some v) : (k, v) ∈ l := by
  induction l with
  | nil => simp [alookup] at h
  | cons p rest ih =>
    obtain ⟨k', v'⟩ := p
    by_cases hk : k' = k
    · subst hk
      simp [alookup] at h
      simp [h]
    · simp [alookup, hk] at h
      simp [ih h]

theorem alookup_aerase_self {κ α : Type} [DecidableEq κ] (k : κ) (l : List (κ × α)) :
    alookup k (aerase k l) = none := by
  induction l with
  | nil => rfl
  | cons p rest ih =>
    obtain ⟨k', v⟩ := p
    by_cases hk : k' = k
    · simp [aerase, hk, ih]
    · simp [aerase, hk, alookup, ih]

theorem aerase_idem {κ α : Type} [DecidableEq κ] (k : κ) (l : List (κ × α)) :
    aerase k (aerase k l) = aerase k l := by
  induction l with
  | nil => rfl
  | cons p rest ih =>
    obtain ⟨k', v⟩ := p
    by_cases hk : k' = k
    · simp [aerase, hk, ih]
    · simp [aerase, hk, ih]

theorem ainsert_idem {κ α : Type} [DecidableEq κ] (k : κ) (v : α) (l : List (κ × α)) :
    ainsert k v (ainsert k v l) = ainsert k v l := by
  simp [ainsert, aerase, aerase_idem]

/-- `strLt` decides the string order. -/
theorem strLt_iff (a b : String) : strLt a b = true ↔ a < b := by
  rw [String.lt_iff_toList_lt]
  simp only [strLt, decide_eq_true_eq, String.toList]
  show List.lt a.data b.data ↔ _
  rw [List.lt_iff_lex_lt]
  exact Iff.rfl

theorem mem_insertSortedBy {κ : Type} (f : κ → String) (a x : κ) (l : List κ) :
    x ∈ insertSortedBy f a l ↔ x = a ∨ x ∈ l := by
  induction l with
  | nil => simp [insertSortedBy]
  | cons b rest ih =>
    by_cases h : strLt (f b) (f a) = true
    · simp only [insertSortedBy, if_pos h, List.mem_cons, ih]
      tauto
    · simp only [insertSortedBy, if_neg h, List.mem_cons]

theorem mem_sortKeysBy {κ : Type} (f : κ → String) (x : κ) (l : List κ) :
    x ∈ sortKeysBy f l ↔ x ∈ l := by
  induction l with
  | nil => simp [sortKeysBy]
  | cons b rest ih =>
    simp only [sortKeysBy, List.foldr] at ih ⊢
    rw [mem_insertSortedBy]
    simp [ih]

theorem mem_getSortedKeys {α : Type} (x : String) (m : List (String × α)) :
    x ∈ getSortedKeys m ↔ x ∈ m.map Prod.fst := by
  simp [getSortedKeys, mem_sortKeysBy]

/-- Invariant preservation along a left fold. -/
theorem foldl_invariant {α β : Type} {P : β → Prop} (step : β → α → β) (l : List α)
    (init : β) (h0 : P init) (hstep : ∀ b a, P b → P (step b a)) :
    P (l.foldl step init) := by
  induction l generalizing init with
  | nil => exact h0
  | cons x xs ih => exact ih _ (hstep _ _ h0)

/-- Keys built with distinct kind prefixes are distinct (Ingress vs
VirtualServer). -/
theorem ing_key_ne_vs_key (x y : String) : ("Ingress/" ++ x) ≠ ("VirtualServer/" ++ y) := by
  intro h
  have h2 : (some 'I' : Option Char) = some 'V' :=
    congrArg (fun s : String => s.data.head? ) h
  simp at h2

/-- Keys built with distinct kind prefixes are distinct (Ingress vs
TransportServer). -/
theorem ing_key_ne_ts_key (x y : String) : ("Ingress/" ++ x) ≠ ("TransportServer/" ++ y) := by
  intro h
  have h2 : (some 'I' : Option Char) = some 'T' :=
    congrArg (fun s : String => s.data.head? ) h
  simp at h2

/-- Keys built with distinct kind prefixes are distinct (VirtualServer vs
TransportServer). -/
theorem vs_key_ne_ts_key (x y : String) :
    ("VirtualServer/" ++ x) ≠ ("TransportServer/" ++ y) := by
  intro h
  have h2 : (some 'V' : Option Char) = some 'T' :=
    congrArg (fun s : String => s.data.head? ) h
  simp at h2

/-! ## Properties of the squashed change lists (claim C1 machinery) -/

theorem goodChanges_nil : GoodChanges [] :=
  ⟨List.nodup_nil, [], [], rfl, by simp, by simp⟩

theorem firstOccKeys_nodup_aux (changes : List ResourceChange) (seen : List String) :
    (firstOccKeys changes seen).Nodup ∧ ∀ k ∈ firstOccKeys changes seen, k ∉ seen := by
  induction changes generalizing seen with
  | nil => simp [firstOccKeys]
  | cons c rest ih =>
    by_cases h : c.resource.GetKeyWithKind ∈ seen
    · simpa [firstOccKeys, h] using ih seen
    · have ih' := ih (c.resource.GetKeyWithKind :: seen)
      constructor
      · rw [firstOccKeys, if_neg h, List.nodup_cons]
        exact ⟨fun hmem => (ih'.2 _ hmem) (by simp), ih'.1⟩
      · intro k hk
        rw [firstOccKeys, if_neg h, List.mem_cons] at hk
        rcases hk with rfl | hk
        · exact h
        · intro hks
          exact (ih'.2 _ hk) (by simp [hks])

theorem lastChangeFor_kwk (key : String) (changes : List ResourceChange) :
    ∀ x, lastChangeFor key changes = some x → x.resource.GetKeyWithKind = key := by
  have := foldl_invariant
    (fun acc c => if c.resource.GetKeyWithKind = key then some c else acc) changes none
    (P := fun acc => ∀ x, acc = some x → x.resource.GetKeyWithKind = key)
    (by intro x hx; cases hx)
    (by
      intro b a hb x hx
      dsimp only at hx
      by_cases h : a.resource.GetKeyWithKind = key
      · rw [if_pos h] at hx
        cases hx
        exact h
      · rw [if_neg h] at hx
        exact hb x hx)
  exact this

theorem map_kwk_filterMap_lastChange (keys : List String) (changes : List ResourceChange) :
    ((keys.filterMap fun k => lastChangeFor k changes).map
        fun c => c.resource.GetKeyWithKind) =
      keys.filter fun k => (lastChangeFor k changes).isSome := by
  induction keys with
  | nil => rfl
  | cons k ks ih =>
    cases h : lastChangeFor k changes with
    | none => simp [List.filterMap_cons, h, ih, List.filter_cons]
    | some c =>
      simp [List.filterMap_cons, h, List.filter_cons, ih,
        lastChangeFor_kwk k changes c h]

theorem squash_nodup (changes : List ResourceChange) :
    ((squashResourceChanges changes).map fun c => c.resource.GetKeyWithKind).Nodup := by
  have hkeys : (firstOccKeys changes []).Nodup := (firstOccKeys_nodup_aux changes []).1
  have hsq := map_kwk_filterMap_lastChange (firstOccKeys changes []) changes
  have hnd : (((firstOccKeys changes []).filterMap fun k => lastChangeFor k changes).map
      fun c => c.resource.GetKeyWithKind).Nodup := by
    rw [hsq]
    exact hkeys.filter _
  have hperm := List.filter_append_perm (fun c => c.op == Operation.Delete)
    ((firstOccKeys changes []).filterMap fun k => lastChangeFor k changes)
  have hmap := hperm.map fun c => c.resource.GetKeyWithKind
  simp only [squashResourceChanges]
  exact hmap.nodup_iff.mpr hnd

theorem squash_split (changes : List ResourceChange) :
    ∃ ds us, squashResourceChanges changes = ds ++ us ∧
      (∀ ch ∈ ds, ch.op = .Delete) ∧ (∀ ch ∈ us, ch.op = .AddOrUpdate) := by
  simp only [squashResourceChanges]
  refine ⟨_, _, rfl, ?_, ?_⟩
  · intro ch hch
    have := (List.mem_filter.mp hch).2
    simpa using this
  · intro ch hch
    have := (List.mem_filter.mp hch).2
    cases hop : ch.op with
    | Delete => rw [hop] at this; simp at this
    | AddOrUpdate => rfl

theorem goodChanges_squash (changes : List ResourceChange) :
    GoodChanges (squashResourceChanges changes) :=
  ⟨squash_nodup changes, squash_split changes⟩

/-- A change list with the same operation sequence and the same identity
sequence as a good one is good. -/
theorem goodChanges_of_map_eq {cs cs' : List ResourceChange}
    (hop : cs'.map (fun c => c.op) = cs.map fun c => c.op)
    (hkwk : (cs'.map fun c => c.resource.GetKeyWithKind) =
      cs.map fun c => c.resource.GetKeyWithKind)
    (h : GoodChanges cs) : GoodChanges cs' := by
  obtain ⟨hnd, ds, us, hsp, hds, hus⟩ := h
  refine ⟨hkwk ▸ hnd, cs'.take ds.length, cs'.drop ds.length,
    (List.take_append_drop _ _).symm, ?_, ?_⟩
  · intro ch hch
    have h1 : ch.op ∈ (cs'.take ds.length).map fun c => c.op :=
      List.mem_map_of_mem _ hch
    rw [List.map_take, hop, hsp, List.map_append,
      List.take_append_of_le_length (by simp),
      List.take_of_length_le (by simp)] at h1
    obtain ⟨d, hd, hde⟩ := List.mem_map.mp h1
    rw [← hde]
    exact hds d hd
  · intro ch hch
    have h1 : ch.op ∈ (cs'.drop ds.length).map fun c => c.op :=
      List.mem_map_of_mem _ hch
    rw [List.map_drop, hop, hsp, List.map_append,
      List.drop_append_of_le_length (by simp),
      List.drop_of_length_le (by simp), List.nil_append] at h1
    obtain ⟨u, hu, hue⟩ := List.mem_map.mp h1
    rw [← hue]
    exact hus u hu

theorem freshenChange_op (res : List (String × Resource)) (ch : ResourceChange) :
    (freshenChange res ch).op = ch.op := by
  unfold freshenChange
  cases alookup ch.resource.GetKeyWithKind res <;> rfl

theorem freshenChange_kwk {res : List (String × Resource)} (wf : ResourcesWF res)
    (ch : ResourceChange) :
    (freshenChange res ch).resource.GetKeyWithKind = ch.resource.GetKeyWithKind := by
  unfold freshenChange
  cases h : alookup ch.resource.GetKeyWithKind res with
  | none => rfl
  | some r => exact wf _ (mem_of_alookup_eq_some h)

theorem goodChanges_freshen {res : List (String × Resource)} (wf : ResourcesWF res)
    {cs : List ResourceChange} (h : GoodChanges cs) :
    GoodChanges (freshenChanges cs res) := by
  apply @goodChanges_of_map_eq cs _ _ _ h
  · unfold freshenChanges
    rw [List.map_map]
    exact List.map_congr_left fun ch _ => freshenChange_op res ch
  · unfold freshenChanges
    rw [List.map_map]
    exact List.map_congr_left fun ch _ => freshenChange_kwk wf ch

theorem attach_map_op (cs : List ResourceChange) (kwk err : String) :
    (((attachErrorToChanges cs kwk err).1).map fun c => c.op) = cs.map fun c => c.op := by
  induction cs with
  | nil => rfl
  | cons ch rest ih =>
    by_cases h : ch.resource.GetKeyWithKind = kwk
    · simp [attachErrorToChanges, h]
    · simp [attachErrorToChanges, h, ih]

theorem attach_map_kwk (cs : List ResourceChange) (kwk err : String) :
    (((attachErrorToChanges cs kwk err).1).map fun c => c.resource.GetKeyWithKind) =
      cs.map fun c => c.resource.GetKeyWithKind := by
  induction cs with
  | nil => rfl
  | cons ch rest ih =>
    by_cases h : ch.resource.GetKeyWithKind = kwk
    · simp [attachErrorToChanges, h]
    · simp [attachErrorToChanges, h, ih]

theorem goodChanges_attach {cs : List ResourceChange} (kwk err : String)
    (h : GoodChanges cs) : GoodChanges (attachErrorToChanges cs kwk err).1 :=
  goodChanges_of_map_eq (attach_map_op cs kwk err) (attach_map_kwk cs kwk err) h

/-! ## The resources maps are well keyed -/

theorem mem_aerase {κ α : Type} [DecidableEq κ] {p : κ × α} {k : κ} {l : List (κ × α)}
    (h : p ∈ aerase k l) : p ∈ l := by
  induction l with
  | nil => simp [aerase] at h
  | cons q rest ih =>
    obtain ⟨a, b⟩ := q
    by_cases hk : a = k
    · rw [show aerase k ((a, b) :: rest) = aerase k rest by simp [aerase, hk]] at h
      exact List.mem_cons_of_mem _ (ih h)
    · rw [show aerase k ((a, b) :: rest) = (a, b) :: aerase k rest by
        simp [aerase, hk]] at h
      rcases List.mem_cons.mp h with rfl | h
      · exact List.mem_cons_self _ _
      · exact List.mem_cons_of_mem _ (ih h)

theorem mem_aupdate {κ α : Type} [DecidableEq κ] {p : κ × α} {k : κ} {f : α → α}
    {l : List (κ × α)} (h : p ∈ aupdate k f l) :
    p ∈ l ∨ ∃ v, (k, v) ∈ l ∧ p = (k, f v) := by
  induction l with
  | nil => simp [aupdate] at h
  | cons q rest ih =>
    obtain ⟨a, b⟩ := q
    by_cases hk : a = k
    · subst hk
      rw [show aupdate a f ((a, b) :: rest) = (a, f b) :: rest by simp [aupdate]] at h
      rcases List.mem_cons.mp h with rfl | h
      · exact Or.inr ⟨b, List.mem_cons_self _ _, rfl⟩
      · exact Or.inl (List.mem_cons_of_mem _ h)
    · rw [show aupdate k f ((a, b) :: rest) = (a, b) :: aupdate k f rest by
        simp [aupdate, hk]] at h
      rcases List.mem_cons.mp h with rfl | h
      · exact Or.inl (List.mem_cons_self _ _)
      · rcases ih h with h | ⟨v, hv, hp⟩
        · exact Or.inl (List.mem_cons_of_mem _ h)
        · exact Or.inr ⟨v, List.mem_cons_of_mem _ hv, hp⟩

theorem Resource.AddWarning_kwk (r : Resource) (w : String) :
    (r.AddWarning w).GetKeyWithKind = r.GetKeyWithKind := by
  cases r <;> rfl

theorem wf_ainsert_self {res : List (String × Resource)} (wf : ResourcesWF res)
    (r : Resource) : ResourcesWF (ainsert r.GetKeyWithKind r res) := by
  intro p hp
  rcases List.mem_cons.mp hp with rfl | hp
  · rfl
  · exact wf p (mem_aerase hp)

theorem wf_aupdate_addWarning {res : List (String × Resource)} (wf : ResourcesWF res)
    (k w : String) :
    ResourcesWF (aupdate k (fun r => r.AddWarning w) res) := by
  intro p hp
  rcases mem_aupdate hp with hp | ⟨v, hv, rfl⟩
  · exact wf p hp
  · simpa [Resource.AddWarning_kwk] using wf (k, v) hv

theorem wf_warnHostOwner (hostsK : List (String × String))
    {r : List (String × Resource)} (hr : ResourcesWF r) (host w : String) :
    ResourcesWF (match alookup host hostsK with
      | some holderKey => aupdate holderKey (fun x => x.AddWarning w) r
      | none => r) := by
  cases alookup host hostsK with
  | none => exact hr
  | some holderKey => exact wf_aupdate_addWarning hr holderKey w

theorem wf_claimHost (host rk w : String)
    (acc : List (String × String) × List (String × Resource))
    (wf : ResourcesWF acc.2) : ResourcesWF (claimHost host rk w acc).2 := by
  obtain ⟨hostsK, rs⟩ := acc
  unfold claimHost
  dsimp only at wf ⊢
  split
  · exact wf
  · split
    · split
      · exact wf_aupdate_addWarning wf _ w
      · exact wf_aupdate_addWarning wf _ w
    · exact wf

theorem wf_ingressPassStep (c : KConfiguration)
    (acc : List (String × String) × List (String × Resource) × List VirtualServerRoute)
    (wf : ResourcesWF acc.2.1) (key : String) :
    ResourcesWF ((ingressPassStep c acc key).2.1) := by
  obtain ⟨hostsK, rs, chs⟩ := acc
  unfold ingressPassStep
  dsimp only at wf ⊢
  split
  · exact wf
  · split
    · exact wf
    · split
      · exact wf
      · refine foldl_invariant (P := fun s => ResourcesWF s.2) _ _ _ ?_
          (fun b a hb => wf_claimHost _ _ _ b hb)
        exact wf_ainsert_self wf _

theorem wf_vsPassStep (c : KConfiguration) (challengesVSR : List VirtualServerRoute)
    (acc : List (String × String) × List (String × Resource))
    (wf : ResourcesWF acc.2) (key : String) :
    ResourcesWF ((vsPassStep c challengesVSR acc key).2) := by
  obtain ⟨hostsK, rs⟩ := acc
  unfold vsPassStep
  dsimp only at wf ⊢
  split
  · exact wf
  · exact wf_claimHost _ _ _ _ (wf_ainsert_self wf _)

theorem wf_tsPassStep (c : KConfiguration)
    (acc : List (String × String) × List (String × Resource))
    (wf : ResourcesWF acc.2) (key : String) :
    ResourcesWF ((tsPassStep c acc key).2) := by
  obtain ⟨hostsK, rs⟩ := acc
  unfold tsPassStep
  dsimp only at wf ⊢
  split
  · exact wf
  · split
    · exact wf
    · exact wf_claimHost _ _ _ _ (wf_ainsert_self wf _)

theorem wf_buildHostsAndResources (c : KConfiguration) :
    ResourcesWF (buildHostsAndResources c).2 := by
  unfold buildHostsAndResources
  have h1 : ResourcesWF
      ((getSortedKeys c.ingresses).foldl (ingressPassStep c) ([], [], [])).2.1 :=
    foldl_invariant (P := fun s => ResourcesWF s.2.1) _ _ _
      (by intro p hp; simp at hp)
      (fun b a hb => wf_ingressPassStep c b hb a)
  dsimp only
  generalize hgen : (getSortedKeys c.ingresses).foldl (ingressPassStep c) ([], [], []) = s1
    at h1 ⊢
  obtain ⟨hK, rs, chs⟩ := s1
  have h2 : ResourcesWF
      ((getSortedKeys c.virtualServers).foldl (vsPassStep c (hK, rs, chs).2.2)
        ((hK, rs, chs).1, (hK, rs, chs).2.1)).2 := by
    refine foldl_invariant (P := fun s => ResourcesWF s.2) _ _ _ ?_
      (fun b a hb => wf_vsPassStep c _ b hb a)
    exact h1
  by_cases htls : c.isTLSPassthroughEnabled
  · simp only [htls, if_true]
    refine foldl_invariant (P := fun s => ResourcesWF s.2) _ _ _ ?_
      (fun b a hb => wf_tsPassStep c b hb a)
    exact h2
  · simp only [htls, Bool.false_eq_true, if_false]
    exact h2

theorem wf_updateActiveHosts (hostsK : List (String × String))
    {res : List (String × Resource)} (wf : ResourcesWF res) :
    ResourcesWF (updateActiveHostsForIngresses hostsK res) := by
  intro p hp
  obtain ⟨q, hq, hqe⟩ := List.mem_map.mp hp
  have hbase := wf q hq
  rw [← hqe]
  cases hr : q.2 with
  | ingRes ic =>
      rw [hr] at hbase
      exact hbase
  | vsRes vc =>
      rw [hr] at hbase
      exact hbase
  | tsRes tc =>
      rw [hr] at hbase
      exact hbase

theorem wf_addWarningsForListeners (c : KConfiguration)
    (hostsK : List (String × String)) {res : List (String × Resource)}
    (wf : ResourcesWF res) :
    ResourcesWF (addWarningsForVirtualServersWithMissConfiguredListeners c hostsK res) := by
  unfold addWarningsForVirtualServersWithMissConfiguredListeners
  refine foldl_invariant _ _ _ wf ?_
  intro b a hb
  dsimp only
  split
  · split
    · exact hb
    · split
      · exact wf_warnHostOwner hostsK hb _ _
      · split
        · exact wf_warnHostOwner hostsK hb _ _
        · split
          · exact wf_warnHostOwner hostsK hb _ _
          · split
            · exact wf_warnHostOwner hostsK hb _ _
            · split
              · exact wf_warnHostOwner hostsK hb _ _
              · exact hb
  · exact hb

theorem wf_computeNewResources (c : KConfiguration) :
    ResourcesWF (computeNewResources c) :=
  wf_addWarningsForListeners c _
    (wf_updateActiveHosts _ (wf_buildHostsAndResources c))

/-- The change list of a host rebuild is squashed and freshened, hence
good. -/
theorem goodChanges_rebuildHosts (c : KConfiguration) :
    GoodChanges (rebuildHosts c).2.1 :=
  goodChanges_freshen (wf_computeNewResources c) (goodChanges_squash _)

theorem goodChanges_AddOrUpdateIngress (c : KConfiguration) (ing : Ingress) :
    GoodChanges (AddOrUpdateIngress c ing).2.1 := by
  unfold AddOrUpdateIngress
  dsimp only
  split
  · exact goodChanges_rebuildHosts _
  · split
    · exact goodChanges_rebuildHosts _
    · split
      · exact goodChanges_attach _ _ (goodChanges_rebuildHosts _)
      · exact goodChanges_rebuildHosts _

theorem goodChanges_AddOrUpdateVirtualServer (c : KConfiguration) (vs : VirtualServer) :
    GoodChanges (AddOrUpdateVirtualServer c vs).2.1 := by
  unfold AddOrUpdateVirtualServer
  dsimp only
  split
  · exact goodChanges_rebuildHosts _
  · split
    · exact goodChanges_rebuildHosts _
    · split
      · exact goodChanges_attach _ _ (goodChanges_rebuildHosts _)
      · exact goodChanges_rebuildHosts _

theorem goodChanges_AddOrUpdateVirtualServerRoute (c : KConfiguration)
    (vsr : VirtualServerRoute) :
    GoodChanges (AddOrUpdateVirtualServerRoute c vsr).2.1 := by
  unfold AddOrUpdateVirtualServerRoute
  dsimp only
  split
  · exact goodChanges_rebuildHosts _
  · split
    · exact goodChanges_rebuildHosts _
    · exact goodChanges_rebuildHosts _

theorem goodChanges_DeleteIngress (c : KConfiguration) (key : String) :
    GoodChanges (DeleteIngress c key).2.1 := by
  unfold DeleteIngress
  split
  · exact goodChanges_nil
  · exact goodChanges_rebuildHosts _

theorem goodChanges_DeleteVirtualServer (c : KConfiguration) (key : String) :
    GoodChanges (DeleteVirtualServer c key).2.1 := by
  unfold DeleteVirtualServer
  split
  · exact goodChanges_nil
  · exact goodChanges_rebuildHosts _

theorem goodChanges_DeleteVirtualServerRoute (c : KConfiguration) (key : String) :
    GoodChanges (DeleteVirtualServerRoute c key).2.1 := by
  unfold DeleteVirtualServerRoute
  split
  · exact goodChanges_nil
  · exact goodChanges_rebuildHosts _

/-! ## Claim C1 -/

/-- C1 counterexample: rebinding the TransportServer from TLS passthrough to
a TCP listener makes `AddOrUpdateTransportServer` return the concatenation of
the listener-rebuild upsert and the host-rebuild delete: the same resource
identity appears twice, and an AddOrUpdate precedes a Delete. -/
theorem c1_counterexample :
    ((AddOrUpdateTransportServer fxC1State fxTsTcp).2.1.map
        fun ch => (ch.op, ch.resource.GetKeyWithKind)) =
      [(.AddOrUpdate, "TransportServer/n/t"), (.Delete, "TransportServer/n/t")] ∧
    ¬ GoodChanges (AddOrUpdateTransportServer fxC1State fxTsTcp).2.1 := by
  constructor
  · decide
  · intro hGood
    have hk : ((AddOrUpdateTransportServer fxC1State fxTsTcp).2.1.map
        fun ch => ch.resource.GetKeyWithKind) =
        ["TransportServer/n/t", "TransportServer/n/t"] := by decide
    have := hGood.1
    rw [hk] at this
    simp at this

/-- C1 (amended): every mutator whose change list is the output of a single
squashed rebuild (the Ingress, VirtualServer and VirtualServerRoute mutators)
returns a change list with at most one change per resource identity
(`GetKeyWithKind`) in which every Delete precedes every AddOrUpdate;
`AddOrUpdateTransportServer` and the GlobalConfiguration mutators concatenate
the listener-rebuild and host-rebuild lists, and the concatenation can repeat
an identity and place an AddOrUpdate before a Delete. -/
theorem c1_changes_unique_and_ordered
    (c : KConfiguration) (ing : Ingress) (vs : VirtualServer) (vsr : VirtualServerRoute)
    (k1 k2 k3 : String) :
    GoodChanges (AddOrUpdateIngress c ing).2.1 ∧
    GoodChanges (AddOrUpdateVirtualServer c vs).2.1 ∧
    GoodChanges (AddOrUpdateVirtualServerRoute c vsr).2.1 ∧
    GoodChanges (DeleteIngress c k1).2.1 ∧
    GoodChanges (DeleteVirtualServer c k2).2.1 ∧
    GoodChanges (DeleteVirtualServerRoute c k3).2.1 :=
  ⟨goodChanges_AddOrUpdateIngress c ing,
   goodChanges_AddOrUpdateVirtualServer c vs,
   goodChanges_AddOrUpdateVirtualServerRoute c vsr,
   goodChanges_DeleteIngress c k1,
   goodChanges_DeleteVirtualServer c k2,
   goodChanges_DeleteVirtualServerRoute c k3⟩

/-! ## Claim C6: the conflict ordering -/

/-- The lexicographic reading of `chooseObjectMetaWinner`. -/
theorem chooseObjectMetaWinner_iff_lex (x y : ObjectMeta) :
    chooseObjectMetaWinner x y = true ↔
      (x.creationTimestamp < y.creationTimestamp ∨
       (x.creationTimestamp = y.creationTimestamp ∧ y.uid < x.uid)) := by
  unfold chooseObjectMetaWinner
  by_cases h : x.creationTimestamp = y.creationTimestamp
  · rw [if_pos h, strLt_iff]
    constructor
    · intro hu
      exact Or.inr ⟨h, hu⟩
    · rintro (hlt | ⟨_, hu⟩)
      · rw [h] at hlt
        exact absurd hlt (lt_irrefl _)
      · exact hu
  · rw [if_neg h, decide_eq_true_eq]
    constructor
    · intro hlt
      exact Or.inl hlt
    · rintro (hlt | ⟨he, _⟩)
      · exact hlt
      · exact absurd he h

/-- C6 counterexample: two distinct resources sharing creation timestamp and
UID refute `wins(a,b) ⇔ ¬wins(b,a)`: neither wins. -/
theorem c6_counterexample :
    fxMeta6a ≠ fxMeta6b ∧
    ¬ ((chooseObjectMetaWinner fxMeta6a fxMeta6b = true) ↔
       ¬ (chooseObjectMetaWinner fxMeta6b fxMeta6a = true)) := by
  decide

/-- C6 (amended): `chooseObjectMetaWinner` agrees with the lexicographic
order on (creationTimestamp, uid) (ascending timestamp, descending uid); it
is transitive; and it is total and antisymmetric for resources whose
(creationTimestamp, uid) pairs differ — two distinct resources sharing both
fields are not separated (neither wins). -/
theorem c6_wins_strict_order (a b d : ObjectMeta) :
    ((a.creationTimestamp, a.uid) ≠ (b.creationTimestamp, b.uid) →
      (chooseObjectMetaWinner a b = true ↔ ¬ chooseObjectMetaWinner b a = true)) ∧
    (chooseObjectMetaWinner a b = true → chooseObjectMetaWinner b d = true →
      chooseObjectMetaWinner a d = true) ∧
    (chooseObjectMetaWinner a b = true ↔
      (a.creationTimestamp < b.creationTimestamp ∨
       (a.creationTimestamp = b.creationTimestamp ∧ b.uid < a.uid))) := by
  refine ⟨?_, ?_, chooseObjectMetaWinner_iff_lex a b⟩
  · intro hne
    rw [chooseObjectMetaWinner_iff_lex, chooseObjectMetaWinner_iff_lex]
    rcases lt_trichotomy a.creationTimestamp b.creationTimestamp with h | h | h
    · constructor
      · rintro _ (hA | ⟨hE, _⟩)
        · exact absurd hA (asymm h)
        · rw [hE] at h
          exact absurd h (lt_irrefl _)
      · intro _
        exact Or.inl h
    · have hu : a.uid ≠ b.uid := fun hu => hne (by rw [h, hu])
      rcases lt_trichotomy a.uid b.uid with hu2 | hu2 | hu2
      · constructor
        · rintro (hA | ⟨_, hU⟩)
          · rw [h] at hA
            exact absurd hA (lt_irrefl _)
          · exact absurd hU (asymm hu2)
        · intro hn
          exact absurd (Or.inr ⟨h.symm, hu2⟩) hn
      · exact absurd hu2 hu
      · constructor
        · rintro _ (hA | ⟨_, hU⟩)
          · rw [h] at hA
            exact absurd hA (lt_irrefl _)
          · exact absurd hU (asymm hu2)
        · intro _
          exact Or.inr ⟨h, hu2⟩
    · constructor
      · rintro (hA | ⟨hE, _⟩)
        · exact absurd hA (asymm h)
        · rw [hE] at h
          exact absurd h (lt_irrefl _)
      · intro hn
        exact absurd (Or.inl h) hn
  · rw [chooseObjectMetaWinner_iff_lex, chooseObjectMetaWinner_iff_lex,
      chooseObjectMetaWinner_iff_lex]
    rintro (h1 | ⟨h1, hu1⟩) (h2 | ⟨h2, hu2⟩)
    · exact Or.inl (lt_trans h1 h2)
    · exact Or.inl (h2 ▸ h1)
    · exact Or.inl (h1 ▸ h2)
    · exact Or.inr ⟨h1.trans h2, lt_trans hu2 hu1⟩

/-- C6 witness: the antisymmetry equivalence discharged at two concrete
metadata values with different creation timestamps. -/
theorem c6_witness :
    chooseObjectMetaWinner fxMeta6a fxMetaT = true ↔
      ¬ chooseObjectMetaWinner fxMetaT fxMeta6a = true :=
  (c6_wins_strict_order fxMeta6a fxMetaT fxMeta6a).1 (by decide)

/-! ## Claim C9: the equality predicate on derived configurations -/

/-- `compareObjectMetas` agrees with equality of namespace, name and
generation. -/
theorem compareObjectMetas_iff (m1 m2 : ObjectMeta) :
    compareObjectMetas m1 m2 = true ↔
      (m1.ns = m2.ns ∧ m1.name = m2.name ∧ m1.generation = m2.generation) := by
  simp [compareObjectMetas, and_assoc]

/-- The pointwise comparison of route lists is the `Forall₂` of metadata
agreement. -/
theorem compareVSRLists_iff (xs ys : List VirtualServerRoute) :
    compareVSRLists xs ys = true ↔
      List.Forall₂ (fun u v => u.objectMeta.ns = v.objectMeta.ns ∧
        u.objectMeta.name = v.objectMeta.name ∧
        u.objectMeta.generation = v.objectMeta.generation) xs ys := by
  induction xs generalizing ys with
  | nil =>
    cases ys with
    | nil => simp [compareVSRLists]
    | cons y ys => simp [compareVSRLists]
  | cons x xs ih =>
    cases ys with
    | nil => simp [compareVSRLists]
    | cons y ys =>
      simp [compareVSRLists, compareObjectMetas_iff, ih, List.forall₂_cons]

/-- C9 counterexample: the two configurations wrap the same TransportServer
(hence agree on namespace, name and generation) yet are not equal, because
`IsEqual` also compares the resolved listener port. -/
theorem c9_counterexample :
    fxTsc80.transportServer.objectMeta = fxTsc81.transportServer.objectMeta ∧
    Resource.IsEqual (.tsRes fxTsc80) (.tsRes fxTsc81) = false := by
  decide

/-- C9 (amended): `IsEqual` on VirtualServer configurations holds exactly
when the VirtualServers agree on namespace, name and generation and their
route lists agree pointwise on namespace, name and generation; on
TransportServer configurations exactly when the TransportServers agree on
namespace, name and generation and the resolved listener ports coincide;
configurations of different kinds are never equal. -/
theorem c9_isEqual_characterization (a b : VirtualServerConfiguration)
    (x y : TransportServerConfiguration) :
    (Resource.IsEqual (.vsRes a) (.vsRes b) = true ↔
      ((a.virtualServer.objectMeta.ns = b.virtualServer.objectMeta.ns ∧
        a.virtualServer.objectMeta.name = b.virtualServer.objectMeta.name ∧
        a.virtualServer.objectMeta.generation = b.virtualServer.objectMeta.generation) ∧
       List.Forall₂ (fun u v => u.objectMeta.ns = v.objectMeta.ns ∧
         u.objectMeta.name = v.objectMeta.name ∧
         u.objectMeta.generation = v.objectMeta.generation)
         a.virtualServerRoutes b.virtualServerRoutes)) ∧
    (Resource.IsEqual (.tsRes x) (.tsRes y) = true ↔
      ((x.transportServer.objectMeta.ns = y.transportServer.objectMeta.ns ∧
        x.transportServer.objectMeta.name = y.transportServer.objectMeta.name ∧
        x.transportServer.objectMeta.generation = y.transportServer.objectMeta.generation) ∧
       x.listenerPort = y.listenerPort)) ∧
    Resource.IsEqual (.vsRes a) (.tsRes x) = false := by
  refine ⟨?_, ?_, rfl⟩
  · simp [Resource.IsEqual, Bool.and_eq_true, compareObjectMetas_iff, compareVSRLists_iff]
  · simp [Resource.IsEqual, Bool.and_eq_true, compareObjectMetas_iff]

/-! ## Claim C7: change detection over host maps -/

theorem alookup_isSome_iff {κ α : Type} [DecidableEq κ] (k : κ) (l : List (κ × α)) :
    (alookup k l).isSome = true ↔ k ∈ l.map Prod.fst := by
  constructor
  · intro h
    obtain ⟨v, hv⟩ := Option.isSome_iff_exists.mp h
    exact List.mem_map.mpr ⟨(k, v), mem_of_alookup_eq_some hv, rfl⟩
  · exact alookup_isSome_of_mem

/-- Membership in a conditional singleton. -/
theorem mem_ite_singleton {α : Type} (x a : α) (P : Prop) [Decidable P] :
    x ∈ (if P then [a] else []) ↔ (P ∧ x = a) := by
  by_cases h : P
  · simp [h]
  · simp [h]

/-- Every element produced by `updatedHostsFor` is the inspected host. -/
theorem mem_updatedHostsFor_eq (oldHosts newHosts : List (String × Resource))
    (a x : String) (h : x ∈ updatedHostsFor oldHosts newHosts a) : x = a := by
  unfold updatedHostsFor at h
  cases ho : alookup a oldHosts with
  | none => rw [ho] at h; simp at h
  | some o =>
    cases hn : alookup a newHosts with
    | none => rw [ho, hn] at h; simp at h
    | some n =>
      rw [ho, hn] at h
      dsimp only at h
      by_cases he : o.IsEqual n = true
      · rw [if_neg (by simp [he])] at h
        cases o with
        | ingRes oc => cases n <;> simp at h
        | tsRes oc => cases n <;> simp at h
        | vsRes oc =>
          cases n with
          | ingRes nc => simp at h
          | tsRes nc => simp at h
          | vsRes nc =>
            simp only [List.mem_append, mem_ite_singleton] at h
            rcases h with (⟨_, hx⟩ | ⟨_, hx⟩) | ⟨_, hx⟩ <;> exact hx
      · rw [if_pos (by simp [he])] at h
        simpa using h

/-- The update test of a host, as a proposition. -/
theorem mem_updatedHostsFor_iff (oldHosts newHosts : List (String × Resource))
    (h : String) :
    h ∈ updatedHostsFor oldHosts newHosts h ↔
      (∃ o n, alookup h oldHosts = some o ∧ alookup h newHosts = some n ∧
        (o.IsEqual n = false ∨
         (∃ ov nv, o = .vsRes ov ∧ n = .vsRes nv ∧ o.IsEqual n = true ∧
          (nv.httpPort ≠ ov.httpPort ∨ nv.httpsPort ≠ ov.httpsPort ∨
           nv.httpIPv4 ≠ ov.httpIPv4 ∨ nv.httpIPv6 ≠ ov.httpIPv6)))) := by
  unfold updatedHostsFor
  cases ho : alookup h oldHosts with
  | none => simp
  | some o =>
    cases hn : alookup h newHosts with
    | none => simp
    | some n =>
      simp only [Option.some.injEq]
      by_cases he : o.IsEqual n = true
      · rw [if_neg (by simp [he])]
        cases o with
        | ingRes oc =>
          cases n <;> simp_all [Resource.IsEqual]
        | tsRes oc =>
          cases n with
          | ingRes nc => simp_all [Resource.IsEqual]
          | vsRes nc => simp_all [Resource.IsEqual]
          | tsRes nc =>
            simp only [List.not_mem_nil, false_iff]
            rintro ⟨o', n', rfl, rfl, (hbad | ⟨ov, nv, hov, _⟩)⟩
            · rw [he] at hbad; cases hbad
            · cases hov
        | vsRes oc =>
          cases n with
          | ingRes nc => simp_all [Resource.IsEqual]
          | tsRes nc => simp_all [Resource.IsEqual]
          | vsRes nc =>
            simp only [List.mem_append, mem_ite_singleton]
            constructor
            · rintro ((⟨hp, _⟩ | ⟨hp, _⟩) | ⟨hp, _⟩)
              · rcases hp with hp | hp
                · exact ⟨_, _, rfl, rfl, Or.inr ⟨oc, nc, rfl, rfl, he, Or.inl hp⟩⟩
                · exact ⟨_, _, rfl, rfl, Or.inr ⟨oc, nc, rfl, rfl, he, Or.inr (Or.inl hp)⟩⟩
              · exact ⟨_, _, rfl, rfl,
                  Or.inr ⟨oc, nc, rfl, rfl, he, Or.inr (Or.inr (Or.inl hp))⟩⟩
              · exact ⟨_, _, rfl, rfl,
                  Or.inr ⟨oc, nc, rfl, rfl, he, Or.inr (Or.inr (Or.inr hp))⟩⟩
            · rintro ⟨o', n', rfl, rfl, (hbad | ⟨ov, nv, hov, hnv, _, hps⟩)⟩
              · rw [he] at hbad; cases hbad
              · cases hov
                cases hnv
                rcases hps with hp | hp | hp | hp
                · exact Or.inl (Or.inl ⟨Or.inl hp, trivial⟩)
                · exact Or.inl (Or.inl ⟨Or.inr hp, trivial⟩)
                · exact Or.inl (Or.inr ⟨hp, trivial⟩)
                · exact Or.inr ⟨hp, trivial⟩
      · rw [if_pos (by simp [he])]
        refine iff_of_true (by simp) ?_
        exact ⟨o, n, rfl, rfl, Or.inl (by simpa using he)⟩

/-- C7: `detectChangesInHosts` returns as removed exactly the hosts bound in
the old map and absent from the new, as added exactly those bound in the new
and absent from the old, and as updated exactly those bound in both whose
owners are unequal under `IsEqual` — except that a host owned by
VirtualServer configurations on both sides is also updated when the base
equality holds but HTTPPort, HTTPSPort, HTTPIPv4 or HTTPIPv6 differ. -/
theorem c7_detectChangesInHosts_characterization
    (oldHosts newHosts : List (String × Resource)) (h : String) :
    (h ∈ (detectChangesInHosts oldHosts newHosts).1 ↔
      ((alookup h oldHosts).isSome = true ∧ alookup h newHosts = none)) ∧
    (h ∈ (detectChangesInHosts oldHosts newHosts).2.2 ↔
      ((alookup h newHosts).isSome = true ∧ alookup h oldHosts = none)) ∧
    (h ∈ (detectChangesInHosts oldHosts newHosts).2.1 ↔
      (∃ o n, alookup h oldHosts = some o ∧ alookup h newHosts = some n ∧
        (o.IsEqual n = false ∨
         (∃ ov nv, o = .vsRes ov ∧ n = .vsRes nv ∧ o.IsEqual n = true ∧
          (nv.httpPort ≠ ov.httpPort ∨ nv.httpsPort ≠ ov.httpsPort ∨
           nv.httpIPv4 ≠ ov.httpIPv4 ∨ nv.httpIPv6 ≠ ov.httpIPv6))))) := by
  refine ⟨?_, ?_, ?_⟩
  · unfold detectChangesInHosts
    rw [List.mem_filter]
    rw [show getSortedResourceKeys oldHosts = getSortedKeys oldHosts from rfl,
      mem_getSortedKeys, ← alookup_isSome_iff]
    simp [Option.isNone_iff_eq_none]
  · unfold detectChangesInHosts
    rw [List.mem_filter]
    rw [show getSortedResourceKeys newHosts = getSortedKeys newHosts from rfl,
      mem_getSortedKeys, ← alookup_isSome_iff]
    simp [Option.isNone_iff_eq_none]
  · unfold detectChangesInHosts
    rw [List.mem_flatMap]
    constructor
    · rintro ⟨a, _, hmem⟩
      have hxa := mem_updatedHostsFor_eq _ _ _ _ hmem
      subst hxa
      exact (mem_updatedHostsFor_iff _ _ _).mp hmem
    · intro hr
      refine ⟨h, ?_, (mem_updatedHostsFor_iff _ _ _).mpr hr⟩
      obtain ⟨o, n, _, hn, _⟩ := hr
      rw [show getSortedResourceKeys newHosts = getSortedKeys newHosts from rfl,
        mem_getSortedKeys]
      exact alookup_isSome_iff h newHosts |>.mp (by simp [hn]) |> id

/-! ## Claim C10: problems for TransportServers without an active listener -/

theorem alookup_ainsert_self {κ α : Type} [DecidableEq κ] (k : κ) (v : α)
    (l : List (κ × α)) : alookup k (ainsert k v l) = some v := by
  simp [ainsert, alookup]

theorem alookup_aerase_ne {κ α : Type} [DecidableEq κ] {k K : κ} (hne : k ≠ K)
    (l : List (κ × α)) : alookup K (aerase k l) = alookup K l := by
  induction l with
  | nil => rfl
  | cons p rest ih =>
    obtain ⟨a, b⟩ := p
    by_cases ha : a = k
    · subst ha
      rw [show aerase a ((a, b) :: rest) = aerase a rest by simp [aerase]]
      rw [ih]
      rw [show alookup K ((a, b) :: rest) = alookup K rest by simp [alookup, hne]]
    · rw [show aerase k ((a, b) :: rest) = (a, b) :: aerase k rest by simp [aerase, ha]]
      by_cases haK : a = K
      · subst haK
        simp [alookup]
      · rw [show alookup K ((a, b) :: aerase k rest) = alookup K (aerase k rest) by
          simp [alookup, haK]]
        rw [show alookup K ((a, b) :: rest) = alookup K rest by simp [alookup, haK]]
        exact ih

theorem alookup_ainsert_ne {κ α : Type} [DecidableEq κ] {k K : κ} (hne : k ≠ K)
    (v : α) (l : List (κ × α)) : alookup K (ainsert k v l) = alookup K l := by
  rw [show alookup K (ainsert k v l) = alookup K (aerase k l) by simp [ainsert, alookup, hne]]
  exact alookup_aerase_ne hne l

/-- Keys other than those written by the problem pass are untouched. -/
theorem addProblemsForTSConfigs_preserve
    (lh : List (listenerHostKey × TransportServerConfiguration))
    (L : List (String × TransportServerConfiguration))
    (probs : List (String × ConfigurationProblem)) (K : String)
    (hK : ∀ e ∈ L, (Resource.tsRes e.2).GetKeyWithKind ≠ K) :
    alookup K (addProblemsForTSConfigsWithoutActiveListener lh L probs) =
      alookup K probs := by
  induction L generalizing probs with
  | nil => rfl
  | cons e rest ih =>
    have hstep : addProblemsForTSConfigsWithoutActiveListener lh (e :: rest) probs =
        addProblemsForTSConfigsWithoutActiveListener lh rest
          ((fun probs (p : String × TransportServerConfiguration) =>
            let tsc := p.2
            let listenerName := tsc.transportServer.listenerRef.name
            let host := tsc.transportServer.host
            let hostDescription := if host == "" then "empty host" else host
            match alookup (listenerHostKey.mk listenerName host) lh with
            | none =>
                ainsert (Resource.tsRes tsc).GetKeyWithKind
                  { object := .tsObj tsc.transportServer, isError := false,
                    reason := EventReasonRejected,
                    message := "Listener " ++ listenerName ++ " doesn't exist" } probs
            | some holder =>
                if ¬ tscIsEqual tsc holder then
                  ainsert (Resource.tsRes tsc).GetKeyWithKind
                    { object := .tsObj tsc.transportServer, isError := false,
                      reason := EventReasonRejected,
                      message := "Listener " ++ listenerName ++ " with host " ++
                        hostDescription ++ " is taken by another resource" } probs
                else probs) probs e) := rfl
    rw [hstep, ih _ (fun q hq => hK q (List.mem_cons_of_mem _ hq))]
    have hne := hK e (List.mem_cons_self _ _)
    dsimp only
    split
    · exact alookup_ainsert_ne hne _ probs
    · split
      · exact alookup_ainsert_ne hne _ probs
      · rfl

/-- The listener-doesn't-exist problem of an unoccupied key survives the rest
of the pass. -/
theorem addProblemsForTSConfigs_found
    (lh : List (listenerHostKey × TransportServerConfiguration))
    (L : List (String × TransportServerConfiguration))
    (probs : List (String × ConfigurationProblem)) (sk : String)
    (tsc : TransportServerConfiguration)
    (hnodup : (L.map fun e => (Resource.tsRes e.2).GetKeyWithKind).Nodup)
    (hfind : alookup sk L = some tsc)
    (hmiss : alookup (listenerHostKey.mk tsc.transportServer.listenerRef.name
      tsc.transportServer.host) lh = none) :
    alookup (Resource.tsRes tsc).GetKeyWithKind
        (addProblemsForTSConfigsWithoutActiveListener lh L probs) =
      some { object := .tsObj tsc.transportServer, isError := false,
             reason := EventReasonRejected,
             message := "Listener " ++ tsc.transportServer.listenerRef.name ++
               " doesn't exist" } := by
  induction L generalizing probs with
  | nil => simp [alookup] at hfind
  | cons e rest ih =>
    obtain ⟨k0, t0⟩ := e
    rw [List.map_cons, List.nodup_cons] at hnodup
    by_cases hk : k0 = sk
    · subst hk
      rw [show alookup k0 ((k0, t0) :: rest) = some t0 by simp [alookup]] at hfind
      cases hfind
      have hstep : addProblemsForTSConfigsWithoutActiveListener lh ((k0, tsc) :: rest) probs =
          addProblemsForTSConfigsWithoutActiveListener lh rest
            (ainsert (Resource.tsRes tsc).GetKeyWithKind
              { object := .tsObj tsc.transportServer, isError := false,
                reason := EventReasonRejected,
                message := "Listener " ++ tsc.transportServer.listenerRef.name ++
                  " doesn't exist" } probs) := by
        unfold addProblemsForTSConfigsWithoutActiveListener
        rw [List.foldl_cons]
        dsimp only
        rw [hmiss]
      rw [hstep]
      rw [addProblemsForTSConfigs_preserve lh rest _ _
        (fun q hq hbad => hnodup.1 (by rw [← hbad]; exact List.mem_map_of_mem _ hq))]
      exact alookup_ainsert_self _ _ probs
    · rw [show alookup sk ((k0, t0) :: rest) = alookup sk rest by simp [alookup, hk]] at hfind
      have hstep : ∃ probs',
          addProblemsForTSConfigsWithoutActiveListener lh ((k0, t0) :: rest) probs =
          addProblemsForTSConfigsWithoutActiveListener lh rest probs' := by
        unfold addProblemsForTSConfigsWithoutActiveListener
        rw [List.foldl_cons]
        exact ⟨_, rfl⟩
      obtain ⟨probs', hps⟩ := hstep
      rw [hps]
      exact ih probs' hnodup.2 hfind

/-- C10: after a listener rebuild, every stored non-TLS-passthrough
TransportServer whose (listener, host) key is held by nobody (itself
included) carries the problem `Listener %s doesn't exist` with reason
Rejected and isError = false in the listener-problems map; the listener name
is the one referenced by the spec, so this covers a listener that exists in
the GlobalConfiguration under a different protocol and the absence of any
GlobalConfiguration.  (The configurations map of the rebuild is assumed to
bind distinct identities, which holds for every store the mutators build.) -/
theorem c10_no_listener_problem (c : KConfiguration) (sk : String)
    (tsc : TransportServerConfiguration)
    (hnodup : ((buildListenerHostsAndTSConfigurations c).2.map
        fun e => (Resource.tsRes e.2).GetKeyWithKind).Nodup)
    (hfind : alookup sk (buildListenerHostsAndTSConfigurations c).2 = some tsc)
    (hmiss : alookup (listenerHostKey.mk tsc.transportServer.listenerRef.name
      tsc.transportServer.host) (computeNewListenerHosts c) = none) :
    alookup (Resource.tsRes tsc).GetKeyWithKind
        (rebuildListenerHosts c).1.listenerProblems =
      some { object := .tsObj tsc.transportServer, isError := false,
             reason := EventReasonRejected,
             message := "Listener " ++ tsc.transportServer.listenerRef.name ++
               " doesn't exist" } := by
  show alookup _ (computeNewListenerProblems c) = _
  unfold computeNewListenerProblems
  exact addProblemsForTSConfigs_found _ _ _ sk tsc hnodup hfind hmiss

/-- C10 witness: the problem is emitted both when the listener exists with a
different protocol and when no GlobalConfiguration is deployed. -/
theorem c10_witness :
    alookup "TransportServer/n/t" (rebuildListenerHosts fxC10a).1.listenerProblems =
      some { object := .tsObj fxTsTcpX, isError := false,
             reason := EventReasonRejected,
             message := "Listener tcp-x doesn't exist" } ∧
    alookup "TransportServer/n/t" (rebuildListenerHosts fxC10b).1.listenerProblems =
      some { object := .tsObj fxTsTcpX, isError := false,
             reason := EventReasonRejected,
             message := "Listener tcp-x doesn't exist" } :=
  ⟨c10_no_listener_problem fxC10a "n/t" (NewTransportServerConfiguration fxTsTcpX)
      (by decide) rfl rfl,
   c10_no_listener_problem fxC10b "n/t" (NewTransportServerConfiguration fxTsTcpX)
      (by decide) rfl rfl⟩

/-! ## Claim C4: idempotence of repeated mutation -/

theorem compareObjectMetas_refl (m : ObjectMeta) : compareObjectMetas m m = true := by
  simp [compareObjectMetas]

theorem compareObjectMetasWithAnnotations_refl (m : ObjectMeta) :
    compareObjectMetasWithAnnotations m m = true := by
  simp [compareObjectMetasWithAnnotations, compareObjectMetas_refl]

theorem validHostsEqual_refl (a : List (String × Bool)) : validHostsEqual a a = true := by
  simp [validHostsEqual]

theorem compareMinionLists_refl (l : List MinionConfiguration) :
    compareMinionLists l l = true := by
  induction l with
  | nil => rfl
  | cons x xs ih => simp [compareMinionLists, compareObjectMetasWithAnnotations_refl, ih]

theorem compareVSRLists_refl (l : List VirtualServerRoute) :
    compareVSRLists l l = true := by
  induction l with
  | nil => rfl
  | cons x xs ih => simp [compareVSRLists, compareObjectMetas_refl, ih]

theorem Resource.IsEqual_refl (r : Resource) : r.IsEqual r = true := by
  cases r with
  | ingRes a =>
      simp [Resource.IsEqual, compareObjectMetasWithAnnotations_refl,
        validHostsEqual_refl, compareMinionLists_refl]
  | vsRes a => simp [Resource.IsEqual, compareObjectMetas_refl, compareVSRLists_refl]
  | tsRes a => simp [Resource.IsEqual, compareObjectMetas_refl]

theorem compareConfigurationProblems_refl (p : ConfigurationProblem) :
    compareConfigurationProblems p p = true := by
  simp [compareConfigurationProblems]

/-- Detecting changes from a host map to itself yields nothing. -/
theorem detectChangesInHosts_self (H : List (String × Resource)) :
    detectChangesInHosts H H = ([], [], []) := by
  unfold detectChangesInHosts
  have hrm : (getSortedResourceKeys H).filter (fun h => (alookup h H).isNone) = [] := by
    refine List.filter_eq_nil_iff.mpr ?_
    intro h hmem
    have hs : (alookup h H).isSome = true := by
      rw [alookup_isSome_iff]
      exact (mem_getSortedKeys h H).mp hmem
    intro hno
    rw [Option.isNone_iff_eq_none] at hno
    rw [hno] at hs
    simp at hs
  have hupd : (getSortedResourceKeys H).flatMap (updatedHostsFor H H) = [] := by
    rw [List.flatMap_eq_nil_iff]
    intro h _
    unfold updatedHostsFor
    cases hl : alookup h H with
    | none => rfl
    | some o =>
      dsimp only
      rw [if_neg (by simp [Resource.IsEqual_refl])]
      cases o with
      | ingRes a => rfl
      | tsRes a => rfl
      | vsRes a => simp
  rw [hrm, hupd]

/-- Detecting changes from a problem map to itself yields nothing. -/
theorem detectChangesInProblems_self (P : List (String × ConfigurationProblem)) :
    detectChangesInProblems P P = [] := by
  unfold detectChangesInProblems
  refine List.filterMap_eq_nil_iff.mpr ?_
  intro k _
  cases hl : alookup k P with
  | none => rfl
  | some p => simp [hl, compareConfigurationProblems_refl]

/-- The host rebuild reads only the store fields it does not write: the
produced hosts, resources and problems are unchanged by a second rebuild. -/
theorem computeNewHosts_rebuild (c : KConfiguration) :
    computeNewHosts (rebuildHosts c).1 = computeNewHosts c := rfl

theorem computeNewResources_rebuild (c : KConfiguration) :
    computeNewResources (rebuildHosts c).1 = computeNewResources c := rfl

theorem computeNewHostProblems_rebuild (c : KConfiguration) :
    computeNewHostProblems (rebuildHosts c).1 = computeNewHostProblems c := rfl

theorem rebuildHosts_changes_eq (c : KConfiguration) :
    (rebuildHosts c).2.1 = freshenChanges
      (squashResourceChanges
        (createResourceChangesForHosts
          (detectChangesInHosts c.hosts (computeNewHosts c)).1
          (detectChangesInHosts c.hosts (computeNewHosts c)).2.1
          (detectChangesInHosts c.hosts (computeNewHosts c)).2.2
          c.hosts (computeNewHosts c)))
      (computeNewResources c) := rfl

theorem rebuildHosts_problems_eq (c : KConfiguration) :
    (rebuildHosts c).2.2 =
      detectChangesInProblems (computeNewHostProblems c) c.hostProblems := rfl

theorem rebuildHosts_state_hosts (c : KConfiguration) :
    (rebuildHosts c).1.hosts = computeNewHosts c := rfl

theorem rebuildHosts_state_hostProblems (c : KConfiguration) :
    (rebuildHosts c).1.hostProblems = computeNewHostProblems c := rfl

/-- A host rebuild on a state whose hosts and host problems already equal
their recomputation yields no changes and no problems. -/
theorem rebuildHosts_no_delta (d : KConfiguration)
    (hh : computeNewHosts d = d.hosts)
    (hp : computeNewHostProblems d = d.hostProblems) :
    (rebuildHosts d).2.1 = [] ∧ (rebuildHosts d).2.2 = [] := by
  constructor
  · rw [rebuildHosts_changes_eq, hh, detectChangesInHosts_self]
    rfl
  · rw [rebuildHosts_problems_eq, hp, detectChangesInProblems_self]

theorem tscIsEqual_refl (t : TransportServerConfiguration) : tscIsEqual t t = true := by
  simp [tscIsEqual, compareObjectMetas_refl]

theorem mem_getSortedListenerHostKeys {α : Type} (x : listenerHostKey)
    (m : List (listenerHostKey × α)) :
    x ∈ getSortedListenerHostKeys m ↔ x ∈ m.map Prod.fst := by
  simp [getSortedListenerHostKeys, mem_sortKeysBy]

/-- Detecting listener changes from a map to itself yields nothing. -/
theorem detectChangesInListenerHosts_self
    (L : List (listenerHostKey × TransportServerConfiguration)) :
    detectChangesInListenerHosts L L = ([], [], []) := by
  unfold detectChangesInListenerHosts
  simp only [Prod.mk.injEq]
  refine ⟨?_, ?_, ?_⟩
  · refine List.filter_eq_nil_iff.mpr ?_
    intro k hmem
    have hs : (alookup k L).isSome = true := by
      rw [alookup_isSome_iff]
      exact (mem_getSortedListenerHostKeys k L).mp hmem
    intro hno
    rw [Option.isNone_iff_eq_none] at hno
    rw [hno] at hs
    simp at hs
  · refine List.filter_eq_nil_iff.mpr ?_
    intro k _
    cases hl : alookup k L with
    | none => simp [hl]
    | some o => simp [hl, tscIsEqual_refl]
  · refine List.filter_eq_nil_iff.mpr ?_
    intro k hmem
    have hs : (alookup k L).isSome = true := by
      rw [alookup_isSome_iff]
      exact (mem_getSortedListenerHostKeys k L).mp hmem
    intro hno
    rw [Option.isNone_iff_eq_none] at hno
    rw [hno] at hs
    simp at hs

theorem rebuildListenerHosts_changes_eq (c : KConfiguration) :
    (rebuildListenerHosts c).2.1 =
      (squashResourceChanges
        (createResourceChangesForListeners
          (detectChangesInListenerHosts c.listenerHosts (computeNewListenerHosts c)).1
          (detectChangesInListenerHosts c.listenerHosts (computeNewListenerHosts c)).2.1
          (detectChangesInListenerHosts c.listenerHosts (computeNewListenerHosts c)).2.2
          c.listenerHosts (computeNewListenerHosts c))).map (fun ch =>
        match alookup ch.resource.GetKeyWithKind
            (buildListenerHostsAndTSConfigurations c).2 with
        | some r => { ch with resource := .tsRes r }
        | none => ch) := rfl

theorem rebuildListenerHosts_problems_eq (c : KConfiguration) :
    (rebuildListenerHosts c).2.2 =
      detectChangesInProblems (computeNewListenerProblems c) c.listenerProblems := rfl

/-- A listener rebuild on a state whose listener hosts and problems already
equal their recomputation yields no changes and no problems. -/
theorem rebuildListenerHosts_no_delta (d : KConfiguration)
    (hh : computeNewListenerHosts d = d.listenerHosts)
    (hp : computeNewListenerProblems d = d.listenerProblems) :
    (rebuildListenerHosts d).2.1 = [] ∧ (rebuildListenerHosts d).2.2 = [] := by
  constructor
  · rw [rebuildListenerHosts_changes_eq, hh, detectChangesInListenerHosts_self]
    rfl
  · rw [rebuildListenerHosts_problems_eq, hp, detectChangesInProblems_self]

/-- `rebuildForTransportServer` with TLS passthrough enabled: the listener
rebuild followed by the host rebuild, lists concatenated. -/
theorem rebuildForTransportServer_eq_true (X : KConfiguration)
    (hX : X.isTLSPassthroughEnabled = true) :
    rebuildForTransportServer X =
      ((rebuildHosts (rebuildListenerHosts X).1).1,
       (rebuildListenerHosts X).2.1 ++ (rebuildHosts (rebuildListenerHosts X).1).2.1,
       (rebuildListenerHosts X).2.2 ++ (rebuildHosts (rebuildListenerHosts X).1).2.2) := by
  unfold rebuildForTransportServer
  dsimp only
  rw [show (rebuildListenerHosts X).1.isTLSPassthroughEnabled = true from hX]
  simp

/-- `rebuildForTransportServer` with TLS passthrough disabled: the listener
rebuild alone. -/
theorem rebuildForTransportServer_eq_false (X : KConfiguration)
    (hX : X.isTLSPassthroughEnabled = false) :
    rebuildForTransportServer X = rebuildListenerHosts X := by
  unfold rebuildForTransportServer
  dsimp only
  rw [show (rebuildListenerHosts X).1.isTLSPassthroughEnabled = false from hX]
  simp

theorem ingStoreErase_of_eq (X : KConfiguration) (k : String)
    (hs : aerase k X.ingresses = X.ingresses) : ingStoreErase X k = X := by
  unfold ingStoreErase
  rw [hs]

theorem ingStoreInsert_of_eq (X : KConfiguration) (k : String) (v : Ingress)
    (hs : ainsert k v X.ingresses = X.ingresses) : ingStoreInsert X k v = X := by
  unfold ingStoreInsert
  rw [hs]

theorem vsrStoreErase_of_eq (X : KConfiguration) (k : String)
    (hs : aerase k X.virtualServerRoutes = X.virtualServerRoutes) :
    vsrStoreErase X k = X := by
  unfold vsrStoreErase
  rw [hs]

theorem vsrStoreInsert_of_eq (X : KConfiguration) (k : String) (v : VirtualServerRoute)
    (hs : ainsert k v X.virtualServerRoutes = X.virtualServerRoutes) :
    vsrStoreInsert X k v = X := by
  unfold vsrStoreInsert
  rw [hs]

theorem tsStoreErase_of_eq (X : KConfiguration) (k : String)
    (hs : aerase k X.transportServers = X.transportServers) : tsStoreErase X k = X := by
  unfold tsStoreErase
  rw [hs]

theorem tsStoreInsert_of_eq (X : KConfiguration) (k : String) (v : TransportServer)
    (hs : ainsert k v X.transportServers = X.transportServers) :
    tsStoreInsert X k v = X := by
  unfold tsStoreInsert
  rw [hs]

theorem gcStoreSet_of_eq (X : KConfiguration) (o : Option GlobalConfiguration)
    (hs : o = X.globalConfiguration) : gcStoreSet X o = X := by
  unfold gcStoreSet
  rw [hs]

theorem setGlobalConfigListenerMap_of_eq_some (X : KConfiguration)
    (gc : GlobalConfiguration) (hg : X.globalConfiguration = some gc)
    (hm : gc.listeners.foldl (fun m l => ainsert l.name l m) [] = X.listenerMap) :
    setGlobalConfigListenerMap X = X := by
  unfold setGlobalConfigListenerMap
  rw [hg]
  dsimp only
  rw [hm, ← hg]

theorem setGlobalConfigListenerMap_of_eq_none (X : KConfiguration)
    (hg : X.globalConfiguration = none) (hm : X.listenerMap = []) :
    setGlobalConfigListenerMap X = X := by
  unfold setGlobalConfigListenerMap
  rw [hg]
  dsimp only
  rw [← hm, ← hg]

/-- Rebuilding immediately after a rebuild yields no changes and no
problems. -/
theorem rebuildHosts_idem (c : KConfiguration) :
    (rebuildHosts (rebuildHosts c).1).2.1 = [] ∧
    (rebuildHosts (rebuildHosts c).1).2.2 = [] := by
  constructor
  · rw [rebuildHosts_changes_eq, computeNewHosts_rebuild, rebuildHosts_state_hosts,
      detectChangesInHosts_self]
    rfl
  · rw [rebuildHosts_problems_eq, computeNewHostProblems_rebuild,
      rebuildHosts_state_hostProblems, detectChangesInProblems_self]

/-- Erasing the same key from the store produced by an erase-and-rebuild is a
no-op. -/
theorem vsStoreErase_stable (c : KConfiguration) (k : String) :
    vsStoreErase (rebuildHosts (vsStoreErase c k)).1 k =
      (rebuildHosts (vsStoreErase c k)).1 := by
  have harg : aerase k ((rebuildHosts (vsStoreErase c k)).1.virtualServers) = (rebuildHosts (vsStoreErase c k)).1.virtualServers :=
    aerase_idem k c.virtualServers
  show { (rebuildHosts (vsStoreErase c k)).1 with virtualServers := aerase k ((rebuildHosts (vsStoreErase c k)).1.virtualServers) } = (rebuildHosts (vsStoreErase c k)).1
  rw [harg]

/-- Re-storing the same VirtualServer after a store-and-rebuild is a no-op. -/
theorem vsStoreInsert_stable (c : KConfiguration) (k : String) (vs : VirtualServer) :
    vsStoreInsert (rebuildHosts (vsStoreInsert c k vs)).1 k vs =
      (rebuildHosts (vsStoreInsert c k vs)).1 := by
  have harg : ainsert k vs ((rebuildHosts (vsStoreInsert c k vs)).1.virtualServers) = (rebuildHosts (vsStoreInsert c k vs)).1.virtualServers :=
    ainsert_idem k vs c.virtualServers
  show { (rebuildHosts (vsStoreInsert c k vs)).1 with virtualServers := ainsert k vs ((rebuildHosts (vsStoreInsert c k vs)).1.virtualServers) } = (rebuildHosts (vsStoreInsert c k vs)).1
  rw [harg]

/-- Re-applying `AddOrUpdateIngress` with the same argument: empty changes,
and the rejection problem re-emitted exactly when the ingress passes the
class filter and fails validation. -/
theorem aou_ing_again (c : KConfiguration) (ing : Ingress) :
    (AddOrUpdateIngress (AddOrUpdateIngress c ing).1 ing).2.1 = [] ∧
    (AddOrUpdateIngress (AddOrUpdateIngress c ing).1 ing).2.2 =
      (match c.hasCorrectIngressClassIng ing, c.validateIngress ing with
       | true, some e =>
           [{ object := .ingObj ing, isError := true, reason := EventReasonRejected,
              message := e }]
       | _, _ => []) := by
  cases hcl : c.hasCorrectIngressClassIng ing with
  | false =>
    have hstate : (AddOrUpdateIngress c ing).1 = (rebuildHosts (ingStoreErase c (getResourceKey ing.objectMeta))).1 := by
      unfold AddOrUpdateIngress
      rw [hcl]
      simp
    rw [hstate]
    unfold AddOrUpdateIngress
    have hcl2 : (rebuildHosts (ingStoreErase c (getResourceKey ing.objectMeta))).1.hasCorrectIngressClassIng ing = false := hcl
    rw [hcl2]
    simp only [Bool.false_eq_true, not_false_eq_true, if_pos]
    rw [ingStoreErase_of_eq (rebuildHosts (ingStoreErase c (getResourceKey ing.objectMeta))).1 (getResourceKey ing.objectMeta)
      (aerase_idem (getResourceKey ing.objectMeta) c.ingresses)]
    exact ⟨(rebuildHosts_idem _).1, (rebuildHosts_idem _).2⟩
  | true =>
    cases hv : c.validateIngress ing with
    | none =>
      have hstate : (AddOrUpdateIngress c ing).1 = (rebuildHosts (ingStoreInsert c (getResourceKey ing.objectMeta) ing)).1 := by
        unfold AddOrUpdateIngress
        rw [hcl, hv]
        simp
      rw [hstate]
      unfold AddOrUpdateIngress
      have hcl2 : (rebuildHosts (ingStoreInsert c (getResourceKey ing.objectMeta) ing)).1.hasCorrectIngressClassIng ing = true := hcl
      have hv2 : (rebuildHosts (ingStoreInsert c (getResourceKey ing.objectMeta) ing)).1.validateIngress ing = none := hv
      rw [hcl2, hv2]
      simp only [not_true_eq_false, Bool.false_eq_true, if_false]
      rw [ingStoreInsert_of_eq (rebuildHosts (ingStoreInsert c (getResourceKey ing.objectMeta) ing)).1 (getResourceKey ing.objectMeta) ing
        (ainsert_idem (getResourceKey ing.objectMeta) ing c.ingresses)]
      exact ⟨(rebuildHosts_idem _).1, (rebuildHosts_idem _).2⟩
    | some e =>
      have hstate : (AddOrUpdateIngress c ing).1 = (rebuildHosts (ingStoreErase c (getResourceKey ing.objectMeta))).1 := by
        unfold AddOrUpdateIngress
        rw [hcl, hv]
        simp only [not_true_eq_false, Bool.false_eq_true, if_false]
        split
        · rfl
        · rfl
      rw [hstate]
      unfold AddOrUpdateIngress
      have hcl2 : (rebuildHosts (ingStoreErase c (getResourceKey ing.objectMeta))).1.hasCorrectIngressClassIng ing = true := hcl
      have hv2 : (rebuildHosts (ingStoreErase c (getResourceKey ing.objectMeta))).1.validateIngress ing = some e := hv
      rw [hcl2, hv2]
      simp only [not_true_eq_false, Bool.false_eq_true, if_false]
      rw [ingStoreErase_of_eq (rebuildHosts (ingStoreErase c (getResourceKey ing.objectMeta))).1 (getResourceKey ing.objectMeta)
        (aerase_idem (getResourceKey ing.objectMeta) c.ingresses)]
      have hch := (rebuildHosts_idem (ingStoreErase c (getResourceKey ing.objectMeta))).1
      have hpr := (rebuildHosts_idem (ingStoreErase c (getResourceKey ing.objectMeta))).2
      rw [hch, hpr]
      simp [attachErrorToChanges]

/-- Re-applying `AddOrUpdateVirtualServer` with the same argument. -/
theorem aou_vs_again (c : KConfiguration) (vs : VirtualServer) :
    (AddOrUpdateVirtualServer (AddOrUpdateVirtualServer c vs).1 vs).2.1 = [] ∧
    (AddOrUpdateVirtualServer (AddOrUpdateVirtualServer c vs).1 vs).2.2 =
      (match c.hasCorrectIngressClassVS vs, c.validateVirtualServer vs with
       | true, some e =>
           [{ object := .vsObj vs, isError := true, reason := EventReasonRejected,
              message := "VirtualServer " ++ getResourceKey vs.objectMeta ++
                " was rejected with error: " ++ e }]
       | _, _ => []) := by
  cases hcl : c.hasCorrectIngressClassVS vs with
  | false =>
    have hstate : (AddOrUpdateVirtualServer c vs).1 =
        (rebuildHosts (vsStoreErase c (getResourceKey vs.objectMeta))).1 := by
      unfold AddOrUpdateVirtualServer
      rw [hcl]
      simp
    rw [hstate]
    unfold AddOrUpdateVirtualServer
    have hcl2 : (rebuildHosts (vsStoreErase c (getResourceKey vs.objectMeta))).1.hasCorrectIngressClassVS vs = false :=
      hcl
    rw [hcl2]
    simp only [Bool.false_eq_true, not_false_eq_true, if_pos]
    rw [vsStoreErase_stable]
    exact ⟨(rebuildHosts_idem _).1, (rebuildHosts_idem _).2⟩
  | true =>
    cases hv : c.validateVirtualServer vs with
    | none =>
      have hstate : (AddOrUpdateVirtualServer c vs).1 =
          (rebuildHosts (vsStoreInsert c (getResourceKey vs.objectMeta) vs)).1 := by
        unfold AddOrUpdateVirtualServer
        rw [hcl, hv]
        simp
      rw [hstate]
      unfold AddOrUpdateVirtualServer
      have hcl2 : (rebuildHosts (vsStoreInsert c (getResourceKey vs.objectMeta) vs)).1.hasCorrectIngressClassVS vs = true :=
        hcl
      have hv2 : (rebuildHosts (vsStoreInsert c (getResourceKey vs.objectMeta) vs)).1.validateVirtualServer vs = none :=
        hv
      rw [hcl2, hv2]
      simp only [not_true_eq_false, Bool.false_eq_true, if_false]
      rw [vsStoreInsert_stable]
      exact ⟨(rebuildHosts_idem _).1, (rebuildHosts_idem _).2⟩
    | some e =>
      have hstate : (AddOrUpdateVirtualServer c vs).1 =
          (rebuildHosts (vsStoreErase c (getResourceKey vs.objectMeta))).1 := by
        unfold AddOrUpdateVirtualServer
        rw [hcl, hv]
        simp only [not_true_eq_false, Bool.false_eq_true, if_false]
        split
        · rfl
        · rfl
      rw [hstate]
      unfold AddOrUpdateVirtualServer
      have hcl2 : (rebuildHosts (vsStoreErase c (getResourceKey vs.objectMeta))).1.hasCorrectIngressClassVS vs = true :=
        hcl
      have hv2 : (rebuildHosts (vsStoreErase c (getResourceKey vs.objectMeta))).1.validateVirtualServer vs = some e :=
        hv
      rw [hcl2, hv2]
      simp only [not_true_eq_false, Bool.false_eq_true, if_false]
      rw [vsStoreErase_stable]
      have hch := (rebuildHosts_idem (vsStoreErase c (getResourceKey vs.objectMeta))).1
      have hpr := (rebuildHosts_idem (vsStoreErase c (getResourceKey vs.objectMeta))).2
      rw [hch, hpr]
      simp [attachErrorToChanges]

/-- Re-applying `AddOrUpdateVirtualServerRoute` with the same argument. -/
theorem aou_vsr_again (c : KConfiguration) (vsr : VirtualServerRoute) :
    (AddOrUpdateVirtualServerRoute (AddOrUpdateVirtualServerRoute c vsr).1 vsr).2.1 = [] ∧
    (AddOrUpdateVirtualServerRoute (AddOrUpdateVirtualServerRoute c vsr).1 vsr).2.2 =
      (match c.hasCorrectIngressClassVSR vsr, c.validateVirtualServerRoute vsr with
       | true, some e =>
           [{ object := .vsrObj vsr, isError := true, reason := EventReasonRejected,
              message := "VirtualServerRoute " ++ getResourceKey vsr.objectMeta ++
                " was rejected with error: " ++ e }]
       | _, _ => []) := by
  cases hcl : c.hasCorrectIngressClassVSR vsr with
  | false =>
    have hstate : (AddOrUpdateVirtualServerRoute c vsr).1 = (rebuildHosts (vsrStoreErase c (getResourceKey vsr.objectMeta))).1 := by
      unfold AddOrUpdateVirtualServerRoute
      rw [hcl]
      simp
    rw [hstate]
    unfold AddOrUpdateVirtualServerRoute
    have hcl2 : (rebuildHosts (vsrStoreErase c (getResourceKey vsr.objectMeta))).1.hasCorrectIngressClassVSR vsr = false := hcl
    rw [hcl2]
    simp only [Bool.false_eq_true, not_false_eq_true, if_pos]
    rw [vsrStoreErase_of_eq (rebuildHosts (vsrStoreErase c (getResourceKey vsr.objectMeta))).1 (getResourceKey vsr.objectMeta)
      (aerase_idem (getResourceKey vsr.objectMeta) c.virtualServerRoutes)]
    exact ⟨(rebuildHosts_idem _).1, (rebuildHosts_idem _).2⟩
  | true =>
    cases hv : c.validateVirtualServerRoute vsr with
    | none =>
      have hstate : (AddOrUpdateVirtualServerRoute c vsr).1 =
          (rebuildHosts (vsrStoreInsert c (getResourceKey vsr.objectMeta) vsr)).1 := by
        unfold AddOrUpdateVirtualServerRoute
        rw [hcl, hv]
        simp
      rw [hstate]
      unfold AddOrUpdateVirtualServerRoute
      have hcl2 : (rebuildHosts (vsrStoreInsert c (getResourceKey vsr.objectMeta) vsr)).1.hasCorrectIngressClassVSR vsr = true := hcl
      have hv2 : (rebuildHosts (vsrStoreInsert c (getResourceKey vsr.objectMeta) vsr)).1.validateVirtualServerRoute vsr = none := hv
      rw [hcl2, hv2]
      simp only [not_true_eq_false, Bool.false_eq_true, if_false]
      rw [vsrStoreInsert_of_eq (rebuildHosts (vsrStoreInsert c (getResourceKey vsr.objectMeta) vsr)).1 (getResourceKey vsr.objectMeta) vsr
        (ainsert_idem (getResourceKey vsr.objectMeta) vsr c.virtualServerRoutes)]
      exact ⟨(rebuildHosts_idem _).1, (rebuildHosts_idem _).2⟩
    | some e =>
      have hstate : (AddOrUpdateVirtualServerRoute c vsr).1 =
          (rebuildHosts (vsrStoreErase c (getResourceKey vsr.objectMeta))).1 := by
        unfold AddOrUpdateVirtualServerRoute
        rw [hcl, hv]
        simp only [not_true_eq_false, Bool.false_eq_true, if_false]
      rw [hstate]
      unfold AddOrUpdateVirtualServerRoute
      have hcl2 : (rebuildHosts (vsrStoreErase c (getResourceKey vsr.objectMeta))).1.hasCorrectIngressClassVSR vsr = true := hcl
      have hv2 : (rebuildHosts (vsrStoreErase c (getResourceKey vsr.objectMeta))).1.validateVirtualServerRoute vsr = some e := hv
      rw [hcl2, hv2]
      simp only [not_true_eq_false, Bool.false_eq_true, if_false]
      rw [vsrStoreErase_of_eq (rebuildHosts (vsrStoreErase c (getResourceKey vsr.objectMeta))).1 (getResourceKey vsr.objectMeta)
        (aerase_idem (getResourceKey vsr.objectMeta) c.virtualServerRoutes)]
      have hch := (rebuildHosts_idem (vsrStoreErase c (getResourceKey vsr.objectMeta))).1
      have hpr := (rebuildHosts_idem (vsrStoreErase c (getResourceKey vsr.objectMeta))).2
      rw [hch, hpr]
      simp

/-! Field-preservation rewrites: every lemma is a one-layer `rfl`, composed by
rewriting so that nested rebuild states never require a deep definitional
comparison. -/

theorem rhs_clsTS (X : KConfiguration) :
    (rebuildHosts X).1.hasCorrectIngressClassTS = X.hasCorrectIngressClassTS := rfl

theorem rhs_valTS (X : KConfiguration) :
    (rebuildHosts X).1.validateTransportServer = X.validateTransportServer := rfl

theorem rhs_tls (X : KConfiguration) :
    (rebuildHosts X).1.isTLSPassthroughEnabled = X.isTLSPassthroughEnabled := rfl

theorem rhs_transportServers (X : KConfiguration) :
    (rebuildHosts X).1.transportServers = X.transportServers := rfl

theorem rhs_listenerHosts (X : KConfiguration) :
    (rebuildHosts X).1.listenerHosts = X.listenerHosts := rfl

theorem rhs_listenerProblems (X : KConfiguration) :
    (rebuildHosts X).1.listenerProblems = X.listenerProblems := rfl

theorem rhs_gcField (X : KConfiguration) :
    (rebuildHosts X).1.globalConfiguration = X.globalConfiguration := rfl

theorem rhs_lmap (X : KConfiguration) :
    (rebuildHosts X).1.listenerMap = X.listenerMap := rfl

theorem rhs_vgc (X : KConfiguration) :
    (rebuildHosts X).1.validateGlobalConfiguration = X.validateGlobalConfiguration := rfl

theorem rls_clsTS (X : KConfiguration) :
    (rebuildListenerHosts X).1.hasCorrectIngressClassTS = X.hasCorrectIngressClassTS := rfl

theorem rls_valTS (X : KConfiguration) :
    (rebuildListenerHosts X).1.validateTransportServer = X.validateTransportServer := rfl

theorem rls_tls (X : KConfiguration) :
    (rebuildListenerHosts X).1.isTLSPassthroughEnabled = X.isTLSPassthroughEnabled := rfl

theorem rls_transportServers (X : KConfiguration) :
    (rebuildListenerHosts X).1.transportServers = X.transportServers := rfl

theorem rls_hosts (X : KConfiguration) :
    (rebuildListenerHosts X).1.hosts = X.hosts := rfl

theorem rls_hostProblems (X : KConfiguration) :
    (rebuildListenerHosts X).1.hostProblems = X.hostProblems := rfl

theorem rls_listenerHosts (X : KConfiguration) :
    (rebuildListenerHosts X).1.listenerHosts = computeNewListenerHosts X := rfl

theorem rls_listenerProblems (X : KConfiguration) :
    (rebuildListenerHosts X).1.listenerProblems = computeNewListenerProblems X := rfl

theorem rls_gcField (X : KConfiguration) :
    (rebuildListenerHosts X).1.globalConfiguration = X.globalConfiguration := rfl

theorem rls_lmap (X : KConfiguration) :
    (rebuildListenerHosts X).1.listenerMap = X.listenerMap := rfl

theorem rls_vgc (X : KConfiguration) :
    (rebuildListenerHosts X).1.validateGlobalConfiguration =
      X.validateGlobalConfiguration := rfl

theorem cNH_rebuildL (X : KConfiguration) :
    computeNewHosts (rebuildListenerHosts X).1 = computeNewHosts X := rfl

theorem cNHP_rebuildL (X : KConfiguration) :
    computeNewHostProblems (rebuildListenerHosts X).1 = computeNewHostProblems X := rfl

theorem cNLH_rebuildH (X : KConfiguration) :
    computeNewListenerHosts (rebuildHosts X).1 = computeNewListenerHosts X := rfl

theorem cNLH_rebuildL (X : KConfiguration) :
    computeNewListenerHosts (rebuildListenerHosts X).1 = computeNewListenerHosts X := rfl

theorem cNLP_rebuildH (X : KConfiguration) :
    computeNewListenerProblems (rebuildHosts X).1 = computeNewListenerProblems X := rfl

theorem cNLP_rebuildL (X : KConfiguration) :
    computeNewListenerProblems (rebuildListenerHosts X).1 =
      computeNewListenerProblems X := rfl

theorem tse_clsTS (c : KConfiguration) (k : String) :
    (tsStoreErase c k).hasCorrectIngressClassTS = c.hasCorrectIngressClassTS := rfl

theorem tse_valTS (c : KConfiguration) (k : String) :
    (tsStoreErase c k).validateTransportServer = c.validateTransportServer := rfl

theorem tse_tls (c : KConfiguration) (k : String) :
    (tsStoreErase c k).isTLSPassthroughEnabled = c.isTLSPassthroughEnabled := rfl

theorem tse_transportServers (c : KConfiguration) (k : String) :
    (tsStoreErase c k).transportServers = aerase k c.transportServers := rfl

theorem tsi_clsTS (c : KConfiguration) (k : String) (v : TransportServer) :
    (tsStoreInsert c k v).hasCorrectIngressClassTS = c.hasCorrectIngressClassTS := rfl

theorem tsi_valTS (c : KConfiguration) (k : String) (v : TransportServer) :
    (tsStoreInsert c k v).validateTransportServer = c.validateTransportServer := rfl

theorem tsi_tls (c : KConfiguration) (k : String) (v : TransportServer) :
    (tsStoreInsert c k v).isTLSPassthroughEnabled = c.isTLSPassthroughEnabled := rfl

theorem tsi_transportServers (c : KConfiguration) (k : String) (v : TransportServer) :
    (tsStoreInsert c k v).transportServers = ainsert k v c.transportServers := rfl

theorem setgcS_gcField (c : KConfiguration) (gc : GlobalConfiguration) :
    (setGlobalConfigListenerMap (gcStoreSet c (some gc))).globalConfiguration =
      some gc := rfl

theorem setgcS_lmap (c : KConfiguration) (gc : GlobalConfiguration) :
    (setGlobalConfigListenerMap (gcStoreSet c (some gc))).listenerMap =
      gc.listeners.foldl (fun m l => ainsert l.name l m) [] := rfl

theorem setgcS_vgc (c : KConfiguration) (gc : GlobalConfiguration) :
    (setGlobalConfigListenerMap (gcStoreSet c (some gc))).validateGlobalConfiguration =
      c.validateGlobalConfiguration := rfl

theorem setgcN_gcField (c : KConfiguration) :
    (setGlobalConfigListenerMap (gcStoreSet c none)).globalConfiguration = none := rfl

theorem setgcN_lmap (c : KConfiguration) :
    (setGlobalConfigListenerMap (gcStoreSet c none)).listenerMap = [] := rfl

/-- Re-applying `AddOrUpdateTransportServer` with the same argument (both
rebuild modes). -/
theorem aou_ts_again (c : KConfiguration) (ts : TransportServer) :
    (AddOrUpdateTransportServer (AddOrUpdateTransportServer c ts).1 ts).2.1 = [] ∧
    (AddOrUpdateTransportServer (AddOrUpdateTransportServer c ts).1 ts).2.2 =
      (match c.hasCorrectIngressClassTS ts, c.validateTransportServer ts with
       | true, some e =>
           [{ object := .tsObj ts, isError := true, reason := EventReasonRejected,
              message := "TransportServer " ++ getResourceKey ts.objectMeta ++
                " was rejected with error: " ++ e }]
       | _, _ => []) := by
  cases hTLS : c.isTLSPassthroughEnabled with
  | true =>
    cases hcl : c.hasCorrectIngressClassTS ts with
    | false =>
      have hstate : (AddOrUpdateTransportServer c ts).1 = (rebuildHosts (rebuildListenerHosts (tsStoreErase c (getResourceKey ts.objectMeta))).1).1 := by
        unfold AddOrUpdateTransportServer
        rw [hcl]
        simp only [Bool.false_eq_true, not_false_eq_true, if_pos]
        rw [rebuildForTransportServer_eq_true (tsStoreErase c (getResourceKey ts.objectMeta))
          (show (tsStoreErase c (getResourceKey ts.objectMeta)).isTLSPassthroughEnabled = true from hTLS)]
      rw [hstate]
      unfold AddOrUpdateTransportServer
      have hcl2 : ((rebuildHosts (rebuildListenerHosts (tsStoreErase c (getResourceKey ts.objectMeta))).1).1).hasCorrectIngressClassTS ts = false := by
        simp only [rhs_clsTS, rls_clsTS, tse_clsTS]
        exact hcl
      rw [hcl2]
      simp only [Bool.false_eq_true, not_false_eq_true, if_pos]
      have hts : aerase (getResourceKey ts.objectMeta) ((rebuildHosts (rebuildListenerHosts (tsStoreErase c (getResourceKey ts.objectMeta))).1).1).transportServers =
          ((rebuildHosts (rebuildListenerHosts (tsStoreErase c (getResourceKey ts.objectMeta))).1).1).transportServers := by
        simp only [rhs_transportServers, rls_transportServers, tse_transportServers]
        exact aerase_idem (getResourceKey ts.objectMeta) c.transportServers
      rw [tsStoreErase_of_eq (rebuildHosts (rebuildListenerHosts (tsStoreErase c (getResourceKey ts.objectMeta))).1).1 (getResourceKey ts.objectMeta) hts]
      have hTLS2 : ((rebuildHosts (rebuildListenerHosts (tsStoreErase c (getResourceKey ts.objectMeta))).1).1).isTLSPassthroughEnabled = true := by
        simp only [rhs_tls, rls_tls, tse_tls]
        exact hTLS
      rw [rebuildForTransportServer_eq_true (rebuildHosts (rebuildListenerHosts (tsStoreErase c (getResourceKey ts.objectMeta))).1).1 hTLS2]
      have hh1 : computeNewListenerHosts (rebuildHosts (rebuildListenerHosts (tsStoreErase c (getResourceKey ts.objectMeta))).1).1 = ((rebuildHosts (rebuildListenerHosts (tsStoreErase c (getResourceKey ts.objectMeta))).1).1).listenerHosts := by
        simp only [cNLH_rebuildH, cNLH_rebuildL, rhs_listenerHosts, rls_listenerHosts]
      have hp1 : computeNewListenerProblems (rebuildHosts (rebuildListenerHosts (tsStoreErase c (getResourceKey ts.objectMeta))).1).1 = ((rebuildHosts (rebuildListenerHosts (tsStoreErase c (getResourceKey ts.objectMeta))).1).1).listenerProblems := by
        simp only [cNLP_rebuildH, cNLP_rebuildL, rhs_listenerProblems, rls_listenerProblems]
      have hh2 : computeNewHosts (rebuildListenerHosts (rebuildHosts (rebuildListenerHosts (tsStoreErase c (getResourceKey ts.objectMeta))).1).1).1 =
          (rebuildListenerHosts (rebuildHosts (rebuildListenerHosts (tsStoreErase c (getResourceKey ts.objectMeta))).1).1).1.hosts := by
        simp only [cNH_rebuildL, computeNewHosts_rebuild, rls_hosts, rebuildHosts_state_hosts]
      have hp2 : computeNewHostProblems (rebuildListenerHosts (rebuildHosts (rebuildListenerHosts (tsStoreErase c (getResourceKey ts.objectMeta))).1).1).1 =
          (rebuildListenerHosts (rebuildHosts (rebuildListenerHosts (tsStoreErase c (getResourceKey ts.objectMeta))).1).1).1.hostProblems := by
        simp only [cNHP_rebuildL, computeNewHostProblems_rebuild, rls_hostProblems,
          rebuildHosts_state_hostProblems]
      have hl1 := rebuildListenerHosts_no_delta (rebuildHosts (rebuildListenerHosts (tsStoreErase c (getResourceKey ts.objectMeta))).1).1 hh1 hp1
      have hl2 := rebuildHosts_no_delta (rebuildListenerHosts (rebuildHosts (rebuildListenerHosts (tsStoreErase c (getResourceKey ts.objectMeta))).1).1).1 hh2 hp2
      rw [hl1.1, hl1.2, hl2.1, hl2.2]
      exact ⟨rfl, rfl⟩
    | true =>
      cases hv : c.validateTransportServer ts with
      | none =>
        have hstate : (AddOrUpdateTransportServer c ts).1 = (rebuildHosts (rebuildListenerHosts (tsStoreInsert c (getResourceKey ts.objectMeta) ts)).1).1 := by
          unfold AddOrUpdateTransportServer
          rw [hcl, hv]
          simp only [not_true_eq_false, Bool.false_eq_true, if_false]
          rw [rebuildForTransportServer_eq_true (tsStoreInsert c (getResourceKey ts.objectMeta) ts)
            (show (tsStoreInsert c (getResourceKey ts.objectMeta) ts).isTLSPassthroughEnabled = true from hTLS)]
        rw [hstate]
        unfold AddOrUpdateTransportServer
        have hcl2 : ((rebuildHosts (rebuildListenerHosts (tsStoreInsert c (getResourceKey ts.objectMeta) ts)).1).1).hasCorrectIngressClassTS ts = true := by
          simp only [rhs_clsTS, rls_clsTS, tsi_clsTS]
          exact hcl
        have hv2 : ((rebuildHosts (rebuildListenerHosts (tsStoreInsert c (getResourceKey ts.objectMeta) ts)).1).1).validateTransportServer ts = none := by
          simp only [rhs_valTS, rls_valTS, tsi_valTS]
          exact hv
        rw [hcl2, hv2]
        simp only [not_true_eq_false, Bool.false_eq_true, if_false]
        have hts : ainsert (getResourceKey ts.objectMeta) ts
            ((rebuildHosts (rebuildListenerHosts (tsStoreInsert c (getResourceKey ts.objectMeta) ts)).1).1).transportServers = ((rebuildHosts (rebuildListenerHosts (tsStoreInsert c (getResourceKey ts.objectMeta) ts)).1).1).transportServers := by
          simp only [rhs_transportServers, rls_transportServers, tsi_transportServers]
          exact ainsert_idem (getResourceKey ts.objectMeta) ts c.transportServers
        rw [tsStoreInsert_of_eq (rebuildHosts (rebuildListenerHosts (tsStoreInsert c (getResourceKey ts.objectMeta) ts)).1).1 (getResourceKey ts.objectMeta) ts hts]
        have hTLS2 : ((rebuildHosts (rebuildListenerHosts (tsStoreInsert c (getResourceKey ts.objectMeta) ts)).1).1).isTLSPassthroughEnabled = true := by
          simp only [rhs_tls, rls_tls, tsi_tls]
          exact hTLS
        rw [rebuildForTransportServer_eq_true (rebuildHosts (rebuildListenerHosts (tsStoreInsert c (getResourceKey ts.objectMeta) ts)).1).1 hTLS2]
        have hh1 : computeNewListenerHosts (rebuildHosts (rebuildListenerHosts (tsStoreInsert c (getResourceKey ts.objectMeta) ts)).1).1 = ((rebuildHosts (rebuildListenerHosts (tsStoreInsert c (getResourceKey ts.objectMeta) ts)).1).1).listenerHosts := by
          simp only [cNLH_rebuildH, cNLH_rebuildL, rhs_listenerHosts, rls_listenerHosts]
        have hp1 : computeNewListenerProblems (rebuildHosts (rebuildListenerHosts (tsStoreInsert c (getResourceKey ts.objectMeta) ts)).1).1 = ((rebuildHosts (rebuildListenerHosts (tsStoreInsert c (getResourceKey ts.objectMeta) ts)).1).1).listenerProblems := by
          simp only [cNLP_rebuildH, cNLP_rebuildL, rhs_listenerProblems, rls_listenerProblems]
        have hh2 : computeNewHosts (rebuildListenerHosts (rebuildHosts (rebuildListenerHosts (tsStoreInsert c (getResourceKey ts.objectMeta) ts)).1).1).1 =
            (rebuildListenerHosts (rebuildHosts (rebuildListenerHosts (tsStoreInsert c (getResourceKey ts.objectMeta) ts)).1).1).1.hosts := by
          simp only [cNH_rebuildL, computeNewHosts_rebuild, rls_hosts, rebuildHosts_state_hosts]
        have hp2 : computeNewHostProblems (rebuildListenerHosts (rebuildHosts (rebuildListenerHosts (tsStoreInsert c (getResourceKey ts.objectMeta) ts)).1).1).1 =
            (rebuildListenerHosts (rebuildHosts (rebuildListenerHosts (tsStoreInsert c (getResourceKey ts.objectMeta) ts)).1).1).1.hostProblems := by
          simp only [cNHP_rebuildL, computeNewHostProblems_rebuild, rls_hostProblems,
            rebuildHosts_state_hostProblems]
        have hl1 := rebuildListenerHosts_no_delta (rebuildHosts (rebuildListenerHosts (tsStoreInsert c (getResourceKey ts.objectMeta) ts)).1).1 hh1 hp1
        have hl2 := rebuildHosts_no_delta (rebuildListenerHosts (rebuildHosts (rebuildListenerHosts (tsStoreInsert c (getResourceKey ts.objectMeta) ts)).1).1).1 hh2 hp2
        rw [hl1.1, hl1.2, hl2.1, hl2.2]
        exact ⟨rfl, rfl⟩
      | some e =>
        have hstate : (AddOrUpdateTransportServer c ts).1 = (rebuildHosts (rebuildListenerHosts (tsStoreErase c (getResourceKey ts.objectMeta))).1).1 := by
          unfold AddOrUpdateTransportServer
          rw [hcl, hv]
          simp only [not_true_eq_false, Bool.false_eq_true, if_false]
          rw [rebuildForTransportServer_eq_true (tsStoreErase c (getResourceKey ts.objectMeta))
            (show (tsStoreErase c (getResourceKey ts.objectMeta)).isTLSPassthroughEnabled = true from hTLS)]
          split
          · rfl
          · rfl
        rw [hstate]
        unfold AddOrUpdateTransportServer
        have hcl2 : ((rebuildHosts (rebuildListenerHosts (tsStoreErase c (getResourceKey ts.objectMeta))).1).1).hasCorrectIngressClassTS ts = true := by
          simp only [rhs_clsTS, rls_clsTS, tse_clsTS]
          exact hcl
        have hv2 : ((rebuildHosts (rebuildListenerHosts (tsStoreErase c (getResourceKey ts.objectMeta))).1).1).validateTransportServer ts = some e := by
          simp only [rhs_valTS, rls_valTS, tse_valTS]
          exact hv
        rw [hcl2, hv2]
        simp only [not_true_eq_false, Bool.false_eq_true, if_false]
        have hts : aerase (getResourceKey ts.objectMeta) ((rebuildHosts (rebuildListenerHosts (tsStoreErase c (getResourceKey ts.objectMeta))).1).1).transportServers =
            ((rebuildHosts (rebuildListenerHosts (tsStoreErase c (getResourceKey ts.objectMeta))).1).1).transportServers := by
          simp only [rhs_transportServers, rls_transportServers, tse_transportServers]
          exact aerase_idem (getResourceKey ts.objectMeta) c.transportServers
        rw [tsStoreErase_of_eq (rebuildHosts (rebuildListenerHosts (tsStoreErase c (getResourceKey ts.objectMeta))).1).1 (getResourceKey ts.objectMeta) hts]
        have hTLS2 : ((rebuildHosts (rebuildListenerHosts (tsStoreErase c (getResourceKey ts.objectMeta))).1).1).isTLSPassthroughEnabled = true := by
          simp only [rhs_tls, rls_tls, tse_tls]
          exact hTLS
        rw [rebuildForTransportServer_eq_true (rebuildHosts (rebuildListenerHosts (tsStoreErase c (getResourceKey ts.objectMeta))).1).1 hTLS2]
        have hh1 : computeNewListenerHosts (rebuildHosts (rebuildListenerHosts (tsStoreErase c (getResourceKey ts.objectMeta))).1).1 = ((rebuildHosts (rebuildListenerHosts (tsStoreErase c (getResourceKey ts.objectMeta))).1).1).listenerHosts := by
          simp only [cNLH_rebuildH, cNLH_rebuildL, rhs_listenerHosts, rls_listenerHosts]
        have hp1 : computeNewListenerProblems (rebuildHosts (rebuildListenerHosts (tsStoreErase c (getResourceKey ts.objectMeta))).1).1 = ((rebuildHosts (rebuildListenerHosts (tsStoreErase c (getResourceKey ts.objectMeta))).1).1).listenerProblems := by
          simp only [cNLP_rebuildH, cNLP_rebuildL, rhs_listenerProblems, rls_listenerProblems]
        have hh2 : computeNewHosts (rebuildListenerHosts (rebuildHosts (rebuildListenerHosts (tsStoreErase c (getResourceKey ts.objectMeta))).1).1).1 =
            (rebuildListenerHosts (rebuildHosts (rebuildListenerHosts (tsStoreErase c (getResourceKey ts.objectMeta))).1).1).1.hosts := by
          simp only [cNH_rebuildL, computeNewHosts_rebuild, rls_hosts, rebuildHosts_state_hosts]
        have hp2 : computeNewHostProblems (rebuildListenerHosts (rebuildHosts (rebuildListenerHosts (tsStoreErase c (getResourceKey ts.objectMeta))).1).1).1 =
            (rebuildListenerHosts (rebuildHosts (rebuildListenerHosts (tsStoreErase c (getResourceKey ts.objectMeta))).1).1).1.hostProblems := by
          simp only [cNHP_rebuildL, computeNewHostProblems_rebuild, rls_hostProblems,
            rebuildHosts_state_hostProblems]
        have hl1 := rebuildListenerHosts_no_delta (rebuildHosts (rebuildListenerHosts (tsStoreErase c (getResourceKey ts.objectMeta))).1).1 hh1 hp1
        have hl2 := rebuildHosts_no_delta (rebuildListenerHosts (rebuildHosts (rebuildListenerHosts (tsStoreErase c (getResourceKey ts.objectMeta))).1).1).1 hh2 hp2
        rw [hl1.1, hl1.2, hl2.1, hl2.2]
        simp [attachErrorToChanges]
  | false =>
    cases hcl : c.hasCorrectIngressClassTS ts with
    | false =>
      have hstate : (AddOrUpdateTransportServer c ts).1 = (rebuildListenerHosts (tsStoreErase c (getResourceKey ts.objectMeta))).1 := by
        unfold AddOrUpdateTransportServer
        rw [hcl]
        simp only [Bool.false_eq_true, not_false_eq_true, if_pos]
        rw [rebuildForTransportServer_eq_false (tsStoreErase c (getResourceKey ts.objectMeta))
          (show (tsStoreErase c (getResourceKey ts.objectMeta)).isTLSPassthroughEnabled = false from hTLS)]
      rw [hstate]
      unfold AddOrUpdateTransportServer
      have hcl2 : ((rebuildListenerHosts (tsStoreErase c (getResourceKey ts.objectMeta))).1).hasCorrectIngressClassTS ts = false := by
        simp only [rls_clsTS, tse_clsTS]
        exact hcl
      rw [hcl2]
      simp only [Bool.false_eq_true, not_false_eq_true, if_pos]
      have hts : aerase (getResourceKey ts.objectMeta) ((rebuildListenerHosts (tsStoreErase c (getResourceKey ts.objectMeta))).1).transportServers =
          ((rebuildListenerHosts (tsStoreErase c (getResourceKey ts.objectMeta))).1).transportServers := by
        simp only [rls_transportServers, tse_transportServers]
        exact aerase_idem (getResourceKey ts.objectMeta) c.transportServers
      rw [tsStoreErase_of_eq (rebuildListenerHosts (tsStoreErase c (getResourceKey ts.objectMeta))).1 (getResourceKey ts.objectMeta) hts]
      have hTLS2 : ((rebuildListenerHosts (tsStoreErase c (getResourceKey ts.objectMeta))).1).isTLSPassthroughEnabled = false := by
        simp only [rls_tls, tse_tls]
        exact hTLS
      rw [rebuildForTransportServer_eq_false (rebuildListenerHosts (tsStoreErase c (getResourceKey ts.objectMeta))).1 hTLS2]
      have hh1 : computeNewListenerHosts (rebuildListenerHosts (tsStoreErase c (getResourceKey ts.objectMeta))).1 = ((rebuildListenerHosts (tsStoreErase c (getResourceKey ts.objectMeta))).1).listenerHosts := by
        simp only [cNLH_rebuildL, rls_listenerHosts]
      have hp1 : computeNewListenerProblems (rebuildListenerHosts (tsStoreErase c (getResourceKey ts.objectMeta))).1 = ((rebuildListenerHosts (tsStoreErase c (getResourceKey ts.objectMeta))).1).listenerProblems := by
        simp only [cNLP_rebuildL, rls_listenerProblems]
      have hl1 := rebuildListenerHosts_no_delta (rebuildListenerHosts (tsStoreErase c (getResourceKey ts.objectMeta))).1 hh1 hp1
      rw [hl1.1, hl1.2]
      exact ⟨rfl, rfl⟩
    | true =>
      cases hv : c.validateTransportServer ts with
      | none =>
        have hstate : (AddOrUpdateTransportServer c ts).1 = (rebuildListenerHosts (tsStoreInsert c (getResourceKey ts.objectMeta) ts)).1 := by
          unfold AddOrUpdateTransportServer
          rw [hcl, hv]
          simp only [not_true_eq_false, Bool.false_eq_true, if_false]
          rw [rebuildForTransportServer_eq_false (tsStoreInsert c (getResourceKey ts.objectMeta) ts)
            (show (tsStoreInsert c (getResourceKey ts.objectMeta) ts).isTLSPassthroughEnabled = false from hTLS)]
        rw [hstate]
        unfold AddOrUpdateTransportServer
        have hcl2 : ((rebuildListenerHosts (tsStoreInsert c (getResourceKey ts.objectMeta) ts)).1).hasCorrectIngressClassTS ts = true := by
          simp only [rls_clsTS, tsi_clsTS]
          exact hcl
        have hv2 : ((rebuildListenerHosts (tsStoreInsert c (getResourceKey ts.objectMeta) ts)).1).validateTransportServer ts = none := by
          simp only [rls_valTS, tsi_valTS]
          exact hv
        rw [hcl2, hv2]
        simp only [not_true_eq_false, Bool.false_eq_true, if_false]
        have hts : ainsert (getResourceKey ts.objectMeta) ts
            ((rebuildListenerHosts (tsStoreInsert c (getResourceKey ts.objectMeta) ts)).1).transportServers = ((rebuildListenerHosts (tsStoreInsert c (getResourceKey ts.objectMeta) ts)).1).transportServers := by
          simp only [rls_transportServers, tsi_transportServers]
          exact ainsert_idem (getResourceKey ts.objectMeta) ts c.transportServers
        rw [tsStoreInsert_of_eq (rebuildListenerHosts (tsStoreInsert c (getResourceKey ts.objectMeta) ts)).1 (getResourceKey ts.objectMeta) ts hts]
        have hTLS2 : ((rebuildListenerHosts (tsStoreInsert c (getResourceKey ts.objectMeta) ts)).1).isTLSPassthroughEnabled = false := by
          simp only [rls_tls, tsi_tls]
          exact hTLS
        rw [rebuildForTransportServer_eq_false (rebuildListenerHosts (tsStoreInsert c (getResourceKey ts.objectMeta) ts)).1 hTLS2]
        have hh1 : computeNewListenerHosts (rebuildListenerHosts (tsStoreInsert c (getResourceKey ts.objectMeta) ts)).1 = ((rebuildListenerHosts (tsStoreInsert c (getResourceKey ts.objectMeta) ts)).1).listenerHosts := by
          simp only [cNLH_rebuildL, rls_listenerHosts]
        have hp1 : computeNewListenerProblems (rebuildListenerHosts (tsStoreInsert c (getResourceKey ts.objectMeta) ts)).1 = ((rebuildListenerHosts (tsStoreInsert c (getResourceKey ts.objectMeta) ts)).1).listenerProblems := by
          simp only [cNLP_rebuildL, rls_listenerProblems]
        have hl1 := rebuildListenerHosts_no_delta (rebuildListenerHosts (tsStoreInsert c (getResourceKey ts.objectMeta) ts)).1 hh1 hp1
        rw [hl1.1, hl1.2]
        exact ⟨rfl, rfl⟩
      | some e =>
        have hstate : (AddOrUpdateTransportServer c ts).1 = (rebuildListenerHosts (tsStoreErase c (getResourceKey ts.objectMeta))).1 := by
          unfold AddOrUpdateTransportServer
          rw [hcl, hv]
          simp only [not_true_eq_false, Bool.false_eq_true, if_false]
          rw [rebuildForTransportServer_eq_false (tsStoreErase c (getResourceKey ts.objectMeta))
            (show (tsStoreErase c (getResourceKey ts.objectMeta)).isTLSPassthroughEnabled = false from hTLS)]
          split
          · rfl
          · rfl
        rw [hstate]
        unfold AddOrUpdateTransportServer
        have hcl2 : ((rebuildListenerHosts (tsStoreErase c (getResourceKey ts.objectMeta))).1).hasCorrectIngressClassTS ts = true := by
          simp only [rls_clsTS, tse_clsTS]
          exact hcl
        have hv2 : ((rebuildListenerHosts (tsStoreErase c (getResourceKey ts.objectMeta))).1).validateTransportServer ts = some e := by
          simp only [rls_valTS, tse_valTS]
          exact hv
        rw [hcl2, hv2]
        simp only [not_true_eq_false, Bool.false_eq_true, if_false]
        have hts : aerase (getResourceKey ts.objectMeta) ((rebuildListenerHosts (tsStoreErase c (getResourceKey ts.objectMeta))).1).transportServers =
            ((rebuildListenerHosts (tsStoreErase c (getResourceKey ts.objectMeta))).1).transportServers := by
          simp only [rls_transportServers, tse_transportServers]
          exact aerase_idem (getResourceKey ts.objectMeta) c.transportServers
        rw [tsStoreErase_of_eq (rebuildListenerHosts (tsStoreErase c (getResourceKey ts.objectMeta))).1 (getResourceKey ts.objectMeta) hts]
        have hTLS2 : ((rebuildListenerHosts (tsStoreErase c (getResourceKey ts.objectMeta))).1).isTLSPassthroughEnabled = false := by
          simp only [rls_tls, tse_tls]
          exact hTLS
        rw [rebuildForTransportServer_eq_false (rebuildListenerHosts (tsStoreErase c (getResourceKey ts.objectMeta))).1 hTLS2]
        have hh1 : computeNewListenerHosts (rebuildListenerHosts (tsStoreErase c (getResourceKey ts.objectMeta))).1 = ((rebuildListenerHosts (tsStoreErase c (getResourceKey ts.objectMeta))).1).listenerHosts := by
          simp only [cNLH_rebuildL, rls_listenerHosts]
        have hp1 : computeNewListenerProblems (rebuildListenerHosts (tsStoreErase c (getResourceKey ts.objectMeta))).1 = ((rebuildListenerHosts (tsStoreErase c (getResourceKey ts.objectMeta))).1).listenerProblems := by
          simp only [cNLP_rebuildL, rls_listenerProblems]
        have hl1 := rebuildListenerHosts_no_delta (rebuildListenerHosts (tsStoreErase c (getResourceKey ts.objectMeta))).1 hh1 hp1
        rw [hl1.1, hl1.2]
        simp [attachErrorToChanges]

/-- Re-applying `AddOrUpdateGlobalConfiguration` with the same argument:
empty changes and problems; the validation error is returned to the caller
on every call. -/
theorem aou_gc_again (c : KConfiguration) (gc : GlobalConfiguration) :
    (AddOrUpdateGlobalConfiguration (AddOrUpdateGlobalConfiguration c gc).1 gc).2.1 = [] ∧
    (AddOrUpdateGlobalConfiguration (AddOrUpdateGlobalConfiguration c gc).1 gc).2.2.1 = [] ∧
    (AddOrUpdateGlobalConfiguration (AddOrUpdateGlobalConfiguration c gc).1 gc).2.2.2 =
      c.validateGlobalConfiguration gc := by
  have hstate : (AddOrUpdateGlobalConfiguration c gc).1 = (rebuildHosts (rebuildListenerHosts (setGlobalConfigListenerMap (gcStoreSet c (some gc)))).1).1 := rfl
  rw [hstate]
  unfold AddOrUpdateGlobalConfiguration
  have h1 : gcStoreSet (rebuildHosts (rebuildListenerHosts (setGlobalConfigListenerMap (gcStoreSet c (some gc)))).1).1 (some gc) = (rebuildHosts (rebuildListenerHosts (setGlobalConfigListenerMap (gcStoreSet c (some gc)))).1).1 := by
    refine gcStoreSet_of_eq _ _ ?_
    simp only [rhs_gcField, rls_gcField, setgcS_gcField]
  rw [h1]
  have h2 : setGlobalConfigListenerMap (rebuildHosts (rebuildListenerHosts (setGlobalConfigListenerMap (gcStoreSet c (some gc)))).1).1 = (rebuildHosts (rebuildListenerHosts (setGlobalConfigListenerMap (gcStoreSet c (some gc)))).1).1 := by
    refine setGlobalConfigListenerMap_of_eq_some _ gc ?_ ?_
    · simp only [rhs_gcField, rls_gcField, setgcS_gcField]
    · simp only [rhs_lmap, rls_lmap, setgcS_lmap]
  rw [h2]
  have hh1 : computeNewListenerHosts (rebuildHosts (rebuildListenerHosts (setGlobalConfigListenerMap (gcStoreSet c (some gc)))).1).1 = ((rebuildHosts (rebuildListenerHosts (setGlobalConfigListenerMap (gcStoreSet c (some gc)))).1).1).listenerHosts := by
    simp only [cNLH_rebuildH, cNLH_rebuildL, rhs_listenerHosts, rls_listenerHosts]
  have hp1 : computeNewListenerProblems (rebuildHosts (rebuildListenerHosts (setGlobalConfigListenerMap (gcStoreSet c (some gc)))).1).1 = ((rebuildHosts (rebuildListenerHosts (setGlobalConfigListenerMap (gcStoreSet c (some gc)))).1).1).listenerProblems := by
    simp only [cNLP_rebuildH, cNLP_rebuildL, rhs_listenerProblems, rls_listenerProblems]
  have hh2 : computeNewHosts (rebuildListenerHosts (rebuildHosts (rebuildListenerHosts (setGlobalConfigListenerMap (gcStoreSet c (some gc)))).1).1).1 =
      (rebuildListenerHosts (rebuildHosts (rebuildListenerHosts (setGlobalConfigListenerMap (gcStoreSet c (some gc)))).1).1).1.hosts := by
    simp only [cNH_rebuildL, computeNewHosts_rebuild, rls_hosts, rebuildHosts_state_hosts]
  have hp2 : computeNewHostProblems (rebuildListenerHosts (rebuildHosts (rebuildListenerHosts (setGlobalConfigListenerMap (gcStoreSet c (some gc)))).1).1).1 =
      (rebuildListenerHosts (rebuildHosts (rebuildListenerHosts (setGlobalConfigListenerMap (gcStoreSet c (some gc)))).1).1).1.hostProblems := by
    simp only [cNHP_rebuildL, computeNewHostProblems_rebuild, rls_hostProblems,
      rebuildHosts_state_hostProblems]
  have hl1 := rebuildListenerHosts_no_delta (rebuildHosts (rebuildListenerHosts (setGlobalConfigListenerMap (gcStoreSet c (some gc)))).1).1 hh1 hp1
  have hl2 := rebuildHosts_no_delta (rebuildListenerHosts (rebuildHosts (rebuildListenerHosts (setGlobalConfigListenerMap (gcStoreSet c (some gc)))).1).1).1 hh2 hp2
  refine ⟨?_, ?_, ?_⟩
  · dsimp only
    rw [hl1.1, hl2.1]
    rfl
  · dsimp only
    rw [hl1.2, hl2.2]
    rfl
  · dsimp only
    simp only [rhs_vgc, rls_vgc, setgcS_vgc]

theorem del_ing_again (c : KConfiguration) (k : String) :
    (DeleteIngress (DeleteIngress c k).1 k).2.1 = [] ∧
    (DeleteIngress (DeleteIngress c k).1 k).2.2 = [] := by
  cases hd : alookup k c.ingresses with
  | none =>
    have hstate : (DeleteIngress c k).1 = c := by
      unfold DeleteIngress
      rw [hd]
    rw [hstate]
    unfold DeleteIngress
    rw [hd]
    exact ⟨rfl, rfl⟩
  | some v =>
    have hstate : (DeleteIngress c k).1 = (rebuildHosts (ingStoreErase c k)).1 := by
      unfold DeleteIngress
      rw [hd]
    rw [hstate]
    unfold DeleteIngress
    have hd2 : alookup k ((rebuildHosts (ingStoreErase c k)).1.ingresses) = none :=
      alookup_aerase_self k c.ingresses
    rw [hd2]
    exact ⟨rfl, rfl⟩

theorem del_vs_again (c : KConfiguration) (k : String) :
    (DeleteVirtualServer (DeleteVirtualServer c k).1 k).2.1 = [] ∧
    (DeleteVirtualServer (DeleteVirtualServer c k).1 k).2.2 = [] := by
  cases hd : alookup k c.virtualServers with
  | none =>
    have hstate : (DeleteVirtualServer c k).1 = c := by
      unfold DeleteVirtualServer
      rw [hd]
    rw [hstate]
    unfold DeleteVirtualServer
    rw [hd]
    exact ⟨rfl, rfl⟩
  | some v =>
    have hstate : (DeleteVirtualServer c k).1 =
        (rebuildHosts (vsStoreErase c k)).1 := by
      unfold DeleteVirtualServer
      rw [hd]
    rw [hstate]
    unfold DeleteVirtualServer
    have hd2 : alookup k ((rebuildHosts (vsStoreErase c k)).1.virtualServers) = none :=
      alookup_aerase_self k c.virtualServers
    rw [hd2]
    exact ⟨rfl, rfl⟩

theorem del_vsr_again (c : KConfiguration) (k : String) :
    (DeleteVirtualServerRoute (DeleteVirtualServerRoute c k).1 k).2.1 = [] ∧
    (DeleteVirtualServerRoute (DeleteVirtualServerRoute c k).1 k).2.2 = [] := by
  cases hd : alookup k c.virtualServerRoutes with
  | none =>
    have hstate : (DeleteVirtualServerRoute c k).1 = c := by
      unfold DeleteVirtualServerRoute
      rw [hd]
    rw [hstate]
    unfold DeleteVirtualServerRoute
    rw [hd]
    exact ⟨rfl, rfl⟩
  | some v =>
    have hstate : (DeleteVirtualServerRoute c k).1 =
        (rebuildHosts (vsrStoreErase c k)).1 := by
      unfold DeleteVirtualServerRoute
      rw [hd]
    rw [hstate]
    unfold DeleteVirtualServerRoute
    have hd2 : alookup k ((rebuildHosts (vsrStoreErase c k)).1.virtualServerRoutes) = none :=
      alookup_aerase_self k c.virtualServerRoutes
    rw [hd2]
    exact ⟨rfl, rfl⟩

/-- The TransportServer rebuild sequence does not alter the TransportServer
store. -/
theorem rebuildForTransportServer_transportServers (c : KConfiguration) :
    (rebuildForTransportServer c).1.transportServers = c.transportServers := by
  unfold rebuildForTransportServer
  simp only []
  split
  · rfl
  · rfl

theorem del_ts_again (c : KConfiguration) (k : String) :
    (DeleteTransportServer (DeleteTransportServer c k).1 k).2.1 = [] ∧
    (DeleteTransportServer (DeleteTransportServer c k).1 k).2.2 = [] := by
  cases hd : alookup k c.transportServers with
  | none =>
    have hstate : (DeleteTransportServer c k).1 = c := by
      unfold DeleteTransportServer
      rw [hd]
    rw [hstate]
    unfold DeleteTransportServer
    rw [hd]
    exact ⟨rfl, rfl⟩
  | some v =>
    have hstate : (DeleteTransportServer c k).1 =
        (rebuildForTransportServer (tsStoreErase c k)).1 := by
      unfold DeleteTransportServer
      rw [hd]
    rw [hstate]
    unfold DeleteTransportServer
    have hd2 : alookup k ((rebuildForTransportServer (tsStoreErase c k)).1.transportServers)
        = none := by
      rw [rebuildForTransportServer_transportServers]
      exact alookup_aerase_self k c.transportServers
    rw [hd2]
    exact ⟨rfl, rfl⟩

theorem del_gc_again (c : KConfiguration) :
    (DeleteGlobalConfiguration (DeleteGlobalConfiguration c).1).2.1 = [] ∧
    (DeleteGlobalConfiguration (DeleteGlobalConfiguration c).1).2.2 = [] := by
  have hstate : (DeleteGlobalConfiguration c).1 = (rebuildHosts (rebuildListenerHosts (setGlobalConfigListenerMap (gcStoreSet c none))).1).1 := rfl
  rw [hstate]
  unfold DeleteGlobalConfiguration
  have h1 : gcStoreSet (rebuildHosts (rebuildListenerHosts (setGlobalConfigListenerMap (gcStoreSet c none))).1).1 none = (rebuildHosts (rebuildListenerHosts (setGlobalConfigListenerMap (gcStoreSet c none))).1).1 := by
    refine gcStoreSet_of_eq _ _ ?_
    simp only [rhs_gcField, rls_gcField, setgcN_gcField]
  rw [h1]
  have h2 : setGlobalConfigListenerMap (rebuildHosts (rebuildListenerHosts (setGlobalConfigListenerMap (gcStoreSet c none))).1).1 = (rebuildHosts (rebuildListenerHosts (setGlobalConfigListenerMap (gcStoreSet c none))).1).1 := by
    refine setGlobalConfigListenerMap_of_eq_none _ ?_ ?_
    · simp only [rhs_gcField, rls_gcField, setgcN_gcField]
    · simp only [rhs_lmap, rls_lmap, setgcN_lmap]
  rw [h2]
  have hh1 : computeNewListenerHosts (rebuildHosts (rebuildListenerHosts (setGlobalConfigListenerMap (gcStoreSet c none))).1).1 = ((rebuildHosts (rebuildListenerHosts (setGlobalConfigListenerMap (gcStoreSet c none))).1).1).listenerHosts := by
    simp only [cNLH_rebuildH, cNLH_rebuildL, rhs_listenerHosts, rls_listenerHosts]
  have hp1 : computeNewListenerProblems (rebuildHosts (rebuildListenerHosts (setGlobalConfigListenerMap (gcStoreSet c none))).1).1 = ((rebuildHosts (rebuildListenerHosts (setGlobalConfigListenerMap (gcStoreSet c none))).1).1).listenerProblems := by
    simp only [cNLP_rebuildH, cNLP_rebuildL, rhs_listenerProblems, rls_listenerProblems]
  have hh2 : computeNewHosts (rebuildListenerHosts (rebuildHosts (rebuildListenerHosts (setGlobalConfigListenerMap (gcStoreSet c none))).1).1).1 =
      (rebuildListenerHosts (rebuildHosts (rebuildListenerHosts (setGlobalConfigListenerMap (gcStoreSet c none))).1).1).1.hosts := by
    simp only [cNH_rebuildL, computeNewHosts_rebuild, rls_hosts, rebuildHosts_state_hosts]
  have hp2 : computeNewHostProblems (rebuildListenerHosts (rebuildHosts (rebuildListenerHosts (setGlobalConfigListenerMap (gcStoreSet c none))).1).1).1 =
      (rebuildListenerHosts (rebuildHosts (rebuildListenerHosts (setGlobalConfigListenerMap (gcStoreSet c none))).1).1).1.hostProblems := by
    simp only [cNHP_rebuildL, computeNewHostProblems_rebuild, rls_hostProblems,
      rebuildHosts_state_hostProblems]
  have hl1 := rebuildListenerHosts_no_delta (rebuildHosts (rebuildListenerHosts (setGlobalConfigListenerMap (gcStoreSet c none))).1).1 hh1 hp1
  have hl2 := rebuildHosts_no_delta (rebuildListenerHosts (rebuildHosts (rebuildListenerHosts (setGlobalConfigListenerMap (gcStoreSet c none))).1).1).1 hh2 hp2
  constructor
  · dsimp only
    rw [hl1.1, hl2.1]
    rfl
  · dsimp only
    rw [hl1.2, hl2.2]
    rfl

/-- C4 (amended): for every mutator, re-applying the same mutation with the
same argument yields an empty change list, and an empty problem list except
for the four filtered AddOrUpdate mutators on an argument that passes the
ingress-class filter and fails validation, whose rejection problem bypasses
the problem trackers and is re-emitted on every call;
`AddOrUpdateGlobalConfiguration` returns its validation error to the caller
on every call, with empty changes and problems. -/
theorem c4_remutation (c : KConfiguration) (ing : Ingress) (vs : VirtualServer)
    (vsr : VirtualServerRoute) (ts : TransportServer) (gc : GlobalConfiguration)
    (k1 k2 k3 k4 : String) :
    ((AddOrUpdateIngress (AddOrUpdateIngress c ing).1 ing).2.1 = [] ∧
     (AddOrUpdateIngress (AddOrUpdateIngress c ing).1 ing).2.2 =
       (match c.hasCorrectIngressClassIng ing, c.validateIngress ing with
        | true, some e =>
            [{ object := .ingObj ing, isError := true, reason := EventReasonRejected,
               message := e }]
        | _, _ => [])) ∧
    ((AddOrUpdateVirtualServer (AddOrUpdateVirtualServer c vs).1 vs).2.1 = [] ∧
     (AddOrUpdateVirtualServer (AddOrUpdateVirtualServer c vs).1 vs).2.2 =
       (match c.hasCorrectIngressClassVS vs, c.validateVirtualServer vs with
        | true, some e =>
            [{ object := .vsObj vs, isError := true, reason := EventReasonRejected,
               message := "VirtualServer " ++ getResourceKey vs.objectMeta ++
                 " was rejected with error: " ++ e }]
        | _, _ => [])) ∧
    ((AddOrUpdateVirtualServerRoute (AddOrUpdateVirtualServerRoute c vsr).1 vsr).2.1 = [] ∧
     (AddOrUpdateVirtualServerRoute (AddOrUpdateVirtualServerRoute c vsr).1 vsr).2.2 =
       (match c.hasCorrectIngressClassVSR vsr, c.validateVirtualServerRoute vsr with
        | true, some e =>
            [{ object := .vsrObj vsr, isError := true, reason := EventReasonRejected,
               message := "VirtualServerRoute " ++ getResourceKey vsr.objectMeta ++
                 " was rejected with error: " ++ e }]
        | _, _ => [])) ∧
    ((AddOrUpdateTransportServer (AddOrUpdateTransportServer c ts).1 ts).2.1 = [] ∧
     (AddOrUpdateTransportServer (AddOrUpdateTransportServer c ts).1 ts).2.2 =
       (match c.hasCorrectIngressClassTS ts, c.validateTransportServer ts with
        | true, some e =>
            [{ object := .tsObj ts, isError := true, reason := EventReasonRejected,
               message := "TransportServer " ++ getResourceKey ts.objectMeta ++
                 " was rejected with error: " ++ e }]
        | _, _ => [])) ∧
    ((AddOrUpdateGlobalConfiguration (AddOrUpdateGlobalConfiguration c gc).1 gc).2.1 = [] ∧
     (AddOrUpdateGlobalConfiguration (AddOrUpdateGlobalConfiguration c gc).1 gc).2.2.1 = [] ∧
     (AddOrUpdateGlobalConfiguration (AddOrUpdateGlobalConfiguration c gc).1 gc).2.2.2 =
       c.validateGlobalConfiguration gc) ∧
    ((DeleteIngress (DeleteIngress c k1).1 k1).2.1 = [] ∧
     (DeleteIngress (DeleteIngress c k1).1 k1).2.2 = []) ∧
    ((DeleteVirtualServer (DeleteVirtualServer c k2).1 k2).2.1 = [] ∧
     (DeleteVirtualServer (DeleteVirtualServer c k2).1 k2).2.2 = []) ∧
    ((DeleteVirtualServerRoute (DeleteVirtualServerRoute c k3).1 k3).2.1 = [] ∧
     (DeleteVirtualServerRoute (DeleteVirtualServerRoute c k3).1 k3).2.2 = []) ∧
    ((DeleteTransportServer (DeleteTransportServer c k4).1 k4).2.1 = [] ∧
     (DeleteTransportServer (DeleteTransportServer c k4).1 k4).2.2 = []) ∧
    ((DeleteGlobalConfiguration (DeleteGlobalConfiguration c).1).2.1 = [] ∧
     (DeleteGlobalConfiguration (DeleteGlobalConfiguration c).1).2.2 = []) :=
  ⟨aou_ing_again c ing, aou_vs_again c vs, aou_vsr_again c vsr, aou_ts_again c ts,
   aou_gc_again c gc, del_ing_again c k1, del_vs_again c k2, del_vsr_again c k3,
   del_ts_again c k4, del_gc_again c⟩

/-! ## Claim C3: the validation gate -/

/-- C4 counterexample: a VirtualServer that fails validation both times makes
the second identical `AddOrUpdateVirtualServer` call re-emit the rejection
problem, so the second call's problem list is not empty. -/
theorem c4_counterexample :
    (AddOrUpdateVirtualServer (AddOrUpdateVirtualServer fxAllBad fxVsA).1 fxVsA).2.1 = [] ∧
    (AddOrUpdateVirtualServer (AddOrUpdateVirtualServer fxAllBad fxVsA).1 fxVsA).2.2 =
      [{ object := .vsObj fxVsA, isError := true, reason := EventReasonRejected,
         message := "VirtualServer " ++ getResourceKey fxVsA.objectMeta ++
           " was rejected with error: bad vs" }] := by
  constructor
  · rfl
  · rfl

/-- C3 counterexample: a GlobalConfiguration that fails validation is
nevertheless stored (and the error is returned to the caller), so the claim
fails for `AddOrUpdateGlobalConfiguration`. -/
theorem c3_counterexample :
    (AddOrUpdateGlobalConfiguration fxAllBad fxGC).1.globalConfiguration = some fxGC ∧
    (AddOrUpdateGlobalConfiguration fxAllBad fxGC).2.2.2 = some "bad gc" := by
  constructor
  · rfl
  · rfl

/-- C3 (amended): for the Ingress, VirtualServer, VirtualServerRoute and
TransportServer mutators, an object that passes the ingress-class filter but
fails validation is absent from the corresponding internal map after the
call; `AddOrUpdateGlobalConfiguration` instead stores the object regardless
and returns the validation error to the caller. -/
theorem c3_validation_failure_evicts (c : KConfiguration) (ing : Ingress)
    (vs : VirtualServer) (vsr : VirtualServerRoute) (ts : TransportServer)
    (e1 e2 e3 e4 : String) :
    (c.hasCorrectIngressClassIng ing = true → c.validateIngress ing = some e1 →
      alookup (getResourceKey ing.objectMeta) (AddOrUpdateIngress c ing).1.ingresses = none) ∧
    (c.hasCorrectIngressClassVS vs = true → c.validateVirtualServer vs = some e2 →
      alookup (getResourceKey vs.objectMeta)
        (AddOrUpdateVirtualServer c vs).1.virtualServers = none) ∧
    (c.hasCorrectIngressClassVSR vsr = true → c.validateVirtualServerRoute vsr = some e3 →
      alookup (getResourceKey vsr.objectMeta)
        (AddOrUpdateVirtualServerRoute c vsr).1.virtualServerRoutes = none) ∧
    (c.hasCorrectIngressClassTS ts = true → c.validateTransportServer ts = some e4 →
      alookup (getResourceKey ts.objectMeta)
        (AddOrUpdateTransportServer c ts).1.transportServers = none) := by
  refine ⟨?_, ?_, ?_, ?_⟩
  · intro hclass hval
    unfold AddOrUpdateIngress
    rw [hclass, hval]
    simp only [not_true_eq_false, Bool.false_eq_true, if_false]
    split
    · exact alookup_aerase_self _ _
    · exact alookup_aerase_self _ _
  · intro hclass hval
    unfold AddOrUpdateVirtualServer
    rw [hclass, hval]
    simp only [not_true_eq_false, Bool.false_eq_true, if_false]
    split
    · exact alookup_aerase_self _ _
    · exact alookup_aerase_self _ _
  · intro hclass hval
    unfold AddOrUpdateVirtualServerRoute
    rw [hclass, hval]
    simp only [not_true_eq_false, Bool.false_eq_true, if_false]
    exact alookup_aerase_self _ _
  · intro hclass hval
    unfold AddOrUpdateTransportServer
    rw [hclass, hval]
    simp only [not_true_eq_false, Bool.false_eq_true, if_false]
    split
    · rw [rebuildForTransportServer_transportServers]
      exact alookup_aerase_self _ _
    · rw [rebuildForTransportServer_transportServers]
      exact alookup_aerase_self _ _

/-! ## Claim C2: the TLS-passthrough pass condition -/

/-- C2 counterexample: a TransportServer whose listener name is
`tls-passthrough` but whose protocol is TCP claims its host in the third
pass, although the claim says a server satisfying only one of the two
conditions does not participate. -/
theorem c2_counterexample :
    alookup "h" (buildHostsAndResources fxC2State).1 = some "TransportServer/n/t" ∧
    ¬ (fxTsMixed.listenerRef.name = TLSPassthroughListenerName ∧
       fxTsMixed.listenerRef.protocol = TLSPassthroughListenerProtocol) := by
  constructor
  · decide
  · decide

/-- C2 (amended): with TLS passthrough enabled, a stored TransportServer
participates in the third pass of the host rebuild (claims its host) exactly
when its listener name is `tls-passthrough` OR its listener protocol is
`TLS_PASSTHROUGH` — the source skips an entry only when both conditions
fail. -/
theorem c2_tls_passthrough_participation (c : KConfiguration) (k : String)
    (ts : TransportServer) (hing : c.ingresses = []) (hvs : c.virtualServers = [])
    (hts : c.transportServers = [(k, ts)]) (htls : c.isTLSPassthroughEnabled = true) :
    (alookup ts.host (buildHostsAndResources c).1 =
      some ((Resource.tsRes (NewTransportServerConfiguration ts)).GetKeyWithKind)) ↔
    (ts.listenerRef.name = TLSPassthroughListenerName ∨
     ts.listenerRef.protocol = TLSPassthroughListenerProtocol) := by
  unfold buildHostsAndResources
  rw [hing, hvs, htls, hts]
  simp only [getSortedKeys, sortKeysBy, List.map, List.foldr, List.foldl,
    insertSortedBy, if_true]
  unfold tsPassStep
  rw [hts]
  simp only [alookup, eq_self_iff_true, if_true]
  by_cases hcond : ts.listenerRef.name = TLSPassthroughListenerName ∨
      ts.listenerRef.protocol = TLSPassthroughListenerProtocol
  · have hskip : ¬ (ts.listenerRef.name ≠ TLSPassthroughListenerName ∧
        ts.listenerRef.protocol ≠ TLSPassthroughListenerProtocol) := by
      tauto
    rw [if_neg hskip]
    unfold claimHost
    simp only [alookup, ainsert, aerase, if_pos rfl]
    exact iff_of_true rfl hcond
  · have hskip : ts.listenerRef.name ≠ TLSPassthroughListenerName ∧
        ts.listenerRef.protocol ≠ TLSPassthroughListenerProtocol := by
      tauto
    rw [if_pos hskip]
    simp only [alookup]
    exact iff_of_false (by simp) hcond

/-- C2 witness: the participation equivalence applied to the mixed
TransportServer, whose listener name alone satisfies the disjunction. -/
theorem c2_witness :
    alookup "h" (buildHostsAndResources fxC2State).1 =
      some ((Resource.tsRes (NewTransportServerConfiguration fxTsMixed)).GetKeyWithKind) :=
  (c2_tls_passthrough_participation fxC2State "n/t" fxTsMixed rfl rfl rfl rfl).mpr
    (Or.inl rfl)

/-- C3 witness: the eviction conclusions discharged on a concrete store with
failing validators. -/
theorem c3_witness :
    alookup "x/a" (AddOrUpdateIngress fxAllBad fxIngA).1.ingresses = none ∧
    alookup "x/b" (AddOrUpdateVirtualServer fxAllBad fxVsA).1.virtualServers = none ∧
    alookup "x/b" (AddOrUpdateVirtualServerRoute fxAllBad fxVsrA).1.virtualServerRoutes = none ∧
    alookup "n/t" (AddOrUpdateTransportServer fxAllBad fxTsTcp).1.transportServers = none :=
  ⟨(c3_validation_failure_evicts fxAllBad fxIngA fxVsA fxVsrA fxTsTcp
      "bad ing" "bad vs" "bad vsr" "bad ts").1 rfl rfl,
   (c3_validation_failure_evicts fxAllBad fxIngA fxVsA fxVsrA fxTsTcp
      "bad ing" "bad vs" "bad vsr" "bad ts").2.1 rfl rfl,
   (c3_validation_failure_evicts fxAllBad fxIngA fxVsA fxVsrA fxTsTcp
      "bad ing" "bad vs" "bad vsr" "bad ts").2.2.1 rfl rfl,
   (c3_validation_failure_evicts fxAllBad fxIngA fxVsA fxVsrA fxTsTcp
      "bad ing" "bad vs" "bad vsr" "bad ts").2.2.2 rfl rfl⟩

/-! ## Claim C5: host collision arbitration -/

/-- C5: when an Ingress and a VirtualServer claim the same host, the rebuilt
hosts map holds the one favoured by the wins predicate; the loser's derived
configuration carries the warning `host h is taken by another resource`; and
a losing VirtualServer additionally yields the problem (Rejected,
isError=false, `Host is taken by another resource`). -/
theorem c5_host_collision (tI tV : Nat) (uI uV h : String) :
    (chooseObjectMetaWinner (c5MetaI tI uI) (c5MetaV tV uV) = true →
      (rebuildHosts (c5State tI tV uI uV h)).1.hosts =
        [(h, .ingRes { ingress := c5Ing (c5MetaI tI uI) h, isMaster := false,
                       minions := [], validHosts := [(h, true)], warnings := [],
                       childWarnings := [] })] ∧
      alookup "VirtualServer/n/v" (computeNewResources (c5State tI tV uI uV h)) =
        some (.vsRes { virtualServer := c5Vs (c5MetaV tV uV) h,
                       virtualServerRoutes := [],
                       warnings := ["host " ++ h ++ " is taken by another resource"],
                       httpPort := 0, httpsPort := 0, httpIPv4 := "", httpIPv6 := "",
                       httpsIPv4 := "", httpsIPv6 := "" }) ∧
      alookup "VirtualServer/n/v" (rebuildHosts (c5State tI tV uI uV h)).1.hostProblems =
        some { object := .vsObj (c5Vs (c5MetaV tV uV) h), isError := false,
               reason := EventReasonRejected,
               message := "Host is taken by another resource" }) ∧
    (chooseObjectMetaWinner (c5MetaI tI uI) (c5MetaV tV uV) = false →
      (rebuildHosts (c5State tI tV uI uV h)).1.hosts =
        [(h, .vsRes { virtualServer := c5Vs (c5MetaV tV uV) h,
                      virtualServerRoutes := [], warnings := [], httpPort := 0,
                      httpsPort := 0, httpIPv4 := "", httpIPv6 := "",
                      httpsIPv4 := "", httpsIPv6 := "" })] ∧
      alookup "Ingress/n/i" (computeNewResources (c5State tI tV uI uV h)) =
        some (.ingRes { ingress := c5Ing (c5MetaI tI uI) h, isMaster := false,
                        minions := [], validHosts := [(h, false)],
                        warnings := ["host " ++ h ++ " is taken by another resource"],
                        childWarnings := [] })) := by
  constructor
  · intro hw
    refine ⟨?_, ?_, ?_⟩ <;>
      simp [c5State, c5Ing, c5Vs, c5MetaI, c5MetaV, fxBase, NewConfiguration,
        rebuildHosts_state_hosts, rebuildHosts_state_hostProblems,
        computeNewHosts, computeNewResources, computeNewHostProblems,
        buildHostsAndResources, getSortedKeys, sortKeysBy, insertSortedBy,
        ingressPassStep, vsPassStep, tsPassStep, isMinion, isMaster,
        isChallengeIngress, NewRegularIngressConfiguration,
        buildVirtualServerRoutes, buildListenersForVSConfiguration,
        NewVirtualServerConfiguration, claimHost, Resource.Wins,
        Resource.GetObjectMeta, Resource.GetKeyWithKind, Resource.AddWarning,
        getResourceKey, ingressKind, virtualServerKind, alookup, aerase,
        ainsert, aupdate, updateActiveHostsForIngresses,
        addWarningsForVirtualServersWithMissConfiguredListeners, resolveHosts,
        addProblemsForResourcesWithoutActiveHost, addProblemsForOrphanMinions,
        addProblemsForOrphanOrIgnoredVsrs, EventReasonRejected, hw] at hw ⊢
  · intro hw
    refine ⟨?_, ?_⟩ <;>
      simp [c5State, c5Ing, c5Vs, c5MetaI, c5MetaV, fxBase, NewConfiguration,
        rebuildHosts_state_hosts,
        computeNewHosts, computeNewResources,
        buildHostsAndResources, getSortedKeys, sortKeysBy, insertSortedBy,
        ingressPassStep, vsPassStep, tsPassStep, isMinion, isMaster,
        isChallengeIngress, NewRegularIngressConfiguration,
        buildVirtualServerRoutes, buildListenersForVSConfiguration,
        NewVirtualServerConfiguration, claimHost, Resource.Wins,
        Resource.GetObjectMeta, Resource.GetKeyWithKind, Resource.AddWarning,
        getResourceKey, ingressKind, virtualServerKind, alookup, aerase,
        ainsert, aupdate, updateActiveHostsForIngresses,
        addWarningsForVirtualServersWithMissConfiguredListeners, resolveHosts,
        hw] at hw ⊢

/-- C5 witness: both directions discharged on concrete timestamps (0 beats 1;
1 loses to 0). -/
theorem c5_witness :
    chooseObjectMetaWinner (c5MetaI 0 "a") (c5MetaV 1 "b") = true ∧
    chooseObjectMetaWinner (c5MetaI 1 "a") (c5MetaV 0 "b") = false ∧
    (rebuildHosts (c5State 0 1 "a" "b" "x.io")).1.hosts =
      [("x.io", .ingRes { ingress := c5Ing (c5MetaI 0 "a") "x.io",
                          isMaster := false, minions := [],
                          validHosts := [("x.io", true)], warnings := [],
                          childWarnings := [] })] ∧
    alookup "VirtualServer/n/v"
        (rebuildHosts (c5State 0 1 "a" "b" "x.io")).1.hostProblems =
      some { object := .vsObj (c5Vs (c5MetaV 1 "b") "x.io"), isError := false,
             reason := EventReasonRejected,
             message := "Host is taken by another resource" } ∧
    (rebuildHosts (c5State 1 0 "a" "b" "x.io")).1.hosts =
      [("x.io", .vsRes { virtualServer := c5Vs (c5MetaV 0 "b") "x.io",
                         virtualServerRoutes := [], warnings := [],
                         httpPort := 0, httpsPort := 0, httpIPv4 := "",
                         httpIPv6 := "", httpsIPv4 := "", httpsIPv6 := "" })] :=
  ⟨by decide, by decide,
   ((c5_host_collision 0 1 "a" "b" "x.io").1 (by decide)).1,
   ((c5_host_collision 0 1 "a" "b" "x.io").1 (by decide)).2.2,
   ((c5_host_collision 1 0 "a" "b" "x.io").2 (by decide)).1⟩

/-! ## Claim C8: cert-manager challenge ingresses -/

/-- C8: with cert-manager enabled, a challenge ingress whose host is owned by
a stored VirtualServer yields no IngressConfiguration; the VirtualServer's
configuration instead gains the synthesised VirtualServerRoute (upstream
`challenge` with the ingress's backend service and uint16-converted port;
one subroute with the ingress's path and action pass `challenge`).  Without
such a VirtualServer the challenge ingress is processed as an ordinary
ingress. -/
theorem c8_challenge_ingress (prt : Int) :
    alookup "Ingress/n/ci" (computeNewResources (c8StateA prt)) = none ∧
    (rebuildHosts (c8StateA prt)).1.hosts =
      [("x.io", .vsRes { virtualServer := c8Vs,
                         virtualServerRoutes :=
                           [{ objectMeta := zeroMetaWith "n" "ci", host := "x.io",
                              upstreams := [{ name := "challenge", service := "cm-solver",
                                              port := (prt % 65536).toNat }],
                              subroutes := [{ path := "/.well-known/acme-challenge/tok",
                                              action := some { pass := "challenge" } }] }],
                         warnings := [], httpPort := 0, httpsPort := 0, httpIPv4 := "",
                         httpIPv6 := "", httpsIPv4 := "", httpsIPv6 := "" })] ∧
    alookup "Ingress/n/ci" (computeNewResources (c8StateB prt)) =
      some (.ingRes { ingress := c8Ing prt, isMaster := false, minions := [],
                      validHosts := [("x.io", true)], warnings := [],
                      childWarnings := [] }) ∧
    (rebuildHosts (c8StateB prt)).1.hosts =
      [("x.io", .ingRes { ingress := c8Ing prt, isMaster := false, minions := [],
                          validHosts := [("x.io", true)], warnings := [],
                          childWarnings := [] })] :=
  ⟨rfl, rfl, rfl, rfl⟩

end Ingr
